import Mathlib

/-!
# ShadowFlow — verification of the review-scheduling and mastery core

A shallow embedding of the core of the `shadow-flow` repository:

* `src/engine/srs.ts` — SM-2 style review-state updates (`updateReviewState`,
  `calculateDueDate`, defaults);
* `src/store/reviewStates.ts` — the per-(sentence, mode) review-state table
  with lazy default creation;
* `src/engine/speaking.ts` — the session scheduler (`submitGrade`): attempt
  counters, the time-ordered `ScheduledCard` queue, session mastery;
* `src/store/wordStats.ts` — word statistics and word-mastery recomputation;
* `src/store/sentences.ts`, `src/store/sentenceMastery.ts`,
  `src/store/courses.ts` — sentence / mastery / course-lesson stores and the
  cascading delete;
* `src/engine/progression.ts` — the lesson-completion gate and unlocking;
* `src/engine/writing.ts` — the fallback (non-IndexedDB) bulk-import path
  with rollback on failure.

Modelling conventions: calendar dates (ISO `YYYY-MM-DD` strings in the
source, which compare in date order) are integer day numbers; wall-clock
instants (`Date.now()`) are integer milliseconds; JavaScript numbers used
for the ease factor are rationals; the ES `Map`s and arrays backing the
in-memory stores are association lists, with `Map.set` / `Map.get` /
`Map.delete` modeled by key-based replace / first-match lookup / filter.
-/

namespace ShadowFlow

/-- Review mode: `'listen' | 'speak' | 'write'` (types.ts `ReviewMode`). -/
inductive ReviewMode where
  | listen
  | speak
  | write
deriving DecidableEq, Repr

/-- Review grade: `0 | 1 | 2` = Again / Good / Easy (types.ts `ReviewGrade`). -/
inductive ReviewGrade where
  | again
  | good
  | easy
deriving DecidableEq, Repr

/-- types.ts `ReviewState`: the per-(sentence, mode) scheduling record.
`due`, `lastReviewedAt` are day numbers; `ease` is a rational. -/
structure ReviewState where
  sentenceId : String
  mode : ReviewMode
  interval : Int
  due : Int
  ease : ℚ
  repetitions : Nat
  lapses : Nat
  lastResult : Option ReviewGrade := none
  lastReviewedAt : Option Int := none
deriving DecidableEq, Repr

/-! ## SRS update (src/engine/srs.ts) -/

/-- srs.ts `INITIAL_EASE = 2.5`. -/
def INITIAL_EASE : ℚ := 5 / 2

/-- srs.ts `MIN_EASE = 1.3`. -/
def MIN_EASE : ℚ := 13 / 10

/-- JavaScript `Math.round`: round half toward positive infinity. -/
def jsRound (q : ℚ) : Int := ⌊q + 1 / 2⌋

/-- srs.ts `calculateDueDate`: today plus the interval, as a day number. -/
def calculateDueDate (today : Int) (intervalDays : Int) : Int :=
  today + intervalDays

/-- reviewStates.ts `defaultState` (identical to the default built in srs.ts
`getOrCreateState`): interval 0, due today, ease 2.5, repetitions 0, lapses 0. -/
def defaultState (sentenceId : String) (mode : ReviewMode) (today : Int) : ReviewState :=
  { sentenceId := sentenceId
    mode := mode
    interval := 0
    due := today
    ease := INITIAL_EASE
    repetitions := 0
    lapses := 0 }

/-- The state-transition body of srs.ts `updateReviewState` (lines 56–81):
given the current state and a grade, produce the next state.

* Again (0): repetitions 0, lapses + 1, interval 1, ease `max(1.3, ease - 0.2)`.
* Good/Easy: repetitions + 1; interval laddered on the old repetition count
  (0 ⇒ 4 for Easy else 1; 1 ⇒ 6 for Easy else 3; otherwise
  `Math.round(interval * ease * mult)` with mult 1.3 for Easy else 1);
  ease `ease + 0.1` for Easy else `max(1.3, ease - 0.1)`.
* In every branch `due = calculateDueDate(newInterval)`. -/
def updateReviewStatePure (state : ReviewState) (grade : ReviewGrade) (today : Int) :
    ReviewState :=
  let next := { state with lastResult := some grade, lastReviewedAt := some today }
  if grade = ReviewGrade.again then
    { next with
      repetitions := 0
      lapses := state.lapses + 1
      interval := 1
      ease := max MIN_EASE (state.ease - 2 / 10)
      due := calculateDueDate today 1 }
  else
    let newInterval : Int :=
      if state.repetitions = 0 then (if grade = ReviewGrade.easy then 4 else 1)
      else if state.repetitions = 1 then (if grade = ReviewGrade.easy then 6 else 3)
      else
        jsRound ((state.interval : ℚ) * state.ease *
          (if grade = ReviewGrade.easy then 13 / 10 else 1))
    { next with
      repetitions := state.repetitions + 1
      interval := newInterval
      ease :=
        if grade = ReviewGrade.easy then state.ease + 1 / 10
        else max MIN_EASE (state.ease - 1 / 10)
      due := calculateDueDate today newInterval }

/-- A sequence of graded reviews: fold `updateReviewStatePure` over a list of
(grade, today) pairs. -/
def applyGrades (s : ReviewState) (gs : List (ReviewGrade × Int)) : ReviewState :=
  gs.foldl (fun st p => updateReviewStatePure st p.1 p.2) s

/-! ## Review-state table (src/store/reviewStates.ts) -/

/-- The `stateMap` key test: the map is keyed by the pair (sentenceId, mode)
(the source key string `sentenceId:mode` is injective in this pair, since no
mode name is a suffix of another). -/
def stateKeyMatches (s : ReviewState) (sentenceId : String) (mode : ReviewMode) : Bool :=
  s.sentenceId == sentenceId && decide (s.mode = mode)

/-- `stateMap.get`: first entry under the key. -/
def lookupState (m : List ReviewState) (sentenceId : String) (mode : ReviewMode) :
    Option ReviewState :=
  m.find? (fun s => stateKeyMatches s sentenceId mode)

/-- `stateMap.set`: replace the entry under the key, else append. -/
def setState (m : List ReviewState) (s : ReviewState) : List ReviewState :=
  if m.any (fun t => stateKeyMatches t s.sentenceId s.mode) then
    m.map (fun t => if stateKeyMatches t s.sentenceId s.mode then s else t)
  else m ++ [s]

/-- reviewStates.ts `getReviewState` (lines 71–78): return the stored entry
if present; otherwise materialize the default, store it, and return it.
The result pairs the returned state with the (possibly grown) map. -/
def getReviewState (m : List ReviewState) (sentenceId : String) (mode : ReviewMode)
    (today : Int) : ReviewState × List ReviewState :=
  match lookupState m sentenceId mode with
  | some existing => (existing, m)
  | none =>
      let fresh := defaultState sentenceId mode today
      (fresh, setState m fresh)

/-- srs.ts `updateReviewState` at the store level: read (or lazily create) the
state for (sentenceId, mode), apply the transition, and `setReviewState` the
result.  Returns the new state together with the updated map. -/
def updateReviewState (m : List ReviewState) (sentenceId : String) (mode : ReviewMode)
    (grade : ReviewGrade) (today : Int) : ReviewState × List ReviewState :=
  let got := getReviewState m sentenceId mode today
  let next := updateReviewStatePure got.1 grade today
  (next, setState got.2 next)

/-- Helper: the default state matches its own key. -/
theorem stateKeyMatches_defaultState (sid : String) (mode : ReviewMode) (t : Int) :
    stateKeyMatches (defaultState sid mode t) sid mode = true := by
  simp [stateKeyMatches, defaultState]

/-- Helper: looking up a key after appending a matching entry to a map that
did not contain the key finds the new entry. -/
theorem find?_append_singleton {α : Type} {p : α → Bool} {m : List α}
    {s : α} (h : m.find? p = none) (hp : p s = true) :
    (m ++ [s]).find? p = some s := by
  induction m with
  | nil => simp [List.find?, hp]
  | cons a l ih =>
      simp only [List.find?] at h ⊢
      cases ha : p a with
      | true => simp [ha] at h
      | false =>
          simp only [ha] at h ⊢
          exact ih h

/-- Helper: inserting into a map that lacks the key appends. -/
theorem setState_of_lookup_none {m : List ReviewState} {s : ReviewState}
    (h : lookupState m s.sentenceId s.mode = none) :
    setState m s = m ++ [s] := by
  unfold setState
  have : m.any (fun t => stateKeyMatches t s.sentenceId s.mode) = false := by
    rw [List.any_eq_false]
    intro x hx hmatch
    have := List.find?_eq_none.mp h x hx
    exact this hmatch
  simp [this]

/-! ## Theorems on the SRS update (claims C1, C8, C10) -/

/-- C1 (counterexample): the claim says that on Easy the interval stays flat.
On the freshly defaulted state (interval 0) a single Easy sets the interval to
4 days, so it does not stay flat. -/
theorem easy_grade_changes_interval_on_default :
    (updateReviewStatePure (defaultState "s1" ReviewMode.speak 0) ReviewGrade.easy 0).interval = 4
    ∧ (defaultState "s1" ReviewMode.speak 0).interval = 0 := by
  constructor <;> rfl

/-- C1 (amended): `updateReviewState` applies the day-granularity formula:
in every case the new due date is today plus the new interval; on Again
repetitions resets to 0, lapses increments by 1, the interval resets to 1 day
and ease is lowered by 0.2 (clamped at 1.3); on Good the interval follows the
ladder 1 → 3 → round(interval × ease); on Easy ease is raised by 0.1 and the
interval follows the ladder 4 → 6 → round(interval × ease × 1.3). -/
theorem updateReviewState_day_formula (s : ReviewState) (g : ReviewGrade) (t : Int) :
    (updateReviewStatePure s g t).due = t + (updateReviewStatePure s g t).interval
    ∧ (g = ReviewGrade.again →
        (updateReviewStatePure s g t).repetitions = 0
        ∧ (updateReviewStatePure s g t).lapses = s.lapses + 1
        ∧ (updateReviewStatePure s g t).interval = 1
        ∧ (updateReviewStatePure s g t).ease = max MIN_EASE (s.ease - 2 / 10))
    ∧ (g = ReviewGrade.good →
        (updateReviewStatePure s g t).interval =
          (if s.repetitions = 0 then 1 else if s.repetitions = 1 then 3
           else jsRound ((s.interval : ℚ) * s.ease)))
    ∧ (g = ReviewGrade.easy →
        (updateReviewStatePure s g t).ease = s.ease + 1 / 10
        ∧ (updateReviewStatePure s g t).interval =
            (if s.repetitions = 0 then 4 else if s.repetitions = 1 then 6
             else jsRound ((s.interval : ℚ) * s.ease * (13 / 10)))) := by
  cases g <;>
    simp [updateReviewStatePure, calculateDueDate]

/-- Witness for `updateReviewState_day_formula` at a concrete input. -/
theorem updateReviewState_day_formula_witness :
    (updateReviewStatePure (defaultState "w" ReviewMode.speak 0) ReviewGrade.again 0).lapses
      = (defaultState "w" ReviewMode.speak 0).lapses + 1 :=
  ((updateReviewState_day_formula (defaultState "w" ReviewMode.speak 0)
      ReviewGrade.again 0).2.1 rfl).2.1

/-- C10: `updateReviewState` special-cases early repetitions: from
repetitions = 0, Good sets the interval to 1 day and Easy to 4; from
repetitions = 1, Good sets it to 3 and Easy to 6; only from repetitions ≥ 2
is the new interval `round(interval × ease × m)` with m = 1.3 for Easy and
m = 1 for Good. -/
theorem updateReviewState_interval_ladder (s : ReviewState) (t : Int) :
    ((s.repetitions = 0 →
        (updateReviewStatePure s ReviewGrade.good t).interval = 1
        ∧ (updateReviewStatePure s ReviewGrade.easy t).interval = 4)
    ∧ (s.repetitions = 1 →
        (updateReviewStatePure s ReviewGrade.good t).interval = 3
        ∧ (updateReviewStatePure s ReviewGrade.easy t).interval = 6)
    ∧ (2 ≤ s.repetitions →
        (updateReviewStatePure s ReviewGrade.good t).interval
          = jsRound ((s.interval : ℚ) * s.ease * 1)
        ∧ (updateReviewStatePure s ReviewGrade.easy t).interval
          = jsRound ((s.interval : ℚ) * s.ease * (13 / 10)))) := by
  refine ⟨fun h0 => ?_, fun h1 => ?_, fun h2 => ?_⟩
  · simp [updateReviewStatePure, h0]
  · simp [updateReviewStatePure, h1]
  · have h0 : s.repetitions ≠ 0 := by omega
    have h1 : s.repetitions ≠ 1 := by omega
    simp [updateReviewStatePure, h0, h1]

/-- Witness for `updateReviewState_interval_ladder` at a concrete input. -/
theorem updateReviewState_interval_ladder_witness :
    (updateReviewStatePure (defaultState "w" ReviewMode.speak 0) ReviewGrade.good 0).interval = 1
    ∧ (updateReviewStatePure (defaultState "w" ReviewMode.speak 0) ReviewGrade.easy 0).interval
        = 4 :=
  (updateReviewState_interval_ladder (defaultState "w" ReviewMode.speak 0) 0).1 rfl

/-- C8: every state produced by `updateReviewState` has ease ≥ 1.3: a single
step preserves `MIN_EASE ≤ ease` (the Again and Good branches clamp at
`MIN_EASE`, the Easy branch only raises ease), hence so does any sequence of
grades; the default state satisfies it since 2.5 ≥ 1.3. -/
theorem ease_never_below_min (s : ReviewState) (gs : List (ReviewGrade × Int))
    (h : MIN_EASE ≤ s.ease) :
    MIN_EASE ≤ INITIAL_EASE
    ∧ (∀ g t, MIN_EASE ≤ (updateReviewStatePure s g t).ease)
    ∧ MIN_EASE ≤ (applyGrades s gs).ease := by
  have step : ∀ (s : ReviewState), MIN_EASE ≤ s.ease →
      ∀ g t, MIN_EASE ≤ (updateReviewStatePure s g t).ease := by
    intro s hs g t
    cases g <;> simp [updateReviewStatePure] <;> try exact le_max_left _ _
    linarith
  refine ⟨by norm_num [MIN_EASE, INITIAL_EASE], step s h, ?_⟩
  induction gs generalizing s with
  | nil => exact h
  | cons p ps ih => exact ih _ (step s h p.1 p.2)

/-- Witness for `ease_never_below_min` at a concrete input. -/
theorem ease_never_below_min_witness :
    MIN_EASE ≤ (applyGrades (defaultState "w" ReviewMode.speak 0)
      [(ReviewGrade.again, 0), (ReviewGrade.again, 1), (ReviewGrade.good, 2)]).ease :=
  (ease_never_below_min (defaultState "w" ReviewMode.speak 0)
      [(ReviewGrade.again, 0), (ReviewGrade.again, 1), (ReviewGrade.good, 2)]
      (by norm_num [defaultState, MIN_EASE, INITIAL_EASE])).2.2

/-- C2: for an (id, mode) that has never been graded (no stored entry),
`getReviewState` returns the default
`{interval 0, repetitions 0, ease 2.5, lapses 0, due today}`, that default
becomes the stored value, and a subsequent get for the same (id, mode)
returns the very same stored record (and leaves the map unchanged). -/
theorem getReviewState_lazy_default (m : List ReviewState) (sid : String)
    (mode : ReviewMode) (today : Int) (h : lookupState m sid mode = none) :
    (getReviewState m sid mode today).1 = defaultState sid mode today
    ∧ (getReviewState m sid mode today).1.interval = 0
    ∧ (getReviewState m sid mode today).1.repetitions = 0
    ∧ (getReviewState m sid mode today).1.ease = 5 / 2
    ∧ (getReviewState m sid mode today).1.lapses = 0
    ∧ (getReviewState m sid mode today).1.due = today
    ∧ lookupState (getReviewState m sid mode today).2 sid mode
        = some (defaultState sid mode today)
    ∧ getReviewState (getReviewState m sid mode today).2 sid mode today
        = ((getReviewState m sid mode today).1, (getReviewState m sid mode today).2) := by
  have hget : getReviewState m sid mode today
      = (defaultState sid mode today, setState m (defaultState sid mode today)) := by
    unfold getReviewState
    rw [h]
  have hkey : lookupState m (defaultState sid mode today).sentenceId
      (defaultState sid mode today).mode = none := by
    simpa [defaultState] using h
  have hset : setState m (defaultState sid mode today) = m ++ [defaultState sid mode today] :=
    setState_of_lookup_none hkey
  have hfind : lookupState (setState m (defaultState sid mode today)) sid mode
      = some (defaultState sid mode today) := by
    rw [hset]
    exact find?_append_singleton h (stateKeyMatches_defaultState sid mode today)
  refine ⟨by rw [hget], ?_, ?_, ?_, ?_, ?_, ?_, ?_⟩
  · rw [hget]; rfl
  · rw [hget]; rfl
  · rw [hget]; rfl
  · rw [hget]; rfl
  · rw [hget]; rfl
  · rw [hget]; exact hfind
  · rw [hget]
    unfold getReviewState
    rw [hfind]

/-- Witness for `getReviewState_lazy_default` at a concrete input. -/
theorem getReviewState_lazy_default_witness :
    ((getReviewState [] "s1" ReviewMode.listen 7).1 = defaultState "s1" ReviewMode.listen 7)
    ∧ lookupState (getReviewState [] "s1" ReviewMode.listen 7).2 "s1" ReviewMode.listen
        = some (defaultState "s1" ReviewMode.listen 7) :=
  let h := getReviewState_lazy_default [] "s1" ReviewMode.listen 7 rfl
  ⟨h.1, h.2.2.2.2.2.2.1⟩

/-! ## Generic ES-Map operations on association lists

The stores back their tables by ES `Map`s (or plain keyed arrays); these two
operations model `Map.get` and `Map.set` on an association list with a key
projection. -/

/-- `Map.get key`: the entry under the key, if any. -/
def mapGet {α κ : Type} [DecidableEq κ] (k : α → κ) (m : List α) (key : κ) : Option α :=
  m.find? (fun t => decide (k t = key))

/-- `Map.set`: replace the entry under the entry's own key, else append. -/
def mapSet {α κ : Type} [DecidableEq κ] (k : α → κ) (m : List α) (x : α) : List α :=
  if m.any (fun t => decide (k t = k x)) then
    m.map (fun t => if k t = k x then x else t)
  else m ++ [x]

/-- After `Map.set x`, getting `x`'s key returns `x`. -/
theorem mapGet_mapSet_self {α κ : Type} [DecidableEq κ] (k : α → κ) (m : List α) (x : α) :
    mapGet k (mapSet k m x) (k x) = some x := by
  unfold mapSet
  by_cases hany : m.any (fun t => decide (k t = k x)) = true
  · rw [if_pos hany]
    induction m with
    | nil => simp at hany
    | cons a l ih =>
        by_cases ha : k a = k x
        · simp [mapGet, List.find?, ha]
        · have hl : l.any (fun t => decide (k t = k x)) = true := by
            simpa [List.any_cons, ha] using hany
          simpa [mapGet, List.find?, ha] using ih hl
  · rw [if_neg hany]
    have hfalse : m.any (fun t => decide (k t = k x)) = false :=
      Bool.eq_false_iff.mpr hany
    have hnone : m.find? (fun t => decide (k t = k x)) = none := by
      rw [List.find?_eq_none]
      intro y hy
      exact List.any_eq_false.mp hfalse y hy
    exact find?_append_singleton hnone (by simp)

/-- Helper: appending a non-matching entry does not change `find?`. -/
theorem find?_append_nonmatch {α : Type} {p : α → Bool} {x : α} (m : List α)
    (hx : p x = false) : (m ++ [x]).find? p = m.find? p := by
  induction m with
  | nil => simp [List.find?, hx]
  | cons a l ih =>
      simp only [List.cons_append, List.find?]
      cases hpa : p a <;> simp [hpa, ih]

/-- Helper: replacing the entries under one key does not change lookups under
a different key. -/
theorem find?_map_keyReplace {α κ : Type} [DecidableEq κ] (k : α → κ) (m : List α)
    (x : α) (key : κ) (h : key ≠ k x) :
    (m.map (fun t => if k t = k x then x else t)).find? (fun t => decide (k t = key))
      = m.find? (fun t => decide (k t = key)) := by
  induction m with
  | nil => rfl
  | cons a l ih =>
      by_cases ha : k a = k x
      · have h1 : (decide (k x = key)) = false := by
          simp only [decide_eq_false_iff_not]
          exact fun hc => h hc.symm
        have h2 : (decide (k a = key)) = false := by
          simp only [decide_eq_false_iff_not]
          intro hc
          exact h (by rw [← hc]; exact ha)
        simp [List.find?, ha, h1, h2, ih]
      · simp only [List.map_cons, if_neg ha, List.find?]
        cases hka : decide (k a = key) <;> simp [hka, ih]

/-- `Map.set` does not disturb entries under other keys. -/
theorem mapGet_mapSet_ne {α κ : Type} [DecidableEq κ] (k : α → κ) (m : List α) (x : α)
    (key : κ) (h : key ≠ k x) : mapGet k (mapSet k m x) key = mapGet k m key := by
  unfold mapSet mapGet
  by_cases hany : m.any (fun t => decide (k t = k x)) = true
  · rw [if_pos hany]
    exact find?_map_keyReplace k m x key h
  · rw [if_neg hany]
    exact find?_append_nonmatch m (by simpa using fun hc => h hc.symm)

/-! ## Sentence mastery store (src/store/sentenceMastery.ts) -/

/-- `DifficultyPath`: the attempt-count bucket tag
(`'easy' | 'good' | 'difficult'`). -/
inductive DifficultyPath where
  | easy
  | good
  | difficult
deriving DecidableEq, Repr

/-- types.ts `SentenceMastery`: the per-sentence session-mastery record.
`masteredAt` is a day number. -/
structure SentenceMastery where
  sentenceId : String
  isMastered : Bool
  masteredAt : Option Int := none
  currentDifficulty : DifficultyPath
  transitionCount : Nat
deriving DecidableEq, Repr

/-- sentenceMastery.ts `deriveDifficulty`: 1 attempt ⇒ easy, 2 ⇒ good,
3+ ⇒ difficult. -/
def deriveDifficulty (attemptCount : Nat) : DifficultyPath :=
  if attemptCount ≤ 1 then DifficultyPath.easy
  else if attemptCount = 2 then DifficultyPath.good
  else DifficultyPath.difficult

/-- The `masteryMap.get` lookup. -/
def lookupMastery (m : List SentenceMastery) (sentenceId : String) : Option SentenceMastery :=
  mapGet (fun e => e.sentenceId) m sentenceId

/-- sentenceMastery.ts `getSentenceMasteryStatus`:
`masteryMap.get(id)?.isMastered ?? false`. -/
def getSentenceMasteryStatus (m : List SentenceMastery) (sentenceId : String) : Bool :=
  match lookupMastery m sentenceId with
  | some e => e.isMastered
  | none => false

/-- sentenceMastery.ts `markSentenceMasteredInSession`: unconditionally store
a mastered record, bumping the transition count and deriving the difficulty
from the attempt count. -/
def markSentenceMasteredInSession (m : List SentenceMastery) (sentenceId : String)
    (attemptCount : Nat) (today : Int) : List SentenceMastery :=
  let existing := lookupMastery m sentenceId
  let currentCount := (match existing with | some e => e.transitionCount | none => 0) + 1
  mapSet (fun e => e.sentenceId) m
    { sentenceId := sentenceId
      isMastered := true
      masteredAt := some today
      currentDifficulty := deriveDifficulty attemptCount
      transitionCount := currentCount }

/-- sentenceMastery.ts `updateSentenceMastery` (lines 106–164): grade Easy (or
an absent grade) marks/keeps mastered and bumps the count; Again/Good records
not-yet-mastered and only tracks difficulty.  Early no-change returns leave
the map untouched. -/
def updateSentenceMastery (m : List SentenceMastery) (sentenceId : String)
    (grade : Option ReviewGrade) (attemptCount : Option Nat) (today : Int) :
    List SentenceMastery :=
  let existing := lookupMastery m sentenceId
  let isEasy := grade = some ReviewGrade.easy
  let currentDifficulty :=
    match attemptCount with
    | some a => deriveDifficulty a
    | none => match existing with
              | some e => e.currentDifficulty
              | none => DifficultyPath.difficult
  let currentCount := match existing with | some e => e.transitionCount | none => 0
  if isEasy ∨ grade = none then
    let newCount :=
      if grade = some ReviewGrade.easy ∨ grade = none then currentCount + 1 else currentCount
    let isMastered : Bool :=
      decide isEasy ||
        (if grade = none then
          (match existing with | some e => e.isMastered | none => false)
         else false)
    let noChange : Bool :=
      match existing with
      | some e =>
          decide (e.isMastered = isMastered) && decide (e.currentDifficulty = currentDifficulty)
            && decide (e.transitionCount = newCount)
      | none => false
    if noChange then m
    else
      mapSet (fun e => e.sentenceId) m
        { sentenceId := sentenceId
          isMastered := isMastered
          masteredAt :=
            if isMastered then some today
            else match existing with | some e => e.masteredAt | none => none
          currentDifficulty := currentDifficulty
          transitionCount := newCount }
  else
    let noChange : Bool :=
      match existing with
      | some e => decide (e.currentDifficulty = currentDifficulty) && decide (e.isMastered = false)
      | none => false
    if noChange then m
    else
      mapSet (fun e => e.sentenceId) m
        { sentenceId := sentenceId
          isMastered := false
          masteredAt := match existing with | some e => e.masteredAt | none => none
          currentDifficulty := currentDifficulty
          transitionCount := currentCount }

/-! ## Session scheduler (src/engine/speaking.ts) -/

/-- speaking.ts `AGAIN_DELAY_MS = 60000` (1 min). -/
def AGAIN_DELAY_MS : Int := 60000

/-- speaking.ts `GOOD_DELAY_MS = 300000` (5 min). -/
def GOOD_DELAY_MS : Int := 300000

/-- speaking.ts `ScheduledCard`: session-local re-presentation entry;
`scheduledTime` is a millisecond instant. -/
structure ScheduledCard where
  sentenceId : String
  scheduledTime : Int
  attemptCount : Nat
deriving DecidableEq, Repr

/-- The session-scoped per-item attempt counters
(`attemptCounts.current[id] ?? 0`). -/
def lookupCount (m : List (String × Nat)) (sentenceId : String) : Nat :=
  match mapGet Prod.fst m sentenceId with
  | some p => p.2
  | none => 0

/-- The session-scoped state touched by speaking.ts `submitGrade`: the
time-ordered queue, the attempt counters and the sentence-mastery store. -/
structure SessionState where
  scheduledQueue : List ScheduledCard
  attemptCounts : List (String × Nat)
  masteryMap : List SentenceMastery
deriving Repr

/-- The session-queue / mastery portion of speaking.ts `submitGrade`
(lines 146–175): increment the per-item attempt counter; on Easy at attempt 1
mark mastered in session and do not enqueue; on Good enqueue a card at
`now + GOOD_DELAY_MS`; on Again enqueue a card at `now + AGAIN_DELAY_MS`
(both also record not-yet-mastered tracking); on Easy after attempt 1 still
mark mastered.  (The review-state update performed by the same call is
`updateReviewState`, modeled above.) -/
def submitGradeSession (st : SessionState) (sentenceId : String) (grade : ReviewGrade)
    (now : Int) (today : Int) : SessionState :=
  let attempts := lookupCount st.attemptCounts sentenceId + 1
  let st := { st with attemptCounts := mapSet Prod.fst st.attemptCounts (sentenceId, attempts) }
  let st :=
    if grade = ReviewGrade.easy ∧ attempts = 1 then
      { st with masteryMap := markSentenceMasteredInSession st.masteryMap sentenceId attempts today }
    else if grade = ReviewGrade.good then
      { st with
        scheduledQueue := st.scheduledQueue ++
          [{ sentenceId := sentenceId, scheduledTime := now + GOOD_DELAY_MS,
             attemptCount := attempts }]
        masteryMap :=
          updateSentenceMastery st.masteryMap sentenceId (some grade) (some attempts) today }
    else if grade = ReviewGrade.again then
      { st with
        scheduledQueue := st.scheduledQueue ++
          [{ sentenceId := sentenceId, scheduledTime := now + AGAIN_DELAY_MS,
             attemptCount := attempts }]
        masteryMap :=
          updateSentenceMastery st.masteryMap sentenceId (some grade) (some attempts) today }
    else st
  if grade = ReviewGrade.easy ∧ attempts > 1 then
    { st with masteryMap := markSentenceMasteredInSession st.masteryMap sentenceId attempts today }
  else st

/-- Helper: storing a mastery entry makes its status readable under its key. -/
theorem getSentenceMasteryStatus_mapSet (m : List SentenceMastery) (e : SentenceMastery) :
    getSentenceMasteryStatus (mapSet (fun x => x.sentenceId) m e) e.sentenceId = e.isMastered := by
  unfold getSentenceMasteryStatus lookupMastery
  rw [mapGet_mapSet_self]

/-- Helper: `markSentenceMasteredInSession` makes the sentence mastered. -/
theorem getSentenceMasteryStatus_mark (m : List SentenceMastery) (sid : String)
    (attempts : Nat) (today : Int) :
    getSentenceMasteryStatus (markSentenceMasteredInSession m sid attempts today) sid = true := by
  unfold markSentenceMasteredInSession
  exact getSentenceMasteryStatus_mapSet m _

/-- C3: in a practice session, grading Easy with per-item session attempt
count 1 sets the mastery record to mastered and enqueues no `ScheduledCard`;
grading Good enqueues a card at `now + 300000` ms; grading Again enqueues a
card at `now + 60000` ms (both carrying the incremented attempt count). -/
theorem submitGrade_session_behavior (st : SessionState) (sid : String) (now today : Int) :
    (lookupCount st.attemptCounts sid = 0 →
        (submitGradeSession st sid ReviewGrade.easy now today).scheduledQueue
            = st.scheduledQueue
        ∧ getSentenceMasteryStatus
            (submitGradeSession st sid ReviewGrade.easy now today).masteryMap sid = true)
    ∧ (submitGradeSession st sid ReviewGrade.good now today).scheduledQueue
        = st.scheduledQueue ++
          [{ sentenceId := sid, scheduledTime := now + 300000,
             attemptCount := lookupCount st.attemptCounts sid + 1 }]
    ∧ (submitGradeSession st sid ReviewGrade.again now today).scheduledQueue
        = st.scheduledQueue ++
          [{ sentenceId := sid, scheduledTime := now + 60000,
             attemptCount := lookupCount st.attemptCounts sid + 1 }] := by
  refine ⟨fun h0 => ⟨?_, ?_⟩, ?_, ?_⟩
  · unfold submitGradeSession
    simp [h0]
  · unfold submitGradeSession
    simp [h0, getSentenceMasteryStatus_mark]
  · unfold submitGradeSession
    simp [GOOD_DELAY_MS]
  · unfold submitGradeSession
    simp [AGAIN_DELAY_MS]

/-- Witness for `submitGrade_session_behavior` at a concrete input. -/
theorem submitGrade_session_behavior_witness :
    (submitGradeSession ⟨[], [], []⟩ "s1" ReviewGrade.easy 1000 3).scheduledQueue = []
    ∧ getSentenceMasteryStatus
        (submitGradeSession ⟨[], [], []⟩ "s1" ReviewGrade.easy 1000 3).masteryMap "s1" = true :=
  (submitGrade_session_behavior ⟨[], [], []⟩ "s1" 1000 3).1 rfl

/-! ## Sentences and word statistics (src/store/sentences.ts, src/store/wordStats.ts) -/

/-- types.ts `Sentence`.  `createdAt` is a millisecond instant;
`sourceFileId` is optional. -/
structure Sentence where
  id : String
  lessonId : String
  index : Nat
  french : String
  english : String
  sourceFileId : Option String := none
  createdAt : Int
deriving DecidableEq, Repr

/-- sentences.ts `getSentence`: first sentence with the id. -/
def getSentence (sentences : List Sentence) (id : String) : Option Sentence :=
  sentences.find? (fun s => s.id == id)

/-- types.ts `WordStats`: one vocabulary token.  `lastSeenAt` is a day
number. -/
structure WordStats where
  id : String
  text : String
  sentenceIds : List String
  totalSeenCount : Nat
  lastSeenAt : Option Int := none
  isMastered : Bool
deriving DecidableEq, Repr

/-- wordStats.ts `MIN_WORD_SEEN = 3`. -/
def MIN_WORD_SEEN : Nat := 3

set_option maxHeartbeats 2000000 in
/-- The Unicode general categories `L` (letter) and `N` (number) as code-point
ranges, generated from the Unicode 14.0.0 character database: the character
class the `\p{L}\p{N}` escapes of wordStats.ts `tokenize` match. -/
def letterDigitRanges : List (Nat × Nat) :=
  [(0x30, 0x39), (0x41, 0x5A), (0x61, 0x7A), (0xAA, 0xAA), (0xB2, 0xB3), (0xB5, 0xB5),
   (0xB9, 0xBA), (0xBC, 0xBE), (0xC0, 0xD6), (0xD8, 0xF6), (0xF8, 0x2C1), (0x2C6, 0x2D1),
   (0x2E0, 0x2E4), (0x2EC, 0x2EC), (0x2EE, 0x2EE), (0x370, 0x374), (0x376, 0x377), (0x37A, 0x37D),
   (0x37F, 0x37F), (0x386, 0x386), (0x388, 0x38A), (0x38C, 0x38C), (0x38E, 0x3A1), (0x3A3, 0x3F5),
   (0x3F7, 0x481), (0x48A, 0x52F), (0x531, 0x556), (0x559, 0x559), (0x560, 0x588), (0x5D0, 0x5EA),
   (0x5EF, 0x5F2), (0x620, 0x64A), (0x660, 0x669), (0x66E, 0x66F), (0x671, 0x6D3), (0x6D5, 0x6D5),
   (0x6E5, 0x6E6), (0x6EE, 0x6FC), (0x6FF, 0x6FF), (0x710, 0x710), (0x712, 0x72F), (0x74D, 0x7A5),
   (0x7B1, 0x7B1), (0x7C0, 0x7EA), (0x7F4, 0x7F5), (0x7FA, 0x7FA), (0x800, 0x815), (0x81A, 0x81A),
   (0x824, 0x824), (0x828, 0x828), (0x840, 0x858), (0x860, 0x86A), (0x870, 0x887), (0x889, 0x88E),
   (0x8A0, 0x8C9), (0x904, 0x939), (0x93D, 0x93D), (0x950, 0x950), (0x958, 0x961), (0x966, 0x96F),
   (0x971, 0x980), (0x985, 0x98C), (0x98F, 0x990), (0x993, 0x9A8), (0x9AA, 0x9B0), (0x9B2, 0x9B2),
   (0x9B6, 0x9B9), (0x9BD, 0x9BD), (0x9CE, 0x9CE), (0x9DC, 0x9DD), (0x9DF, 0x9E1), (0x9E6, 0x9F1),
   (0x9F4, 0x9F9), (0x9FC, 0x9FC), (0xA05, 0xA0A), (0xA0F, 0xA10), (0xA13, 0xA28), (0xA2A, 0xA30),
   (0xA32, 0xA33), (0xA35, 0xA36), (0xA38, 0xA39), (0xA59, 0xA5C), (0xA5E, 0xA5E), (0xA66, 0xA6F),
   (0xA72, 0xA74), (0xA85, 0xA8D), (0xA8F, 0xA91), (0xA93, 0xAA8), (0xAAA, 0xAB0), (0xAB2, 0xAB3),
   (0xAB5, 0xAB9), (0xABD, 0xABD), (0xAD0, 0xAD0), (0xAE0, 0xAE1), (0xAE6, 0xAEF), (0xAF9, 0xAF9),
   (0xB05, 0xB0C), (0xB0F, 0xB10), (0xB13, 0xB28), (0xB2A, 0xB30), (0xB32, 0xB33), (0xB35, 0xB39),
   (0xB3D, 0xB3D), (0xB5C, 0xB5D), (0xB5F, 0xB61), (0xB66, 0xB6F), (0xB71, 0xB77), (0xB83, 0xB83),
   (0xB85, 0xB8A), (0xB8E, 0xB90), (0xB92, 0xB95), (0xB99, 0xB9A), (0xB9C, 0xB9C), (0xB9E, 0xB9F),
   (0xBA3, 0xBA4), (0xBA8, 0xBAA), (0xBAE, 0xBB9), (0xBD0, 0xBD0), (0xBE6, 0xBF2), (0xC05, 0xC0C),
   (0xC0E, 0xC10), (0xC12, 0xC28), (0xC2A, 0xC39), (0xC3D, 0xC3D), (0xC58, 0xC5A), (0xC5D, 0xC5D),
   (0xC60, 0xC61), (0xC66, 0xC6F), (0xC78, 0xC7E), (0xC80, 0xC80), (0xC85, 0xC8C), (0xC8E, 0xC90),
   (0xC92, 0xCA8), (0xCAA, 0xCB3), (0xCB5, 0xCB9), (0xCBD, 0xCBD), (0xCDD, 0xCDE), (0xCE0, 0xCE1),
   (0xCE6, 0xCEF), (0xCF1, 0xCF2), (0xD04, 0xD0C), (0xD0E, 0xD10), (0xD12, 0xD3A), (0xD3D, 0xD3D),
   (0xD4E, 0xD4E), (0xD54, 0xD56), (0xD58, 0xD61), (0xD66, 0xD78), (0xD7A, 0xD7F), (0xD85, 0xD96),
   (0xD9A, 0xDB1), (0xDB3, 0xDBB), (0xDBD, 0xDBD), (0xDC0, 0xDC6), (0xDE6, 0xDEF), (0xE01, 0xE30),
   (0xE32, 0xE33), (0xE40, 0xE46), (0xE50, 0xE59), (0xE81, 0xE82), (0xE84, 0xE84), (0xE86, 0xE8A),
   (0xE8C, 0xEA3), (0xEA5, 0xEA5), (0xEA7, 0xEB0), (0xEB2, 0xEB3), (0xEBD, 0xEBD), (0xEC0, 0xEC4),
   (0xEC6, 0xEC6), (0xED0, 0xED9), (0xEDC, 0xEDF), (0xF00, 0xF00), (0xF20, 0xF33), (0xF40, 0xF47),
   (0xF49, 0xF6C), (0xF88, 0xF8C), (0x1000, 0x102A), (0x103F, 0x1049), (0x1050, 0x1055), (0x105A, 0x105D),
   (0x1061, 0x1061), (0x1065, 0x1066), (0x106E, 0x1070), (0x1075, 0x1081), (0x108E, 0x108E), (0x1090, 0x1099),
   (0x10A0, 0x10C5), (0x10C7, 0x10C7), (0x10CD, 0x10CD), (0x10D0, 0x10FA), (0x10FC, 0x1248), (0x124A, 0x124D),
   (0x1250, 0x1256), (0x1258, 0x1258), (0x125A, 0x125D), (0x1260, 0x1288), (0x128A, 0x128D), (0x1290, 0x12B0),
   (0x12B2, 0x12B5), (0x12B8, 0x12BE), (0x12C0, 0x12C0), (0x12C2, 0x12C5), (0x12C8, 0x12D6), (0x12D8, 0x1310),
   (0x1312, 0x1315), (0x1318, 0x135A), (0x1369, 0x137C), (0x1380, 0x138F), (0x13A0, 0x13F5), (0x13F8, 0x13FD),
   (0x1401, 0x166C), (0x166F, 0x167F), (0x1681, 0x169A), (0x16A0, 0x16EA), (0x16EE, 0x16F8), (0x1700, 0x1711),
   (0x171F, 0x1731), (0x1740, 0x1751), (0x1760, 0x176C), (0x176E, 0x1770), (0x1780, 0x17B3), (0x17D7, 0x17D7),
   (0x17DC, 0x17DC), (0x17E0, 0x17E9), (0x17F0, 0x17F9), (0x1810, 0x1819), (0x1820, 0x1878), (0x1880, 0x1884),
   (0x1887, 0x18A8), (0x18AA, 0x18AA), (0x18B0, 0x18F5), (0x1900, 0x191E), (0x1946, 0x196D), (0x1970, 0x1974),
   (0x1980, 0x19AB), (0x19B0, 0x19C9), (0x19D0, 0x19DA), (0x1A00, 0x1A16), (0x1A20, 0x1A54), (0x1A80, 0x1A89),
   (0x1A90, 0x1A99), (0x1AA7, 0x1AA7), (0x1B05, 0x1B33), (0x1B45, 0x1B4C), (0x1B50, 0x1B59), (0x1B83, 0x1BA0),
   (0x1BAE, 0x1BE5), (0x1C00, 0x1C23), (0x1C40, 0x1C49), (0x1C4D, 0x1C7D), (0x1C80, 0x1C88), (0x1C90, 0x1CBA),
   (0x1CBD, 0x1CBF), (0x1CE9, 0x1CEC), (0x1CEE, 0x1CF3), (0x1CF5, 0x1CF6), (0x1CFA, 0x1CFA), (0x1D00, 0x1DBF),
   (0x1E00, 0x1F15), (0x1F18, 0x1F1D), (0x1F20, 0x1F45), (0x1F48, 0x1F4D), (0x1F50, 0x1F57), (0x1F59, 0x1F59),
   (0x1F5B, 0x1F5B), (0x1F5D, 0x1F5D), (0x1F5F, 0x1F7D), (0x1F80, 0x1FB4), (0x1FB6, 0x1FBC), (0x1FBE, 0x1FBE),
   (0x1FC2, 0x1FC4), (0x1FC6, 0x1FCC), (0x1FD0, 0x1FD3), (0x1FD6, 0x1FDB), (0x1FE0, 0x1FEC), (0x1FF2, 0x1FF4),
   (0x1FF6, 0x1FFC), (0x2070, 0x2071), (0x2074, 0x2079), (0x207F, 0x2089), (0x2090, 0x209C), (0x2102, 0x2102),
   (0x2107, 0x2107), (0x210A, 0x2113), (0x2115, 0x2115), (0x2119, 0x211D), (0x2124, 0x2124), (0x2126, 0x2126),
   (0x2128, 0x2128), (0x212A, 0x212D), (0x212F, 0x2139), (0x213C, 0x213F), (0x2145, 0x2149), (0x214E, 0x214E),
   (0x2150, 0x2189), (0x2460, 0x249B), (0x24EA, 0x24FF), (0x2776, 0x2793), (0x2C00, 0x2CE4), (0x2CEB, 0x2CEE),
   (0x2CF2, 0x2CF3), (0x2CFD, 0x2CFD), (0x2D00, 0x2D25), (0x2D27, 0x2D27), (0x2D2D, 0x2D2D), (0x2D30, 0x2D67),
   (0x2D6F, 0x2D6F), (0x2D80, 0x2D96), (0x2DA0, 0x2DA6), (0x2DA8, 0x2DAE), (0x2DB0, 0x2DB6), (0x2DB8, 0x2DBE),
   (0x2DC0, 0x2DC6), (0x2DC8, 0x2DCE), (0x2DD0, 0x2DD6), (0x2DD8, 0x2DDE), (0x2E2F, 0x2E2F), (0x3005, 0x3007),
   (0x3021, 0x3029), (0x3031, 0x3035), (0x3038, 0x303C), (0x3041, 0x3096), (0x309D, 0x309F), (0x30A1, 0x30FA),
   (0x30FC, 0x30FF), (0x3105, 0x312F), (0x3131, 0x318E), (0x3192, 0x3195), (0x31A0, 0x31BF), (0x31F0, 0x31FF),
   (0x3220, 0x3229), (0x3248, 0x324F), (0x3251, 0x325F), (0x3280, 0x3289), (0x32B1, 0x32BF), (0x3400, 0x4DBF),
   (0x4E00, 0xA48C), (0xA4D0, 0xA4FD), (0xA500, 0xA60C), (0xA610, 0xA62B), (0xA640, 0xA66E), (0xA67F, 0xA69D),
   (0xA6A0, 0xA6EF), (0xA717, 0xA71F), (0xA722, 0xA788), (0xA78B, 0xA7CA), (0xA7D0, 0xA7D1), (0xA7D3, 0xA7D3),
   (0xA7D5, 0xA7D9), (0xA7F2, 0xA801), (0xA803, 0xA805), (0xA807, 0xA80A), (0xA80C, 0xA822), (0xA830, 0xA835),
   (0xA840, 0xA873), (0xA882, 0xA8B3), (0xA8D0, 0xA8D9), (0xA8F2, 0xA8F7), (0xA8FB, 0xA8FB), (0xA8FD, 0xA8FE),
   (0xA900, 0xA925), (0xA930, 0xA946), (0xA960, 0xA97C), (0xA984, 0xA9B2), (0xA9CF, 0xA9D9), (0xA9E0, 0xA9E4),
   (0xA9E6, 0xA9FE), (0xAA00, 0xAA28), (0xAA40, 0xAA42), (0xAA44, 0xAA4B), (0xAA50, 0xAA59), (0xAA60, 0xAA76),
   (0xAA7A, 0xAA7A), (0xAA7E, 0xAAAF), (0xAAB1, 0xAAB1), (0xAAB5, 0xAAB6), (0xAAB9, 0xAABD), (0xAAC0, 0xAAC0),
   (0xAAC2, 0xAAC2), (0xAADB, 0xAADD), (0xAAE0, 0xAAEA), (0xAAF2, 0xAAF4), (0xAB01, 0xAB06), (0xAB09, 0xAB0E),
   (0xAB11, 0xAB16), (0xAB20, 0xAB26), (0xAB28, 0xAB2E), (0xAB30, 0xAB5A), (0xAB5C, 0xAB69), (0xAB70, 0xABE2),
   (0xABF0, 0xABF9), (0xAC00, 0xD7A3), (0xD7B0, 0xD7C6), (0xD7CB, 0xD7FB), (0xF900, 0xFA6D), (0xFA70, 0xFAD9),
   (0xFB00, 0xFB06), (0xFB13, 0xFB17), (0xFB1D, 0xFB1D), (0xFB1F, 0xFB28), (0xFB2A, 0xFB36), (0xFB38, 0xFB3C),
   (0xFB3E, 0xFB3E), (0xFB40, 0xFB41), (0xFB43, 0xFB44), (0xFB46, 0xFBB1), (0xFBD3, 0xFD3D), (0xFD50, 0xFD8F),
   (0xFD92, 0xFDC7), (0xFDF0, 0xFDFB), (0xFE70, 0xFE74), (0xFE76, 0xFEFC), (0xFF10, 0xFF19), (0xFF21, 0xFF3A),
   (0xFF41, 0xFF5A), (0xFF66, 0xFFBE), (0xFFC2, 0xFFC7), (0xFFCA, 0xFFCF), (0xFFD2, 0xFFD7), (0xFFDA, 0xFFDC),
   (0x10000, 0x1000B), (0x1000D, 0x10026), (0x10028, 0x1003A), (0x1003C, 0x1003D), (0x1003F, 0x1004D), (0x10050, 0x1005D),
   (0x10080, 0x100FA), (0x10107, 0x10133), (0x10140, 0x10178), (0x1018A, 0x1018B), (0x10280, 0x1029C), (0x102A0, 0x102D0),
   (0x102E1, 0x102FB), (0x10300, 0x10323), (0x1032D, 0x1034A), (0x10350, 0x10375), (0x10380, 0x1039D), (0x103A0, 0x103C3),
   (0x103C8, 0x103CF), (0x103D1, 0x103D5), (0x10400, 0x1049D), (0x104A0, 0x104A9), (0x104B0, 0x104D3), (0x104D8, 0x104FB),
   (0x10500, 0x10527), (0x10530, 0x10563), (0x10570, 0x1057A), (0x1057C, 0x1058A), (0x1058C, 0x10592), (0x10594, 0x10595),
   (0x10597, 0x105A1), (0x105A3, 0x105B1), (0x105B3, 0x105B9), (0x105BB, 0x105BC), (0x10600, 0x10736), (0x10740, 0x10755),
   (0x10760, 0x10767), (0x10780, 0x10785), (0x10787, 0x107B0), (0x107B2, 0x107BA), (0x10800, 0x10805), (0x10808, 0x10808),
   (0x1080A, 0x10835), (0x10837, 0x10838), (0x1083C, 0x1083C), (0x1083F, 0x10855), (0x10858, 0x10876), (0x10879, 0x1089E),
   (0x108A7, 0x108AF), (0x108E0, 0x108F2), (0x108F4, 0x108F5), (0x108FB, 0x1091B), (0x10920, 0x10939), (0x10980, 0x109B7),
   (0x109BC, 0x109CF), (0x109D2, 0x10A00), (0x10A10, 0x10A13), (0x10A15, 0x10A17), (0x10A19, 0x10A35), (0x10A40, 0x10A48),
   (0x10A60, 0x10A7E), (0x10A80, 0x10A9F), (0x10AC0, 0x10AC7), (0x10AC9, 0x10AE4), (0x10AEB, 0x10AEF), (0x10B00, 0x10B35),
   (0x10B40, 0x10B55), (0x10B58, 0x10B72), (0x10B78, 0x10B91), (0x10BA9, 0x10BAF), (0x10C00, 0x10C48), (0x10C80, 0x10CB2),
   (0x10CC0, 0x10CF2), (0x10CFA, 0x10D23), (0x10D30, 0x10D39), (0x10E60, 0x10E7E), (0x10E80, 0x10EA9), (0x10EB0, 0x10EB1),
   (0x10F00, 0x10F27), (0x10F30, 0x10F45), (0x10F51, 0x10F54), (0x10F70, 0x10F81), (0x10FB0, 0x10FCB), (0x10FE0, 0x10FF6),
   (0x11003, 0x11037), (0x11052, 0x1106F), (0x11071, 0x11072), (0x11075, 0x11075), (0x11083, 0x110AF), (0x110D0, 0x110E8),
   (0x110F0, 0x110F9), (0x11103, 0x11126), (0x11136, 0x1113F), (0x11144, 0x11144), (0x11147, 0x11147), (0x11150, 0x11172),
   (0x11176, 0x11176), (0x11183, 0x111B2), (0x111C1, 0x111C4), (0x111D0, 0x111DA), (0x111DC, 0x111DC), (0x111E1, 0x111F4),
   (0x11200, 0x11211), (0x11213, 0x1122B), (0x11280, 0x11286), (0x11288, 0x11288), (0x1128A, 0x1128D), (0x1128F, 0x1129D),
   (0x1129F, 0x112A8), (0x112B0, 0x112DE), (0x112F0, 0x112F9), (0x11305, 0x1130C), (0x1130F, 0x11310), (0x11313, 0x11328),
   (0x1132A, 0x11330), (0x11332, 0x11333), (0x11335, 0x11339), (0x1133D, 0x1133D), (0x11350, 0x11350), (0x1135D, 0x11361),
   (0x11400, 0x11434), (0x11447, 0x1144A), (0x11450, 0x11459), (0x1145F, 0x11461), (0x11480, 0x114AF), (0x114C4, 0x114C5),
   (0x114C7, 0x114C7), (0x114D0, 0x114D9), (0x11580, 0x115AE), (0x115D8, 0x115DB), (0x11600, 0x1162F), (0x11644, 0x11644),
   (0x11650, 0x11659), (0x11680, 0x116AA), (0x116B8, 0x116B8), (0x116C0, 0x116C9), (0x11700, 0x1171A), (0x11730, 0x1173B),
   (0x11740, 0x11746), (0x11800, 0x1182B), (0x118A0, 0x118F2), (0x118FF, 0x11906), (0x11909, 0x11909), (0x1190C, 0x11913),
   (0x11915, 0x11916), (0x11918, 0x1192F), (0x1193F, 0x1193F), (0x11941, 0x11941), (0x11950, 0x11959), (0x119A0, 0x119A7),
   (0x119AA, 0x119D0), (0x119E1, 0x119E1), (0x119E3, 0x119E3), (0x11A00, 0x11A00), (0x11A0B, 0x11A32), (0x11A3A, 0x11A3A),
   (0x11A50, 0x11A50), (0x11A5C, 0x11A89), (0x11A9D, 0x11A9D), (0x11AB0, 0x11AF8), (0x11C00, 0x11C08), (0x11C0A, 0x11C2E),
   (0x11C40, 0x11C40), (0x11C50, 0x11C6C), (0x11C72, 0x11C8F), (0x11D00, 0x11D06), (0x11D08, 0x11D09), (0x11D0B, 0x11D30),
   (0x11D46, 0x11D46), (0x11D50, 0x11D59), (0x11D60, 0x11D65), (0x11D67, 0x11D68), (0x11D6A, 0x11D89), (0x11D98, 0x11D98),
   (0x11DA0, 0x11DA9), (0x11EE0, 0x11EF2), (0x11FB0, 0x11FB0), (0x11FC0, 0x11FD4), (0x12000, 0x12399), (0x12400, 0x1246E),
   (0x12480, 0x12543), (0x12F90, 0x12FF0), (0x13000, 0x1342E), (0x14400, 0x14646), (0x16800, 0x16A38), (0x16A40, 0x16A5E),
   (0x16A60, 0x16A69), (0x16A70, 0x16ABE), (0x16AC0, 0x16AC9), (0x16AD0, 0x16AED), (0x16B00, 0x16B2F), (0x16B40, 0x16B43),
   (0x16B50, 0x16B59), (0x16B5B, 0x16B61), (0x16B63, 0x16B77), (0x16B7D, 0x16B8F), (0x16E40, 0x16E96), (0x16F00, 0x16F4A),
   (0x16F50, 0x16F50), (0x16F93, 0x16F9F), (0x16FE0, 0x16FE1), (0x16FE3, 0x16FE3), (0x17000, 0x187F7), (0x18800, 0x18CD5),
   (0x18D00, 0x18D08), (0x1AFF0, 0x1AFF3), (0x1AFF5, 0x1AFFB), (0x1AFFD, 0x1AFFE), (0x1B000, 0x1B122), (0x1B150, 0x1B152),
   (0x1B164, 0x1B167), (0x1B170, 0x1B2FB), (0x1BC00, 0x1BC6A), (0x1BC70, 0x1BC7C), (0x1BC80, 0x1BC88), (0x1BC90, 0x1BC99),
   (0x1D2E0, 0x1D2F3), (0x1D360, 0x1D378), (0x1D400, 0x1D454), (0x1D456, 0x1D49C), (0x1D49E, 0x1D49F), (0x1D4A2, 0x1D4A2),
   (0x1D4A5, 0x1D4A6), (0x1D4A9, 0x1D4AC), (0x1D4AE, 0x1D4B9), (0x1D4BB, 0x1D4BB), (0x1D4BD, 0x1D4C3), (0x1D4C5, 0x1D505),
   (0x1D507, 0x1D50A), (0x1D50D, 0x1D514), (0x1D516, 0x1D51C), (0x1D51E, 0x1D539), (0x1D53B, 0x1D53E), (0x1D540, 0x1D544),
   (0x1D546, 0x1D546), (0x1D54A, 0x1D550), (0x1D552, 0x1D6A5), (0x1D6A8, 0x1D6C0), (0x1D6C2, 0x1D6DA), (0x1D6DC, 0x1D6FA),
   (0x1D6FC, 0x1D714), (0x1D716, 0x1D734), (0x1D736, 0x1D74E), (0x1D750, 0x1D76E), (0x1D770, 0x1D788), (0x1D78A, 0x1D7A8),
   (0x1D7AA, 0x1D7C2), (0x1D7C4, 0x1D7CB), (0x1D7CE, 0x1D7FF), (0x1DF00, 0x1DF1E), (0x1E100, 0x1E12C), (0x1E137, 0x1E13D),
   (0x1E140, 0x1E149), (0x1E14E, 0x1E14E), (0x1E290, 0x1E2AD), (0x1E2C0, 0x1E2EB), (0x1E2F0, 0x1E2F9), (0x1E7E0, 0x1E7E6),
   (0x1E7E8, 0x1E7EB), (0x1E7ED, 0x1E7EE), (0x1E7F0, 0x1E7FE), (0x1E800, 0x1E8C4), (0x1E8C7, 0x1E8CF), (0x1E900, 0x1E943),
   (0x1E94B, 0x1E94B), (0x1E950, 0x1E959), (0x1EC71, 0x1ECAB), (0x1ECAD, 0x1ECAF), (0x1ECB1, 0x1ECB4), (0x1ED01, 0x1ED2D),
   (0x1ED2F, 0x1ED3D), (0x1EE00, 0x1EE03), (0x1EE05, 0x1EE1F), (0x1EE21, 0x1EE22), (0x1EE24, 0x1EE24), (0x1EE27, 0x1EE27),
   (0x1EE29, 0x1EE32), (0x1EE34, 0x1EE37), (0x1EE39, 0x1EE39), (0x1EE3B, 0x1EE3B), (0x1EE42, 0x1EE42), (0x1EE47, 0x1EE47),
   (0x1EE49, 0x1EE49), (0x1EE4B, 0x1EE4B), (0x1EE4D, 0x1EE4F), (0x1EE51, 0x1EE52), (0x1EE54, 0x1EE54), (0x1EE57, 0x1EE57),
   (0x1EE59, 0x1EE59), (0x1EE5B, 0x1EE5B), (0x1EE5D, 0x1EE5D), (0x1EE5F, 0x1EE5F), (0x1EE61, 0x1EE62), (0x1EE64, 0x1EE64),
   (0x1EE67, 0x1EE6A), (0x1EE6C, 0x1EE72), (0x1EE74, 0x1EE77), (0x1EE79, 0x1EE7C), (0x1EE7E, 0x1EE7E), (0x1EE80, 0x1EE89),
   (0x1EE8B, 0x1EE9B), (0x1EEA1, 0x1EEA3), (0x1EEA5, 0x1EEA9), (0x1EEAB, 0x1EEBB), (0x1F100, 0x1F10C), (0x1FBF0, 0x1FBF9),
   (0x20000, 0x2A6DF), (0x2A700, 0x2B738), (0x2B740, 0x2B81D), (0x2B820, 0x2CEA1), (0x2CEB0, 0x2EBE0), (0x2F800, 0x2FA1D),
   (0x30000, 0x3134A)]

set_option maxHeartbeats 2000000 in
/-- The Unicode `Cased` property as code-point ranges (Unicode 14.0.0), used
by the final-sigma rule of the default lowercase mapping. -/
def casedRanges : List (Nat × Nat) :=
  [(0x41, 0x5A), (0x61, 0x7A), (0xAA, 0xAA), (0xB5, 0xB5), (0xBA, 0xBA), (0xC0, 0xD6),
   (0xD8, 0xF6), (0xF8, 0x1BA), (0x1BC, 0x1BF), (0x1C4, 0x293), (0x295, 0x2AF), (0x370, 0x373),
   (0x376, 0x377), (0x37B, 0x37D), (0x37F, 0x37F), (0x386, 0x386), (0x388, 0x38A), (0x38C, 0x38C),
   (0x38E, 0x3A1), (0x3A3, 0x3F5), (0x3F7, 0x481), (0x48A, 0x52F), (0x531, 0x556), (0x560, 0x588),
   (0x10A0, 0x10C5), (0x10C7, 0x10C7), (0x10CD, 0x10CD), (0x10D0, 0x10FA), (0x10FD, 0x10FF), (0x13A0, 0x13F5),
   (0x13F8, 0x13FD), (0x1C80, 0x1C88), (0x1C90, 0x1CBA), (0x1CBD, 0x1CBF), (0x1D00, 0x1D2B), (0x1D6B, 0x1D77),
   (0x1D79, 0x1D9A), (0x1E00, 0x1F15), (0x1F18, 0x1F1D), (0x1F20, 0x1F45), (0x1F48, 0x1F4D), (0x1F50, 0x1F57),
   (0x1F59, 0x1F59), (0x1F5B, 0x1F5B), (0x1F5D, 0x1F5D), (0x1F5F, 0x1F7D), (0x1F80, 0x1FB4), (0x1FB6, 0x1FBC),
   (0x1FBE, 0x1FBE), (0x1FC2, 0x1FC4), (0x1FC6, 0x1FCC), (0x1FD0, 0x1FD3), (0x1FD6, 0x1FDB), (0x1FE0, 0x1FEC),
   (0x1FF2, 0x1FF4), (0x1FF6, 0x1FFC), (0x2102, 0x2102), (0x2107, 0x2107), (0x210A, 0x2113), (0x2115, 0x2115),
   (0x2119, 0x211D), (0x2124, 0x2124), (0x2126, 0x2126), (0x2128, 0x2128), (0x212A, 0x212D), (0x212F, 0x2134),
   (0x2139, 0x2139), (0x213C, 0x213F), (0x2145, 0x2149), (0x214E, 0x214E), (0x2160, 0x217F), (0x2183, 0x2184),
   (0x24B6, 0x24E9), (0x2C00, 0x2C7B), (0x2C7E, 0x2CE4), (0x2CEB, 0x2CEE), (0x2CF2, 0x2CF3), (0x2D00, 0x2D25),
   (0x2D27, 0x2D27), (0x2D2D, 0x2D2D), (0xA640, 0xA66D), (0xA680, 0xA69B), (0xA722, 0xA76F), (0xA771, 0xA787),
   (0xA78B, 0xA78E), (0xA790, 0xA7CA), (0xA7D0, 0xA7D1), (0xA7D3, 0xA7D3), (0xA7D5, 0xA7D9), (0xA7F5, 0xA7F6),
   (0xA7FA, 0xA7FA), (0xAB30, 0xAB5A), (0xAB60, 0xAB68), (0xAB70, 0xABBF), (0xFB00, 0xFB06), (0xFB13, 0xFB17),
   (0xFF21, 0xFF3A), (0xFF41, 0xFF5A), (0x10400, 0x1044F), (0x104B0, 0x104D3), (0x104D8, 0x104FB), (0x10570, 0x1057A),
   (0x1057C, 0x1058A), (0x1058C, 0x10592), (0x10594, 0x10595), (0x10597, 0x105A1), (0x105A3, 0x105B1), (0x105B3, 0x105B9),
   (0x105BB, 0x105BC), (0x10C80, 0x10CB2), (0x10CC0, 0x10CF2), (0x118A0, 0x118DF), (0x16E40, 0x16E7F), (0x1D400, 0x1D454),
   (0x1D456, 0x1D49C), (0x1D49E, 0x1D49F), (0x1D4A2, 0x1D4A2), (0x1D4A5, 0x1D4A6), (0x1D4A9, 0x1D4AC), (0x1D4AE, 0x1D4B9),
   (0x1D4BB, 0x1D4BB), (0x1D4BD, 0x1D4C3), (0x1D4C5, 0x1D505), (0x1D507, 0x1D50A), (0x1D50D, 0x1D514), (0x1D516, 0x1D51C),
   (0x1D51E, 0x1D539), (0x1D53B, 0x1D53E), (0x1D540, 0x1D544), (0x1D546, 0x1D546), (0x1D54A, 0x1D550), (0x1D552, 0x1D6A5),
   (0x1D6A8, 0x1D6C0), (0x1D6C2, 0x1D6DA), (0x1D6DC, 0x1D6FA), (0x1D6FC, 0x1D714), (0x1D716, 0x1D734), (0x1D736, 0x1D74E),
   (0x1D750, 0x1D76E), (0x1D770, 0x1D788), (0x1D78A, 0x1D7A8), (0x1D7AA, 0x1D7C2), (0x1D7C4, 0x1D7CB), (0x1DF00, 0x1DF09),
   (0x1DF0B, 0x1DF1E), (0x1E900, 0x1E943), (0x1F130, 0x1F149), (0x1F150, 0x1F169), (0x1F170, 0x1F189)]

set_option maxHeartbeats 2000000 in
/-- The Unicode `Case_Ignorable` property as code-point ranges
(Unicode 14.0.0), used by the final-sigma rule of the default lowercase
mapping. -/
def caseIgnorableRanges : List (Nat × Nat) :=
  [(0x27, 0x27), (0x2E, 0x2E), (0x3A, 0x3A), (0x5E, 0x5E), (0x60, 0x60), (0xA8, 0xA8),
   (0xAD, 0xAD), (0xAF, 0xAF), (0xB4, 0xB4), (0xB7, 0xB8), (0x2B0, 0x36F), (0x374, 0x375),
   (0x37A, 0x37A), (0x384, 0x385), (0x387, 0x387), (0x483, 0x489), (0x559, 0x559), (0x55F, 0x55F),
   (0x591, 0x5BD), (0x5BF, 0x5BF), (0x5C1, 0x5C2), (0x5C4, 0x5C5), (0x5C7, 0x5C7), (0x5F4, 0x5F4),
   (0x600, 0x605), (0x610, 0x61A), (0x61C, 0x61C), (0x640, 0x640), (0x64B, 0x65F), (0x670, 0x670),
   (0x6D6, 0x6DD), (0x6DF, 0x6E8), (0x6EA, 0x6ED), (0x70F, 0x70F), (0x711, 0x711), (0x730, 0x74A),
   (0x7A6, 0x7B0), (0x7EB, 0x7F5), (0x7FA, 0x7FA), (0x7FD, 0x7FD), (0x816, 0x82D), (0x859, 0x85B),
   (0x888, 0x888), (0x890, 0x891), (0x898, 0x89F), (0x8C9, 0x902), (0x93A, 0x93A), (0x93C, 0x93C),
   (0x941, 0x948), (0x94D, 0x94D), (0x951, 0x957), (0x962, 0x963), (0x971, 0x971), (0x981, 0x981),
   (0x9BC, 0x9BC), (0x9C1, 0x9C4), (0x9CD, 0x9CD), (0x9E2, 0x9E3), (0x9FE, 0x9FE), (0xA01, 0xA02),
   (0xA3C, 0xA3C), (0xA41, 0xA42), (0xA47, 0xA48), (0xA4B, 0xA4D), (0xA51, 0xA51), (0xA70, 0xA71),
   (0xA75, 0xA75), (0xA81, 0xA82), (0xABC, 0xABC), (0xAC1, 0xAC5), (0xAC7, 0xAC8), (0xACD, 0xACD),
   (0xAE2, 0xAE3), (0xAFA, 0xAFF), (0xB01, 0xB01), (0xB3C, 0xB3C), (0xB3F, 0xB3F), (0xB41, 0xB44),
   (0xB4D, 0xB4D), (0xB55, 0xB56), (0xB62, 0xB63), (0xB82, 0xB82), (0xBC0, 0xBC0), (0xBCD, 0xBCD),
   (0xC00, 0xC00), (0xC04, 0xC04), (0xC3C, 0xC3C), (0xC3E, 0xC40), (0xC46, 0xC48), (0xC4A, 0xC4D),
   (0xC55, 0xC56), (0xC62, 0xC63), (0xC81, 0xC81), (0xCBC, 0xCBC), (0xCBF, 0xCBF), (0xCC6, 0xCC6),
   (0xCCC, 0xCCD), (0xCE2, 0xCE3), (0xD00, 0xD01), (0xD3B, 0xD3C), (0xD41, 0xD44), (0xD4D, 0xD4D),
   (0xD62, 0xD63), (0xD81, 0xD81), (0xDCA, 0xDCA), (0xDD2, 0xDD4), (0xDD6, 0xDD6), (0xE31, 0xE31),
   (0xE34, 0xE3A), (0xE46, 0xE4E), (0xEB1, 0xEB1), (0xEB4, 0xEBC), (0xEC6, 0xEC6), (0xEC8, 0xECD),
   (0xF18, 0xF19), (0xF35, 0xF35), (0xF37, 0xF37), (0xF39, 0xF39), (0xF71, 0xF7E), (0xF80, 0xF84),
   (0xF86, 0xF87), (0xF8D, 0xF97), (0xF99, 0xFBC), (0xFC6, 0xFC6), (0x102D, 0x1030), (0x1032, 0x1037),
   (0x1039, 0x103A), (0x103D, 0x103E), (0x1058, 0x1059), (0x105E, 0x1060), (0x1071, 0x1074), (0x1082, 0x1082),
   (0x1085, 0x1086), (0x108D, 0x108D), (0x109D, 0x109D), (0x10FC, 0x10FC), (0x135D, 0x135F), (0x1712, 0x1714),
   (0x1732, 0x1733), (0x1752, 0x1753), (0x1772, 0x1773), (0x17B4, 0x17B5), (0x17B7, 0x17BD), (0x17C6, 0x17C6),
   (0x17C9, 0x17D3), (0x17D7, 0x17D7), (0x17DD, 0x17DD), (0x180B, 0x180F), (0x1843, 0x1843), (0x1885, 0x1886),
   (0x18A9, 0x18A9), (0x1920, 0x1922), (0x1927, 0x1928), (0x1932, 0x1932), (0x1939, 0x193B), (0x1A17, 0x1A18),
   (0x1A1B, 0x1A1B), (0x1A56, 0x1A56), (0x1A58, 0x1A5E), (0x1A60, 0x1A60), (0x1A62, 0x1A62), (0x1A65, 0x1A6C),
   (0x1A73, 0x1A7C), (0x1A7F, 0x1A7F), (0x1AA7, 0x1AA7), (0x1AB0, 0x1ACE), (0x1B00, 0x1B03), (0x1B34, 0x1B34),
   (0x1B36, 0x1B3A), (0x1B3C, 0x1B3C), (0x1B42, 0x1B42), (0x1B6B, 0x1B73), (0x1B80, 0x1B81), (0x1BA2, 0x1BA5),
   (0x1BA8, 0x1BA9), (0x1BAB, 0x1BAD), (0x1BE6, 0x1BE6), (0x1BE8, 0x1BE9), (0x1BED, 0x1BED), (0x1BEF, 0x1BF1),
   (0x1C2C, 0x1C33), (0x1C36, 0x1C37), (0x1C78, 0x1C7D), (0x1CD0, 0x1CD2), (0x1CD4, 0x1CE0), (0x1CE2, 0x1CE8),
   (0x1CED, 0x1CED), (0x1CF4, 0x1CF4), (0x1CF8, 0x1CF9), (0x1D2C, 0x1D6A), (0x1D78, 0x1D78), (0x1D9B, 0x1DFF),
   (0x1FBD, 0x1FBD), (0x1FBF, 0x1FC1), (0x1FCD, 0x1FCF), (0x1FDD, 0x1FDF), (0x1FED, 0x1FEF), (0x1FFD, 0x1FFE),
   (0x200B, 0x200F), (0x2018, 0x2019), (0x2024, 0x2024), (0x2027, 0x2027), (0x202A, 0x202E), (0x2060, 0x2064),
   (0x2066, 0x206F), (0x2071, 0x2071), (0x207F, 0x207F), (0x2090, 0x209C), (0x20D0, 0x20F0), (0x2C7C, 0x2C7D),
   (0x2CEF, 0x2CF1), (0x2D6F, 0x2D6F), (0x2D7F, 0x2D7F), (0x2DE0, 0x2DFF), (0x2E2F, 0x2E2F), (0x3005, 0x3005),
   (0x302A, 0x302D), (0x3031, 0x3035), (0x303B, 0x303B), (0x3099, 0x309E), (0x30FC, 0x30FE), (0xA015, 0xA015),
   (0xA4F8, 0xA4FD), (0xA60C, 0xA60C), (0xA66F, 0xA672), (0xA674, 0xA67D), (0xA67F, 0xA67F), (0xA69C, 0xA69F),
   (0xA6F0, 0xA6F1), (0xA700, 0xA721), (0xA770, 0xA770), (0xA788, 0xA78A), (0xA7F2, 0xA7F4), (0xA7F8, 0xA7F9),
   (0xA802, 0xA802), (0xA806, 0xA806), (0xA80B, 0xA80B), (0xA825, 0xA826), (0xA82C, 0xA82C), (0xA8C4, 0xA8C5),
   (0xA8E0, 0xA8F1), (0xA8FF, 0xA8FF), (0xA926, 0xA92D), (0xA947, 0xA951), (0xA980, 0xA982), (0xA9B3, 0xA9B3),
   (0xA9B6, 0xA9B9), (0xA9BC, 0xA9BD), (0xA9CF, 0xA9CF), (0xA9E5, 0xA9E6), (0xAA29, 0xAA2E), (0xAA31, 0xAA32),
   (0xAA35, 0xAA36), (0xAA43, 0xAA43), (0xAA4C, 0xAA4C), (0xAA70, 0xAA70), (0xAA7C, 0xAA7C), (0xAAB0, 0xAAB0),
   (0xAAB2, 0xAAB4), (0xAAB7, 0xAAB8), (0xAABE, 0xAABF), (0xAAC1, 0xAAC1), (0xAADD, 0xAADD), (0xAAEC, 0xAAED),
   (0xAAF3, 0xAAF4), (0xAAF6, 0xAAF6), (0xAB5B, 0xAB5F), (0xAB69, 0xAB6B), (0xABE5, 0xABE5), (0xABE8, 0xABE8),
   (0xABED, 0xABED), (0xFB1E, 0xFB1E), (0xFBB2, 0xFBC2), (0xFE00, 0xFE0F), (0xFE13, 0xFE13), (0xFE20, 0xFE2F),
   (0xFE52, 0xFE52), (0xFE55, 0xFE55), (0xFEFF, 0xFEFF), (0xFF07, 0xFF07), (0xFF0E, 0xFF0E), (0xFF1A, 0xFF1A),
   (0xFF3E, 0xFF3E), (0xFF40, 0xFF40), (0xFF70, 0xFF70), (0xFF9E, 0xFF9F), (0xFFE3, 0xFFE3), (0xFFF9, 0xFFFB),
   (0x101FD, 0x101FD), (0x102E0, 0x102E0), (0x10376, 0x1037A), (0x10780, 0x10785), (0x10787, 0x107B0), (0x107B2, 0x107BA),
   (0x10A01, 0x10A03), (0x10A05, 0x10A06), (0x10A0C, 0x10A0F), (0x10A38, 0x10A3A), (0x10A3F, 0x10A3F), (0x10AE5, 0x10AE6),
   (0x10D24, 0x10D27), (0x10EAB, 0x10EAC), (0x10F46, 0x10F50), (0x10F82, 0x10F85), (0x11001, 0x11001), (0x11038, 0x11046),
   (0x11070, 0x11070), (0x11073, 0x11074), (0x1107F, 0x11081), (0x110B3, 0x110B6), (0x110B9, 0x110BA), (0x110BD, 0x110BD),
   (0x110C2, 0x110C2), (0x110CD, 0x110CD), (0x11100, 0x11102), (0x11127, 0x1112B), (0x1112D, 0x11134), (0x11173, 0x11173),
   (0x11180, 0x11181), (0x111B6, 0x111BE), (0x111C9, 0x111CC), (0x111CF, 0x111CF), (0x1122F, 0x11231), (0x11234, 0x11234),
   (0x11236, 0x11237), (0x1123E, 0x1123E), (0x112DF, 0x112DF), (0x112E3, 0x112EA), (0x11300, 0x11301), (0x1133B, 0x1133C),
   (0x11340, 0x11340), (0x11366, 0x1136C), (0x11370, 0x11374), (0x11438, 0x1143F), (0x11442, 0x11444), (0x11446, 0x11446),
   (0x1145E, 0x1145E), (0x114B3, 0x114B8), (0x114BA, 0x114BA), (0x114BF, 0x114C0), (0x114C2, 0x114C3), (0x115B2, 0x115B5),
   (0x115BC, 0x115BD), (0x115BF, 0x115C0), (0x115DC, 0x115DD), (0x11633, 0x1163A), (0x1163D, 0x1163D), (0x1163F, 0x11640),
   (0x116AB, 0x116AB), (0x116AD, 0x116AD), (0x116B0, 0x116B5), (0x116B7, 0x116B7), (0x1171D, 0x1171F), (0x11722, 0x11725),
   (0x11727, 0x1172B), (0x1182F, 0x11837), (0x11839, 0x1183A), (0x1193B, 0x1193C), (0x1193E, 0x1193E), (0x11943, 0x11943),
   (0x119D4, 0x119D7), (0x119DA, 0x119DB), (0x119E0, 0x119E0), (0x11A01, 0x11A0A), (0x11A33, 0x11A38), (0x11A3B, 0x11A3E),
   (0x11A47, 0x11A47), (0x11A51, 0x11A56), (0x11A59, 0x11A5B), (0x11A8A, 0x11A96), (0x11A98, 0x11A99), (0x11C30, 0x11C36),
   (0x11C38, 0x11C3D), (0x11C3F, 0x11C3F), (0x11C92, 0x11CA7), (0x11CAA, 0x11CB0), (0x11CB2, 0x11CB3), (0x11CB5, 0x11CB6),
   (0x11D31, 0x11D36), (0x11D3A, 0x11D3A), (0x11D3C, 0x11D3D), (0x11D3F, 0x11D45), (0x11D47, 0x11D47), (0x11D90, 0x11D91),
   (0x11D95, 0x11D95), (0x11D97, 0x11D97), (0x11EF3, 0x11EF4), (0x13430, 0x13438), (0x16AF0, 0x16AF4), (0x16B30, 0x16B36),
   (0x16B40, 0x16B43), (0x16F4F, 0x16F4F), (0x16F8F, 0x16F9F), (0x16FE0, 0x16FE1), (0x16FE3, 0x16FE4), (0x1AFF0, 0x1AFF3),
   (0x1AFF5, 0x1AFFB), (0x1AFFD, 0x1AFFE), (0x1BC9D, 0x1BC9E), (0x1BCA0, 0x1BCA3), (0x1CF00, 0x1CF2D), (0x1CF30, 0x1CF46),
   (0x1D167, 0x1D169), (0x1D173, 0x1D182), (0x1D185, 0x1D18B), (0x1D1AA, 0x1D1AD), (0x1D242, 0x1D244), (0x1DA00, 0x1DA36),
   (0x1DA3B, 0x1DA6C), (0x1DA75, 0x1DA75), (0x1DA84, 0x1DA84), (0x1DA9B, 0x1DA9F), (0x1DAA1, 0x1DAAF), (0x1E000, 0x1E006),
   (0x1E008, 0x1E018), (0x1E01B, 0x1E021), (0x1E023, 0x1E024), (0x1E026, 0x1E02A), (0x1E130, 0x1E13D), (0x1E2AE, 0x1E2AE),
   (0x1E2EC, 0x1E2EF), (0x1E8D0, 0x1E8D6), (0x1E944, 0x1E94B), (0x1F3FB, 0x1F3FF), (0xE0001, 0xE0001), (0xE0020, 0xE007F),
   (0xE0100, 0xE01EF)]

set_option maxHeartbeats 4000000 in
/-- The single-character lowercase mappings of the Unicode 14.0.0 default
case conversion: every code point whose lowercase differs from itself, except
the two special cases `U+0130` (which expands) and `U+03A3` (which is
contextual); both are handled in `lowerChar` / `jsLowerGo`. -/
def lowerTable : List (Nat × Nat) :=
  [(0x41, 0x61), (0x42, 0x62), (0x43, 0x63), (0x44, 0x64), (0x45, 0x65), (0x46, 0x66),
   (0x47, 0x67), (0x48, 0x68), (0x49, 0x69), (0x4A, 0x6A), (0x4B, 0x6B), (0x4C, 0x6C),
   (0x4D, 0x6D), (0x4E, 0x6E), (0x4F, 0x6F), (0x50, 0x70), (0x51, 0x71), (0x52, 0x72),
   (0x53, 0x73), (0x54, 0x74), (0x55, 0x75), (0x56, 0x76), (0x57, 0x77), (0x58, 0x78),
   (0x59, 0x79), (0x5A, 0x7A), (0xC0, 0xE0), (0xC1, 0xE1), (0xC2, 0xE2), (0xC3, 0xE3),
   (0xC4, 0xE4), (0xC5, 0xE5), (0xC6, 0xE6), (0xC7, 0xE7), (0xC8, 0xE8), (0xC9, 0xE9),
   (0xCA, 0xEA), (0xCB, 0xEB), (0xCC, 0xEC), (0xCD, 0xED), (0xCE, 0xEE), (0xCF, 0xEF),
   (0xD0, 0xF0), (0xD1, 0xF1), (0xD2, 0xF2), (0xD3, 0xF3), (0xD4, 0xF4), (0xD5, 0xF5),
   (0xD6, 0xF6), (0xD8, 0xF8), (0xD9, 0xF9), (0xDA, 0xFA), (0xDB, 0xFB), (0xDC, 0xFC),
   (0xDD, 0xFD), (0xDE, 0xFE), (0x100, 0x101), (0x102, 0x103), (0x104, 0x105), (0x106, 0x107),
   (0x108, 0x109), (0x10A, 0x10B), (0x10C, 0x10D), (0x10E, 0x10F), (0x110, 0x111), (0x112, 0x113),
   (0x114, 0x115), (0x116, 0x117), (0x118, 0x119), (0x11A, 0x11B), (0x11C, 0x11D), (0x11E, 0x11F),
   (0x120, 0x121), (0x122, 0x123), (0x124, 0x125), (0x126, 0x127), (0x128, 0x129), (0x12A, 0x12B),
   (0x12C, 0x12D), (0x12E, 0x12F), (0x132, 0x133), (0x134, 0x135), (0x136, 0x137), (0x139, 0x13A),
   (0x13B, 0x13C), (0x13D, 0x13E), (0x13F, 0x140), (0x141, 0x142), (0x143, 0x144), (0x145, 0x146),
   (0x147, 0x148), (0x14A, 0x14B), (0x14C, 0x14D), (0x14E, 0x14F), (0x150, 0x151), (0x152, 0x153),
   (0x154, 0x155), (0x156, 0x157), (0x158, 0x159), (0x15A, 0x15B), (0x15C, 0x15D), (0x15E, 0x15F),
   (0x160, 0x161), (0x162, 0x163), (0x164, 0x165), (0x166, 0x167), (0x168, 0x169), (0x16A, 0x16B),
   (0x16C, 0x16D), (0x16E, 0x16F), (0x170, 0x171), (0x172, 0x173), (0x174, 0x175), (0x176, 0x177),
   (0x178, 0xFF), (0x179, 0x17A), (0x17B, 0x17C), (0x17D, 0x17E), (0x181, 0x253), (0x182, 0x183),
   (0x184, 0x185), (0x186, 0x254), (0x187, 0x188), (0x189, 0x256), (0x18A, 0x257), (0x18B, 0x18C),
   (0x18E, 0x1DD), (0x18F, 0x259), (0x190, 0x25B), (0x191, 0x192), (0x193, 0x260), (0x194, 0x263),
   (0x196, 0x269), (0x197, 0x268), (0x198, 0x199), (0x19C, 0x26F), (0x19D, 0x272), (0x19F, 0x275),
   (0x1A0, 0x1A1), (0x1A2, 0x1A3), (0x1A4, 0x1A5), (0x1A6, 0x280), (0x1A7, 0x1A8), (0x1A9, 0x283),
   (0x1AC, 0x1AD), (0x1AE, 0x288), (0x1AF, 0x1B0), (0x1B1, 0x28A), (0x1B2, 0x28B), (0x1B3, 0x1B4),
   (0x1B5, 0x1B6), (0x1B7, 0x292), (0x1B8, 0x1B9), (0x1BC, 0x1BD), (0x1C4, 0x1C6), (0x1C5, 0x1C6),
   (0x1C7, 0x1C9), (0x1C8, 0x1C9), (0x1CA, 0x1CC), (0x1CB, 0x1CC), (0x1CD, 0x1CE), (0x1CF, 0x1D0),
   (0x1D1, 0x1D2), (0x1D3, 0x1D4), (0x1D5, 0x1D6), (0x1D7, 0x1D8), (0x1D9, 0x1DA), (0x1DB, 0x1DC),
   (0x1DE, 0x1DF), (0x1E0, 0x1E1), (0x1E2, 0x1E3), (0x1E4, 0x1E5), (0x1E6, 0x1E7), (0x1E8, 0x1E9),
   (0x1EA, 0x1EB), (0x1EC, 0x1ED), (0x1EE, 0x1EF), (0x1F1, 0x1F3), (0x1F2, 0x1F3), (0x1F4, 0x1F5),
   (0x1F6, 0x195), (0x1F7, 0x1BF), (0x1F8, 0x1F9), (0x1FA, 0x1FB), (0x1FC, 0x1FD), (0x1FE, 0x1FF),
   (0x200, 0x201), (0x202, 0x203), (0x204, 0x205), (0x206, 0x207), (0x208, 0x209), (0x20A, 0x20B),
   (0x20C, 0x20D), (0x20E, 0x20F), (0x210, 0x211), (0x212, 0x213), (0x214, 0x215), (0x216, 0x217),
   (0x218, 0x219), (0x21A, 0x21B), (0x21C, 0x21D), (0x21E, 0x21F), (0x220, 0x19E), (0x222, 0x223),
   (0x224, 0x225), (0x226, 0x227), (0x228, 0x229), (0x22A, 0x22B), (0x22C, 0x22D), (0x22E, 0x22F),
   (0x230, 0x231), (0x232, 0x233), (0x23A, 0x2C65), (0x23B, 0x23C), (0x23D, 0x19A), (0x23E, 0x2C66),
   (0x241, 0x242), (0x243, 0x180), (0x244, 0x289), (0x245, 0x28C), (0x246, 0x247), (0x248, 0x249),
   (0x24A, 0x24B), (0x24C, 0x24D), (0x24E, 0x24F), (0x370, 0x371), (0x372, 0x373), (0x376, 0x377),
   (0x37F, 0x3F3), (0x386, 0x3AC), (0x388, 0x3AD), (0x389, 0x3AE), (0x38A, 0x3AF), (0x38C, 0x3CC),
   (0x38E, 0x3CD), (0x38F, 0x3CE), (0x391, 0x3B1), (0x392, 0x3B2), (0x393, 0x3B3), (0x394, 0x3B4),
   (0x395, 0x3B5), (0x396, 0x3B6), (0x397, 0x3B7), (0x398, 0x3B8), (0x399, 0x3B9), (0x39A, 0x3BA),
   (0x39B, 0x3BB), (0x39C, 0x3BC), (0x39D, 0x3BD), (0x39E, 0x3BE), (0x39F, 0x3BF), (0x3A0, 0x3C0),
   (0x3A1, 0x3C1), (0x3A4, 0x3C4), (0x3A5, 0x3C5), (0x3A6, 0x3C6), (0x3A7, 0x3C7), (0x3A8, 0x3C8),
   (0x3A9, 0x3C9), (0x3AA, 0x3CA), (0x3AB, 0x3CB), (0x3CF, 0x3D7), (0x3D8, 0x3D9), (0x3DA, 0x3DB),
   (0x3DC, 0x3DD), (0x3DE, 0x3DF), (0x3E0, 0x3E1), (0x3E2, 0x3E3), (0x3E4, 0x3E5), (0x3E6, 0x3E7),
   (0x3E8, 0x3E9), (0x3EA, 0x3EB), (0x3EC, 0x3ED), (0x3EE, 0x3EF), (0x3F4, 0x3B8), (0x3F7, 0x3F8),
   (0x3F9, 0x3F2), (0x3FA, 0x3FB), (0x3FD, 0x37B), (0x3FE, 0x37C), (0x3FF, 0x37D), (0x400, 0x450),
   (0x401, 0x451), (0x402, 0x452), (0x403, 0x453), (0x404, 0x454), (0x405, 0x455), (0x406, 0x456),
   (0x407, 0x457), (0x408, 0x458), (0x409, 0x459), (0x40A, 0x45A), (0x40B, 0x45B), (0x40C, 0x45C),
   (0x40D, 0x45D), (0x40E, 0x45E), (0x40F, 0x45F), (0x410, 0x430), (0x411, 0x431), (0x412, 0x432),
   (0x413, 0x433), (0x414, 0x434), (0x415, 0x435), (0x416, 0x436), (0x417, 0x437), (0x418, 0x438),
   (0x419, 0x439), (0x41A, 0x43A), (0x41B, 0x43B), (0x41C, 0x43C), (0x41D, 0x43D), (0x41E, 0x43E),
   (0x41F, 0x43F), (0x420, 0x440), (0x421, 0x441), (0x422, 0x442), (0x423, 0x443), (0x424, 0x444),
   (0x425, 0x445), (0x426, 0x446), (0x427, 0x447), (0x428, 0x448), (0x429, 0x449), (0x42A, 0x44A),
   (0x42B, 0x44B), (0x42C, 0x44C), (0x42D, 0x44D), (0x42E, 0x44E), (0x42F, 0x44F), (0x460, 0x461),
   (0x462, 0x463), (0x464, 0x465), (0x466, 0x467), (0x468, 0x469), (0x46A, 0x46B), (0x46C, 0x46D),
   (0x46E, 0x46F), (0x470, 0x471), (0x472, 0x473), (0x474, 0x475), (0x476, 0x477), (0x478, 0x479),
   (0x47A, 0x47B), (0x47C, 0x47D), (0x47E, 0x47F), (0x480, 0x481), (0x48A, 0x48B), (0x48C, 0x48D),
   (0x48E, 0x48F), (0x490, 0x491), (0x492, 0x493), (0x494, 0x495), (0x496, 0x497), (0x498, 0x499),
   (0x49A, 0x49B), (0x49C, 0x49D), (0x49E, 0x49F), (0x4A0, 0x4A1), (0x4A2, 0x4A3), (0x4A4, 0x4A5),
   (0x4A6, 0x4A7), (0x4A8, 0x4A9), (0x4AA, 0x4AB), (0x4AC, 0x4AD), (0x4AE, 0x4AF), (0x4B0, 0x4B1),
   (0x4B2, 0x4B3), (0x4B4, 0x4B5), (0x4B6, 0x4B7), (0x4B8, 0x4B9), (0x4BA, 0x4BB), (0x4BC, 0x4BD),
   (0x4BE, 0x4BF), (0x4C0, 0x4CF), (0x4C1, 0x4C2), (0x4C3, 0x4C4), (0x4C5, 0x4C6), (0x4C7, 0x4C8),
   (0x4C9, 0x4CA), (0x4CB, 0x4CC), (0x4CD, 0x4CE), (0x4D0, 0x4D1), (0x4D2, 0x4D3), (0x4D4, 0x4D5),
   (0x4D6, 0x4D7), (0x4D8, 0x4D9), (0x4DA, 0x4DB), (0x4DC, 0x4DD), (0x4DE, 0x4DF), (0x4E0, 0x4E1),
   (0x4E2, 0x4E3), (0x4E4, 0x4E5), (0x4E6, 0x4E7), (0x4E8, 0x4E9), (0x4EA, 0x4EB), (0x4EC, 0x4ED),
   (0x4EE, 0x4EF), (0x4F0, 0x4F1), (0x4F2, 0x4F3), (0x4F4, 0x4F5), (0x4F6, 0x4F7), (0x4F8, 0x4F9),
   (0x4FA, 0x4FB), (0x4FC, 0x4FD), (0x4FE, 0x4FF), (0x500, 0x501), (0x502, 0x503), (0x504, 0x505),
   (0x506, 0x507), (0x508, 0x509), (0x50A, 0x50B), (0x50C, 0x50D), (0x50E, 0x50F), (0x510, 0x511),
   (0x512, 0x513), (0x514, 0x515), (0x516, 0x517), (0x518, 0x519), (0x51A, 0x51B), (0x51C, 0x51D),
   (0x51E, 0x51F), (0x520, 0x521), (0x522, 0x523), (0x524, 0x525), (0x526, 0x527), (0x528, 0x529),
   (0x52A, 0x52B), (0x52C, 0x52D), (0x52E, 0x52F), (0x531, 0x561), (0x532, 0x562), (0x533, 0x563),
   (0x534, 0x564), (0x535, 0x565), (0x536, 0x566), (0x537, 0x567), (0x538, 0x568), (0x539, 0x569),
   (0x53A, 0x56A), (0x53B, 0x56B), (0x53C, 0x56C), (0x53D, 0x56D), (0x53E, 0x56E), (0x53F, 0x56F),
   (0x540, 0x570), (0x541, 0x571), (0x542, 0x572), (0x543, 0x573), (0x544, 0x574), (0x545, 0x575),
   (0x546, 0x576), (0x547, 0x577), (0x548, 0x578), (0x549, 0x579), (0x54A, 0x57A), (0x54B, 0x57B),
   (0x54C, 0x57C), (0x54D, 0x57D), (0x54E, 0x57E), (0x54F, 0x57F), (0x550, 0x580), (0x551, 0x581),
   (0x552, 0x582), (0x553, 0x583), (0x554, 0x584), (0x555, 0x585), (0x556, 0x586), (0x10A0, 0x2D00),
   (0x10A1, 0x2D01), (0x10A2, 0x2D02), (0x10A3, 0x2D03), (0x10A4, 0x2D04), (0x10A5, 0x2D05), (0x10A6, 0x2D06),
   (0x10A7, 0x2D07), (0x10A8, 0x2D08), (0x10A9, 0x2D09), (0x10AA, 0x2D0A), (0x10AB, 0x2D0B), (0x10AC, 0x2D0C),
   (0x10AD, 0x2D0D), (0x10AE, 0x2D0E), (0x10AF, 0x2D0F), (0x10B0, 0x2D10), (0x10B1, 0x2D11), (0x10B2, 0x2D12),
   (0x10B3, 0x2D13), (0x10B4, 0x2D14), (0x10B5, 0x2D15), (0x10B6, 0x2D16), (0x10B7, 0x2D17), (0x10B8, 0x2D18),
   (0x10B9, 0x2D19), (0x10BA, 0x2D1A), (0x10BB, 0x2D1B), (0x10BC, 0x2D1C), (0x10BD, 0x2D1D), (0x10BE, 0x2D1E),
   (0x10BF, 0x2D1F), (0x10C0, 0x2D20), (0x10C1, 0x2D21), (0x10C2, 0x2D22), (0x10C3, 0x2D23), (0x10C4, 0x2D24),
   (0x10C5, 0x2D25), (0x10C7, 0x2D27), (0x10CD, 0x2D2D), (0x13A0, 0xAB70), (0x13A1, 0xAB71), (0x13A2, 0xAB72),
   (0x13A3, 0xAB73), (0x13A4, 0xAB74), (0x13A5, 0xAB75), (0x13A6, 0xAB76), (0x13A7, 0xAB77), (0x13A8, 0xAB78),
   (0x13A9, 0xAB79), (0x13AA, 0xAB7A), (0x13AB, 0xAB7B), (0x13AC, 0xAB7C), (0x13AD, 0xAB7D), (0x13AE, 0xAB7E),
   (0x13AF, 0xAB7F), (0x13B0, 0xAB80), (0x13B1, 0xAB81), (0x13B2, 0xAB82), (0x13B3, 0xAB83), (0x13B4, 0xAB84),
   (0x13B5, 0xAB85), (0x13B6, 0xAB86), (0x13B7, 0xAB87), (0x13B8, 0xAB88), (0x13B9, 0xAB89), (0x13BA, 0xAB8A),
   (0x13BB, 0xAB8B), (0x13BC, 0xAB8C), (0x13BD, 0xAB8D), (0x13BE, 0xAB8E), (0x13BF, 0xAB8F), (0x13C0, 0xAB90),
   (0x13C1, 0xAB91), (0x13C2, 0xAB92), (0x13C3, 0xAB93), (0x13C4, 0xAB94), (0x13C5, 0xAB95), (0x13C6, 0xAB96),
   (0x13C7, 0xAB97), (0x13C8, 0xAB98), (0x13C9, 0xAB99), (0x13CA, 0xAB9A), (0x13CB, 0xAB9B), (0x13CC, 0xAB9C),
   (0x13CD, 0xAB9D), (0x13CE, 0xAB9E), (0x13CF, 0xAB9F), (0x13D0, 0xABA0), (0x13D1, 0xABA1), (0x13D2, 0xABA2),
   (0x13D3, 0xABA3), (0x13D4, 0xABA4), (0x13D5, 0xABA5), (0x13D6, 0xABA6), (0x13D7, 0xABA7), (0x13D8, 0xABA8),
   (0x13D9, 0xABA9), (0x13DA, 0xABAA), (0x13DB, 0xABAB), (0x13DC, 0xABAC), (0x13DD, 0xABAD), (0x13DE, 0xABAE),
   (0x13DF, 0xABAF), (0x13E0, 0xABB0), (0x13E1, 0xABB1), (0x13E2, 0xABB2), (0x13E3, 0xABB3), (0x13E4, 0xABB4),
   (0x13E5, 0xABB5), (0x13E6, 0xABB6), (0x13E7, 0xABB7), (0x13E8, 0xABB8), (0x13E9, 0xABB9), (0x13EA, 0xABBA),
   (0x13EB, 0xABBB), (0x13EC, 0xABBC), (0x13ED, 0xABBD), (0x13EE, 0xABBE), (0x13EF, 0xABBF), (0x13F0, 0x13F8),
   (0x13F1, 0x13F9), (0x13F2, 0x13FA), (0x13F3, 0x13FB), (0x13F4, 0x13FC), (0x13F5, 0x13FD), (0x1C90, 0x10D0),
   (0x1C91, 0x10D1), (0x1C92, 0x10D2), (0x1C93, 0x10D3), (0x1C94, 0x10D4), (0x1C95, 0x10D5), (0x1C96, 0x10D6),
   (0x1C97, 0x10D7), (0x1C98, 0x10D8), (0x1C99, 0x10D9), (0x1C9A, 0x10DA), (0x1C9B, 0x10DB), (0x1C9C, 0x10DC),
   (0x1C9D, 0x10DD), (0x1C9E, 0x10DE), (0x1C9F, 0x10DF), (0x1CA0, 0x10E0), (0x1CA1, 0x10E1), (0x1CA2, 0x10E2),
   (0x1CA3, 0x10E3), (0x1CA4, 0x10E4), (0x1CA5, 0x10E5), (0x1CA6, 0x10E6), (0x1CA7, 0x10E7), (0x1CA8, 0x10E8),
   (0x1CA9, 0x10E9), (0x1CAA, 0x10EA), (0x1CAB, 0x10EB), (0x1CAC, 0x10EC), (0x1CAD, 0x10ED), (0x1CAE, 0x10EE),
   (0x1CAF, 0x10EF), (0x1CB0, 0x10F0), (0x1CB1, 0x10F1), (0x1CB2, 0x10F2), (0x1CB3, 0x10F3), (0x1CB4, 0x10F4),
   (0x1CB5, 0x10F5), (0x1CB6, 0x10F6), (0x1CB7, 0x10F7), (0x1CB8, 0x10F8), (0x1CB9, 0x10F9), (0x1CBA, 0x10FA),
   (0x1CBD, 0x10FD), (0x1CBE, 0x10FE), (0x1CBF, 0x10FF), (0x1E00, 0x1E01), (0x1E02, 0x1E03), (0x1E04, 0x1E05),
   (0x1E06, 0x1E07), (0x1E08, 0x1E09), (0x1E0A, 0x1E0B), (0x1E0C, 0x1E0D), (0x1E0E, 0x1E0F), (0x1E10, 0x1E11),
   (0x1E12, 0x1E13), (0x1E14, 0x1E15), (0x1E16, 0x1E17), (0x1E18, 0x1E19), (0x1E1A, 0x1E1B), (0x1E1C, 0x1E1D),
   (0x1E1E, 0x1E1F), (0x1E20, 0x1E21), (0x1E22, 0x1E23), (0x1E24, 0x1E25), (0x1E26, 0x1E27), (0x1E28, 0x1E29),
   (0x1E2A, 0x1E2B), (0x1E2C, 0x1E2D), (0x1E2E, 0x1E2F), (0x1E30, 0x1E31), (0x1E32, 0x1E33), (0x1E34, 0x1E35),
   (0x1E36, 0x1E37), (0x1E38, 0x1E39), (0x1E3A, 0x1E3B), (0x1E3C, 0x1E3D), (0x1E3E, 0x1E3F), (0x1E40, 0x1E41),
   (0x1E42, 0x1E43), (0x1E44, 0x1E45), (0x1E46, 0x1E47), (0x1E48, 0x1E49), (0x1E4A, 0x1E4B), (0x1E4C, 0x1E4D),
   (0x1E4E, 0x1E4F), (0x1E50, 0x1E51), (0x1E52, 0x1E53), (0x1E54, 0x1E55), (0x1E56, 0x1E57), (0x1E58, 0x1E59),
   (0x1E5A, 0x1E5B), (0x1E5C, 0x1E5D), (0x1E5E, 0x1E5F), (0x1E60, 0x1E61), (0x1E62, 0x1E63), (0x1E64, 0x1E65),
   (0x1E66, 0x1E67), (0x1E68, 0x1E69), (0x1E6A, 0x1E6B), (0x1E6C, 0x1E6D), (0x1E6E, 0x1E6F), (0x1E70, 0x1E71),
   (0x1E72, 0x1E73), (0x1E74, 0x1E75), (0x1E76, 0x1E77), (0x1E78, 0x1E79), (0x1E7A, 0x1E7B), (0x1E7C, 0x1E7D),
   (0x1E7E, 0x1E7F), (0x1E80, 0x1E81), (0x1E82, 0x1E83), (0x1E84, 0x1E85), (0x1E86, 0x1E87), (0x1E88, 0x1E89),
   (0x1E8A, 0x1E8B), (0x1E8C, 0x1E8D), (0x1E8E, 0x1E8F), (0x1E90, 0x1E91), (0x1E92, 0x1E93), (0x1E94, 0x1E95),
   (0x1E9E, 0xDF), (0x1EA0, 0x1EA1), (0x1EA2, 0x1EA3), (0x1EA4, 0x1EA5), (0x1EA6, 0x1EA7), (0x1EA8, 0x1EA9),
   (0x1EAA, 0x1EAB), (0x1EAC, 0x1EAD), (0x1EAE, 0x1EAF), (0x1EB0, 0x1EB1), (0x1EB2, 0x1EB3), (0x1EB4, 0x1EB5),
   (0x1EB6, 0x1EB7), (0x1EB8, 0x1EB9), (0x1EBA, 0x1EBB), (0x1EBC, 0x1EBD), (0x1EBE, 0x1EBF), (0x1EC0, 0x1EC1),
   (0x1EC2, 0x1EC3), (0x1EC4, 0x1EC5), (0x1EC6, 0x1EC7), (0x1EC8, 0x1EC9), (0x1ECA, 0x1ECB), (0x1ECC, 0x1ECD),
   (0x1ECE, 0x1ECF), (0x1ED0, 0x1ED1), (0x1ED2, 0x1ED3), (0x1ED4, 0x1ED5), (0x1ED6, 0x1ED7), (0x1ED8, 0x1ED9),
   (0x1EDA, 0x1EDB), (0x1EDC, 0x1EDD), (0x1EDE, 0x1EDF), (0x1EE0, 0x1EE1), (0x1EE2, 0x1EE3), (0x1EE4, 0x1EE5),
   (0x1EE6, 0x1EE7), (0x1EE8, 0x1EE9), (0x1EEA, 0x1EEB), (0x1EEC, 0x1EED), (0x1EEE, 0x1EEF), (0x1EF0, 0x1EF1),
   (0x1EF2, 0x1EF3), (0x1EF4, 0x1EF5), (0x1EF6, 0x1EF7), (0x1EF8, 0x1EF9), (0x1EFA, 0x1EFB), (0x1EFC, 0x1EFD),
   (0x1EFE, 0x1EFF), (0x1F08, 0x1F00), (0x1F09, 0x1F01), (0x1F0A, 0x1F02), (0x1F0B, 0x1F03), (0x1F0C, 0x1F04),
   (0x1F0D, 0x1F05), (0x1F0E, 0x1F06), (0x1F0F, 0x1F07), (0x1F18, 0x1F10), (0x1F19, 0x1F11), (0x1F1A, 0x1F12),
   (0x1F1B, 0x1F13), (0x1F1C, 0x1F14), (0x1F1D, 0x1F15), (0x1F28, 0x1F20), (0x1F29, 0x1F21), (0x1F2A, 0x1F22),
   (0x1F2B, 0x1F23), (0x1F2C, 0x1F24), (0x1F2D, 0x1F25), (0x1F2E, 0x1F26), (0x1F2F, 0x1F27), (0x1F38, 0x1F30),
   (0x1F39, 0x1F31), (0x1F3A, 0x1F32), (0x1F3B, 0x1F33), (0x1F3C, 0x1F34), (0x1F3D, 0x1F35), (0x1F3E, 0x1F36),
   (0x1F3F, 0x1F37), (0x1F48, 0x1F40), (0x1F49, 0x1F41), (0x1F4A, 0x1F42), (0x1F4B, 0x1F43), (0x1F4C, 0x1F44),
   (0x1F4D, 0x1F45), (0x1F59, 0x1F51), (0x1F5B, 0x1F53), (0x1F5D, 0x1F55), (0x1F5F, 0x1F57), (0x1F68, 0x1F60),
   (0x1F69, 0x1F61), (0x1F6A, 0x1F62), (0x1F6B, 0x1F63), (0x1F6C, 0x1F64), (0x1F6D, 0x1F65), (0x1F6E, 0x1F66),
   (0x1F6F, 0x1F67), (0x1F88, 0x1F80), (0x1F89, 0x1F81), (0x1F8A, 0x1F82), (0x1F8B, 0x1F83), (0x1F8C, 0x1F84),
   (0x1F8D, 0x1F85), (0x1F8E, 0x1F86), (0x1F8F, 0x1F87), (0x1F98, 0x1F90), (0x1F99, 0x1F91), (0x1F9A, 0x1F92),
   (0x1F9B, 0x1F93), (0x1F9C, 0x1F94), (0x1F9D, 0x1F95), (0x1F9E, 0x1F96), (0x1F9F, 0x1F97), (0x1FA8, 0x1FA0),
   (0x1FA9, 0x1FA1), (0x1FAA, 0x1FA2), (0x1FAB, 0x1FA3), (0x1FAC, 0x1FA4), (0x1FAD, 0x1FA5), (0x1FAE, 0x1FA6),
   (0x1FAF, 0x1FA7), (0x1FB8, 0x1FB0), (0x1FB9, 0x1FB1), (0x1FBA, 0x1F70), (0x1FBB, 0x1F71), (0x1FBC, 0x1FB3),
   (0x1FC8, 0x1F72), (0x1FC9, 0x1F73), (0x1FCA, 0x1F74), (0x1FCB, 0x1F75), (0x1FCC, 0x1FC3), (0x1FD8, 0x1FD0),
   (0x1FD9, 0x1FD1), (0x1FDA, 0x1F76), (0x1FDB, 0x1F77), (0x1FE8, 0x1FE0), (0x1FE9, 0x1FE1), (0x1FEA, 0x1F7A),
   (0x1FEB, 0x1F7B), (0x1FEC, 0x1FE5), (0x1FF8, 0x1F78), (0x1FF9, 0x1F79), (0x1FFA, 0x1F7C), (0x1FFB, 0x1F7D),
   (0x1FFC, 0x1FF3), (0x2126, 0x3C9), (0x212A, 0x6B), (0x212B, 0xE5), (0x2132, 0x214E), (0x2160, 0x2170),
   (0x2161, 0x2171), (0x2162, 0x2172), (0x2163, 0x2173), (0x2164, 0x2174), (0x2165, 0x2175), (0x2166, 0x2176),
   (0x2167, 0x2177), (0x2168, 0x2178), (0x2169, 0x2179), (0x216A, 0x217A), (0x216B, 0x217B), (0x216C, 0x217C),
   (0x216D, 0x217D), (0x216E, 0x217E), (0x216F, 0x217F), (0x2183, 0x2184), (0x24B6, 0x24D0), (0x24B7, 0x24D1),
   (0x24B8, 0x24D2), (0x24B9, 0x24D3), (0x24BA, 0x24D4), (0x24BB, 0x24D5), (0x24BC, 0x24D6), (0x24BD, 0x24D7),
   (0x24BE, 0x24D8), (0x24BF, 0x24D9), (0x24C0, 0x24DA), (0x24C1, 0x24DB), (0x24C2, 0x24DC), (0x24C3, 0x24DD),
   (0x24C4, 0x24DE), (0x24C5, 0x24DF), (0x24C6, 0x24E0), (0x24C7, 0x24E1), (0x24C8, 0x24E2), (0x24C9, 0x24E3),
   (0x24CA, 0x24E4), (0x24CB, 0x24E5), (0x24CC, 0x24E6), (0x24CD, 0x24E7), (0x24CE, 0x24E8), (0x24CF, 0x24E9),
   (0x2C00, 0x2C30), (0x2C01, 0x2C31), (0x2C02, 0x2C32), (0x2C03, 0x2C33), (0x2C04, 0x2C34), (0x2C05, 0x2C35),
   (0x2C06, 0x2C36), (0x2C07, 0x2C37), (0x2C08, 0x2C38), (0x2C09, 0x2C39), (0x2C0A, 0x2C3A), (0x2C0B, 0x2C3B),
   (0x2C0C, 0x2C3C), (0x2C0D, 0x2C3D), (0x2C0E, 0x2C3E), (0x2C0F, 0x2C3F), (0x2C10, 0x2C40), (0x2C11, 0x2C41),
   (0x2C12, 0x2C42), (0x2C13, 0x2C43), (0x2C14, 0x2C44), (0x2C15, 0x2C45), (0x2C16, 0x2C46), (0x2C17, 0x2C47),
   (0x2C18, 0x2C48), (0x2C19, 0x2C49), (0x2C1A, 0x2C4A), (0x2C1B, 0x2C4B), (0x2C1C, 0x2C4C), (0x2C1D, 0x2C4D),
   (0x2C1E, 0x2C4E), (0x2C1F, 0x2C4F), (0x2C20, 0x2C50), (0x2C21, 0x2C51), (0x2C22, 0x2C52), (0x2C23, 0x2C53),
   (0x2C24, 0x2C54), (0x2C25, 0x2C55), (0x2C26, 0x2C56), (0x2C27, 0x2C57), (0x2C28, 0x2C58), (0x2C29, 0x2C59),
   (0x2C2A, 0x2C5A), (0x2C2B, 0x2C5B), (0x2C2C, 0x2C5C), (0x2C2D, 0x2C5D), (0x2C2E, 0x2C5E), (0x2C2F, 0x2C5F),
   (0x2C60, 0x2C61), (0x2C62, 0x26B), (0x2C63, 0x1D7D), (0x2C64, 0x27D), (0x2C67, 0x2C68), (0x2C69, 0x2C6A),
   (0x2C6B, 0x2C6C), (0x2C6D, 0x251), (0x2C6E, 0x271), (0x2C6F, 0x250), (0x2C70, 0x252), (0x2C72, 0x2C73),
   (0x2C75, 0x2C76), (0x2C7E, 0x23F), (0x2C7F, 0x240), (0x2C80, 0x2C81), (0x2C82, 0x2C83), (0x2C84, 0x2C85),
   (0x2C86, 0x2C87), (0x2C88, 0x2C89), (0x2C8A, 0x2C8B), (0x2C8C, 0x2C8D), (0x2C8E, 0x2C8F), (0x2C90, 0x2C91),
   (0x2C92, 0x2C93), (0x2C94, 0x2C95), (0x2C96, 0x2C97), (0x2C98, 0x2C99), (0x2C9A, 0x2C9B), (0x2C9C, 0x2C9D),
   (0x2C9E, 0x2C9F), (0x2CA0, 0x2CA1), (0x2CA2, 0x2CA3), (0x2CA4, 0x2CA5), (0x2CA6, 0x2CA7), (0x2CA8, 0x2CA9),
   (0x2CAA, 0x2CAB), (0x2CAC, 0x2CAD), (0x2CAE, 0x2CAF), (0x2CB0, 0x2CB1), (0x2CB2, 0x2CB3), (0x2CB4, 0x2CB5),
   (0x2CB6, 0x2CB7), (0x2CB8, 0x2CB9), (0x2CBA, 0x2CBB), (0x2CBC, 0x2CBD), (0x2CBE, 0x2CBF), (0x2CC0, 0x2CC1),
   (0x2CC2, 0x2CC3), (0x2CC4, 0x2CC5), (0x2CC6, 0x2CC7), (0x2CC8, 0x2CC9), (0x2CCA, 0x2CCB), (0x2CCC, 0x2CCD),
   (0x2CCE, 0x2CCF), (0x2CD0, 0x2CD1), (0x2CD2, 0x2CD3), (0x2CD4, 0x2CD5), (0x2CD6, 0x2CD7), (0x2CD8, 0x2CD9),
   (0x2CDA, 0x2CDB), (0x2CDC, 0x2CDD), (0x2CDE, 0x2CDF), (0x2CE0, 0x2CE1), (0x2CE2, 0x2CE3), (0x2CEB, 0x2CEC),
   (0x2CED, 0x2CEE), (0x2CF2, 0x2CF3), (0xA640, 0xA641), (0xA642, 0xA643), (0xA644, 0xA645), (0xA646, 0xA647),
   (0xA648, 0xA649), (0xA64A, 0xA64B), (0xA64C, 0xA64D), (0xA64E, 0xA64F), (0xA650, 0xA651), (0xA652, 0xA653),
   (0xA654, 0xA655), (0xA656, 0xA657), (0xA658, 0xA659), (0xA65A, 0xA65B), (0xA65C, 0xA65D), (0xA65E, 0xA65F),
   (0xA660, 0xA661), (0xA662, 0xA663), (0xA664, 0xA665), (0xA666, 0xA667), (0xA668, 0xA669), (0xA66A, 0xA66B),
   (0xA66C, 0xA66D), (0xA680, 0xA681), (0xA682, 0xA683), (0xA684, 0xA685), (0xA686, 0xA687), (0xA688, 0xA689),
   (0xA68A, 0xA68B), (0xA68C, 0xA68D), (0xA68E, 0xA68F), (0xA690, 0xA691), (0xA692, 0xA693), (0xA694, 0xA695),
   (0xA696, 0xA697), (0xA698, 0xA699), (0xA69A, 0xA69B), (0xA722, 0xA723), (0xA724, 0xA725), (0xA726, 0xA727),
   (0xA728, 0xA729), (0xA72A, 0xA72B), (0xA72C, 0xA72D), (0xA72E, 0xA72F), (0xA732, 0xA733), (0xA734, 0xA735),
   (0xA736, 0xA737), (0xA738, 0xA739), (0xA73A, 0xA73B), (0xA73C, 0xA73D), (0xA73E, 0xA73F), (0xA740, 0xA741),
   (0xA742, 0xA743), (0xA744, 0xA745), (0xA746, 0xA747), (0xA748, 0xA749), (0xA74A, 0xA74B), (0xA74C, 0xA74D),
   (0xA74E, 0xA74F), (0xA750, 0xA751), (0xA752, 0xA753), (0xA754, 0xA755), (0xA756, 0xA757), (0xA758, 0xA759),
   (0xA75A, 0xA75B), (0xA75C, 0xA75D), (0xA75E, 0xA75F), (0xA760, 0xA761), (0xA762, 0xA763), (0xA764, 0xA765),
   (0xA766, 0xA767), (0xA768, 0xA769), (0xA76A, 0xA76B), (0xA76C, 0xA76D), (0xA76E, 0xA76F), (0xA779, 0xA77A),
   (0xA77B, 0xA77C), (0xA77D, 0x1D79), (0xA77E, 0xA77F), (0xA780, 0xA781), (0xA782, 0xA783), (0xA784, 0xA785),
   (0xA786, 0xA787), (0xA78B, 0xA78C), (0xA78D, 0x265), (0xA790, 0xA791), (0xA792, 0xA793), (0xA796, 0xA797),
   (0xA798, 0xA799), (0xA79A, 0xA79B), (0xA79C, 0xA79D), (0xA79E, 0xA79F), (0xA7A0, 0xA7A1), (0xA7A2, 0xA7A3),
   (0xA7A4, 0xA7A5), (0xA7A6, 0xA7A7), (0xA7A8, 0xA7A9), (0xA7AA, 0x266), (0xA7AB, 0x25C), (0xA7AC, 0x261),
   (0xA7AD, 0x26C), (0xA7AE, 0x26A), (0xA7B0, 0x29E), (0xA7B1, 0x287), (0xA7B2, 0x29D), (0xA7B3, 0xAB53),
   (0xA7B4, 0xA7B5), (0xA7B6, 0xA7B7), (0xA7B8, 0xA7B9), (0xA7BA, 0xA7BB), (0xA7BC, 0xA7BD), (0xA7BE, 0xA7BF),
   (0xA7C0, 0xA7C1), (0xA7C2, 0xA7C3), (0xA7C4, 0xA794), (0xA7C5, 0x282), (0xA7C6, 0x1D8E), (0xA7C7, 0xA7C8),
   (0xA7C9, 0xA7CA), (0xA7D0, 0xA7D1), (0xA7D6, 0xA7D7), (0xA7D8, 0xA7D9), (0xA7F5, 0xA7F6), (0xFF21, 0xFF41),
   (0xFF22, 0xFF42), (0xFF23, 0xFF43), (0xFF24, 0xFF44), (0xFF25, 0xFF45), (0xFF26, 0xFF46), (0xFF27, 0xFF47),
   (0xFF28, 0xFF48), (0xFF29, 0xFF49), (0xFF2A, 0xFF4A), (0xFF2B, 0xFF4B), (0xFF2C, 0xFF4C), (0xFF2D, 0xFF4D),
   (0xFF2E, 0xFF4E), (0xFF2F, 0xFF4F), (0xFF30, 0xFF50), (0xFF31, 0xFF51), (0xFF32, 0xFF52), (0xFF33, 0xFF53),
   (0xFF34, 0xFF54), (0xFF35, 0xFF55), (0xFF36, 0xFF56), (0xFF37, 0xFF57), (0xFF38, 0xFF58), (0xFF39, 0xFF59),
   (0xFF3A, 0xFF5A), (0x10400, 0x10428), (0x10401, 0x10429), (0x10402, 0x1042A), (0x10403, 0x1042B), (0x10404, 0x1042C),
   (0x10405, 0x1042D), (0x10406, 0x1042E), (0x10407, 0x1042F), (0x10408, 0x10430), (0x10409, 0x10431), (0x1040A, 0x10432),
   (0x1040B, 0x10433), (0x1040C, 0x10434), (0x1040D, 0x10435), (0x1040E, 0x10436), (0x1040F, 0x10437), (0x10410, 0x10438),
   (0x10411, 0x10439), (0x10412, 0x1043A), (0x10413, 0x1043B), (0x10414, 0x1043C), (0x10415, 0x1043D), (0x10416, 0x1043E),
   (0x10417, 0x1043F), (0x10418, 0x10440), (0x10419, 0x10441), (0x1041A, 0x10442), (0x1041B, 0x10443), (0x1041C, 0x10444),
   (0x1041D, 0x10445), (0x1041E, 0x10446), (0x1041F, 0x10447), (0x10420, 0x10448), (0x10421, 0x10449), (0x10422, 0x1044A),
   (0x10423, 0x1044B), (0x10424, 0x1044C), (0x10425, 0x1044D), (0x10426, 0x1044E), (0x10427, 0x1044F), (0x104B0, 0x104D8),
   (0x104B1, 0x104D9), (0x104B2, 0x104DA), (0x104B3, 0x104DB), (0x104B4, 0x104DC), (0x104B5, 0x104DD), (0x104B6, 0x104DE),
   (0x104B7, 0x104DF), (0x104B8, 0x104E0), (0x104B9, 0x104E1), (0x104BA, 0x104E2), (0x104BB, 0x104E3), (0x104BC, 0x104E4),
   (0x104BD, 0x104E5), (0x104BE, 0x104E6), (0x104BF, 0x104E7), (0x104C0, 0x104E8), (0x104C1, 0x104E9), (0x104C2, 0x104EA),
   (0x104C3, 0x104EB), (0x104C4, 0x104EC), (0x104C5, 0x104ED), (0x104C6, 0x104EE), (0x104C7, 0x104EF), (0x104C8, 0x104F0),
   (0x104C9, 0x104F1), (0x104CA, 0x104F2), (0x104CB, 0x104F3), (0x104CC, 0x104F4), (0x104CD, 0x104F5), (0x104CE, 0x104F6),
   (0x104CF, 0x104F7), (0x104D0, 0x104F8), (0x104D1, 0x104F9), (0x104D2, 0x104FA), (0x104D3, 0x104FB), (0x10570, 0x10597),
   (0x10571, 0x10598), (0x10572, 0x10599), (0x10573, 0x1059A), (0x10574, 0x1059B), (0x10575, 0x1059C), (0x10576, 0x1059D),
   (0x10577, 0x1059E), (0x10578, 0x1059F), (0x10579, 0x105A0), (0x1057A, 0x105A1), (0x1057C, 0x105A3), (0x1057D, 0x105A4),
   (0x1057E, 0x105A5), (0x1057F, 0x105A6), (0x10580, 0x105A7), (0x10581, 0x105A8), (0x10582, 0x105A9), (0x10583, 0x105AA),
   (0x10584, 0x105AB), (0x10585, 0x105AC), (0x10586, 0x105AD), (0x10587, 0x105AE), (0x10588, 0x105AF), (0x10589, 0x105B0),
   (0x1058A, 0x105B1), (0x1058C, 0x105B3), (0x1058D, 0x105B4), (0x1058E, 0x105B5), (0x1058F, 0x105B6), (0x10590, 0x105B7),
   (0x10591, 0x105B8), (0x10592, 0x105B9), (0x10594, 0x105BB), (0x10595, 0x105BC), (0x10C80, 0x10CC0), (0x10C81, 0x10CC1),
   (0x10C82, 0x10CC2), (0x10C83, 0x10CC3), (0x10C84, 0x10CC4), (0x10C85, 0x10CC5), (0x10C86, 0x10CC6), (0x10C87, 0x10CC7),
   (0x10C88, 0x10CC8), (0x10C89, 0x10CC9), (0x10C8A, 0x10CCA), (0x10C8B, 0x10CCB), (0x10C8C, 0x10CCC), (0x10C8D, 0x10CCD),
   (0x10C8E, 0x10CCE), (0x10C8F, 0x10CCF), (0x10C90, 0x10CD0), (0x10C91, 0x10CD1), (0x10C92, 0x10CD2), (0x10C93, 0x10CD3),
   (0x10C94, 0x10CD4), (0x10C95, 0x10CD5), (0x10C96, 0x10CD6), (0x10C97, 0x10CD7), (0x10C98, 0x10CD8), (0x10C99, 0x10CD9),
   (0x10C9A, 0x10CDA), (0x10C9B, 0x10CDB), (0x10C9C, 0x10CDC), (0x10C9D, 0x10CDD), (0x10C9E, 0x10CDE), (0x10C9F, 0x10CDF),
   (0x10CA0, 0x10CE0), (0x10CA1, 0x10CE1), (0x10CA2, 0x10CE2), (0x10CA3, 0x10CE3), (0x10CA4, 0x10CE4), (0x10CA5, 0x10CE5),
   (0x10CA6, 0x10CE6), (0x10CA7, 0x10CE7), (0x10CA8, 0x10CE8), (0x10CA9, 0x10CE9), (0x10CAA, 0x10CEA), (0x10CAB, 0x10CEB),
   (0x10CAC, 0x10CEC), (0x10CAD, 0x10CED), (0x10CAE, 0x10CEE), (0x10CAF, 0x10CEF), (0x10CB0, 0x10CF0), (0x10CB1, 0x10CF1),
   (0x10CB2, 0x10CF2), (0x118A0, 0x118C0), (0x118A1, 0x118C1), (0x118A2, 0x118C2), (0x118A3, 0x118C3), (0x118A4, 0x118C4),
   (0x118A5, 0x118C5), (0x118A6, 0x118C6), (0x118A7, 0x118C7), (0x118A8, 0x118C8), (0x118A9, 0x118C9), (0x118AA, 0x118CA),
   (0x118AB, 0x118CB), (0x118AC, 0x118CC), (0x118AD, 0x118CD), (0x118AE, 0x118CE), (0x118AF, 0x118CF), (0x118B0, 0x118D0),
   (0x118B1, 0x118D1), (0x118B2, 0x118D2), (0x118B3, 0x118D3), (0x118B4, 0x118D4), (0x118B5, 0x118D5), (0x118B6, 0x118D6),
   (0x118B7, 0x118D7), (0x118B8, 0x118D8), (0x118B9, 0x118D9), (0x118BA, 0x118DA), (0x118BB, 0x118DB), (0x118BC, 0x118DC),
   (0x118BD, 0x118DD), (0x118BE, 0x118DE), (0x118BF, 0x118DF), (0x16E40, 0x16E60), (0x16E41, 0x16E61), (0x16E42, 0x16E62),
   (0x16E43, 0x16E63), (0x16E44, 0x16E64), (0x16E45, 0x16E65), (0x16E46, 0x16E66), (0x16E47, 0x16E67), (0x16E48, 0x16E68),
   (0x16E49, 0x16E69), (0x16E4A, 0x16E6A), (0x16E4B, 0x16E6B), (0x16E4C, 0x16E6C), (0x16E4D, 0x16E6D), (0x16E4E, 0x16E6E),
   (0x16E4F, 0x16E6F), (0x16E50, 0x16E70), (0x16E51, 0x16E71), (0x16E52, 0x16E72), (0x16E53, 0x16E73), (0x16E54, 0x16E74),
   (0x16E55, 0x16E75), (0x16E56, 0x16E76), (0x16E57, 0x16E77), (0x16E58, 0x16E78), (0x16E59, 0x16E79), (0x16E5A, 0x16E7A),
   (0x16E5B, 0x16E7B), (0x16E5C, 0x16E7C), (0x16E5D, 0x16E7D), (0x16E5E, 0x16E7E), (0x16E5F, 0x16E7F), (0x1E900, 0x1E922),
   (0x1E901, 0x1E923), (0x1E902, 0x1E924), (0x1E903, 0x1E925), (0x1E904, 0x1E926), (0x1E905, 0x1E927), (0x1E906, 0x1E928),
   (0x1E907, 0x1E929), (0x1E908, 0x1E92A), (0x1E909, 0x1E92B), (0x1E90A, 0x1E92C), (0x1E90B, 0x1E92D), (0x1E90C, 0x1E92E),
   (0x1E90D, 0x1E92F), (0x1E90E, 0x1E930), (0x1E90F, 0x1E931), (0x1E910, 0x1E932), (0x1E911, 0x1E933), (0x1E912, 0x1E934),
   (0x1E913, 0x1E935), (0x1E914, 0x1E936), (0x1E915, 0x1E937), (0x1E916, 0x1E938), (0x1E917, 0x1E939), (0x1E918, 0x1E93A),
   (0x1E919, 0x1E93B), (0x1E91A, 0x1E93C), (0x1E91B, 0x1E93D), (0x1E91C, 0x1E93E), (0x1E91D, 0x1E93F), (0x1E91E, 0x1E940),
   (0x1E91F, 0x1E941), (0x1E920, 0x1E942), (0x1E921, 0x1E943)]

/-- Membership of a code point in a list of inclusive ranges. -/
def inRanges (rs : List (Nat × Nat)) (n : Nat) : Bool :=
  rs.any (fun p => decide (p.1 ≤ n) && decide (n ≤ p.2))

/-- The character class kept by wordStats.ts `tokenize`: the Unicode
letters-and-digits classes `\p{L}\p{N}` of its regex. -/
def isWordChar (c : Char) : Bool := inRanges letterDigitRanges c.toNat

/-- The whitespace class `\s` of a JavaScript regex. -/
def jsWhitespace (c : Char) : Bool :=
  [0x9, 0xA, 0xB, 0xC, 0xD, 0x20, 0xA0, 0x1680, 0x2028, 0x2029, 0x202F, 0x205F,
    0x3000, 0xFEFF].contains c.toNat
  || (decide (0x2000 ≤ c.toNat) && decide (c.toNat ≤ 0x200A))

/-- Skip `Case_Ignorable` characters and return the first other character. -/
def skipCaseIgnorable : List Char → Option Char
  | [] => none
  | c :: rest =>
      if inRanges caseIgnorableRanges c.toNat then skipCaseIgnorable rest else some c

/-- Whether a context (a character sequence leading away from a position)
starts with a cased letter once case-ignorable characters are skipped: the
two context tests of the final-sigma rule. -/
def contextIsCased (l : List Char) : Bool :=
  match skipCaseIgnorable l with
  | some c => inRanges casedRanges c.toNat
  | none => false

/-- The context-free part of the Unicode default lowercase mapping: the
single-character mappings of `lowerTable`, and the one expanding mapping
`U+0130 İ → i + COMBINING DOT ABOVE`. -/
def lowerChar (c : Char) : List Char :=
  if c.toNat = 0x130 then [Char.ofNat 0x69, Char.ofNat 0x307]
  else
    match lowerTable.find? (fun p => decide (p.1 = c.toNat)) with
    | some p => [Char.ofNat p.2]
    | none => [c]

/-- JavaScript `String.prototype.toLowerCase` over a character list: the
Unicode default lowercase mapping, walking the string while keeping the
reversed prefix as context so that `U+03A3 Σ` can apply the final-sigma rule
(lowercase `ς` when preceded by a cased letter and not followed by one,
skipping case-ignorable characters on both sides; `σ` otherwise). -/
def jsLowerGo : List Char → List Char → List Char
  | _, [] => []
  | revBefore, c :: rest =>
      (if c.toNat = 0x3A3 then
        (if contextIsCased revBefore && !contextIsCased rest then [Char.ofNat 0x3C2]
         else [Char.ofNat 0x3C3])
       else lowerChar c) ++ jsLowerGo (c :: revBefore) rest

/-- JavaScript `toLowerCase` on a whole character list. -/
def jsLower (l : List Char) : List Char := jsLowerGo [] l

/-- wordStats.ts `tokenize`: lowercase, replace every character outside
`[\p{L}\p{N}\s]` by a space, split on whitespace runs and drop empty pieces
(the split is rendered by collapsing every whitespace character to `' '`,
splitting on `' '` and dropping the empty pieces a run produces). -/
def tokenize (text : String) : List String :=
  (((((jsLower text.toList).map
          (fun c => if isWordChar c || jsWhitespace c then c else ' ')).map
        (fun c => if jsWhitespace c then ' ' else c)).splitOn ' ').map
      (fun cs => String.mk cs)).filter (fun w => w ≠ "")

/-- The Boolean computed inside wordStats.ts `recomputeWordMastery`:
at least one linked sentence mastered AND `totalSeenCount >= MIN_WORD_SEEN`. -/
def wordMasteryFormula (mastery : List SentenceMastery) (w : WordStats) : Bool :=
  w.sentenceIds.any (fun sid => getSentenceMasteryStatus mastery sid)
    && decide (MIN_WORD_SEEN ≤ w.totalSeenCount)

/-- wordStats.ts `recomputeWordMastery` (lines 155–168): recompute the
mastery bit of one word; on no change return without touching the map or
persistence; on change store the updated record and persist it.  The Boolean
of the result records whether the record was written to persistence
(`db.put` on IndexedDB, `save()` otherwise — both sit behind the same
no-change early return). -/
def recomputeWordMastery (wm : List WordStats) (mastery : List SentenceMastery)
    (wordId : String) (today : Int) : List WordStats × Bool :=
  match mapGet (fun x => x.id) wm wordId with
  | none => (wm, false)
  | some w =>
      let isMastered := wordMasteryFormula mastery w
      if w.isMastered = isMastered then (wm, false)
      else
        (mapSet (fun x => x.id) wm
          { w with
            isMastered := isMastered
            lastSeenAt := if isMastered then some today else w.lastSeenAt }, true)

/-- The token loop of wordStats.ts `recomputeWordMasteryForSentence`
(`for (const w of words) recomputeWordMastery(w)`), collecting the word ids
written to persistence. -/
def foldTokens (mastery : List SentenceMastery) (today : Int) (ts : List String)
    (acc : List WordStats × List String) : List WordStats × List String :=
  ts.foldl
    (fun acc w =>
      let r := recomputeWordMastery acc.1 mastery w today
      (r.1, if r.2 then acc.2 ++ [w] else acc.2))
    acc

/-- wordStats.ts `recomputeWordMasteryForSentence` (lines 171–176): tokenize
the sentence's target-language text and recompute each token, collecting the
persisted word ids. -/
def recomputeWordMasteryForSentence (wm : List WordStats) (mastery : List SentenceMastery)
    (sentences : List Sentence) (sentenceId : String) (today : Int) :
    List WordStats × List String :=
  match getSentence sentences sentenceId with
  | none => (wm, [])
  | some s => foldTokens mastery today (tokenize s.french) (wm, [])

/-- Helper: a successful `mapGet` returns an entry carrying the looked-up key. -/
theorem mapGet_key {α κ : Type} [DecidableEq κ] {k : α → κ} {m : List α} {key : κ} {w : α}
    (h : mapGet k m key = some w) : k w = key := by
  have := List.find?_some h
  simpa using this

/-- Helper: `recomputeWordMastery` leaves every other word id untouched. -/
theorem recompute_other_id (wm : List WordStats) (mastery : List SentenceMastery)
    (wordId : String) (today : Int) (id : String) (hid : id ≠ wordId) :
    mapGet (fun x => x.id) (recomputeWordMastery wm mastery wordId today).1 id
      = mapGet (fun x => x.id) wm id := by
  unfold recomputeWordMastery
  cases hlook : mapGet (fun x => x.id) wm wordId with
  | none => rfl
  | some w =>
      simp only []
      by_cases hch : w.isMastered = wordMasteryFormula mastery w
      · simp [hch]
      · have hkey : w.id = wordId := mapGet_key hlook
        simp only [if_neg hch]
        exact mapGet_mapSet_ne _ wm _ id (by simpa [hkey] using hid)

/-- Helper: after `recomputeWordMastery` the entry of the recomputed word
carries the recomputed mastery bit and unchanged link/count fields. -/
theorem recompute_settles (wm : List WordStats) (mastery : List SentenceMastery)
    (wordId : String) (today : Int) (e : WordStats)
    (h : mapGet (fun x => x.id) wm wordId = some e) :
    ∃ e2, mapGet (fun x => x.id) (recomputeWordMastery wm mastery wordId today).1 wordId = some e2
      ∧ e2.isMastered = wordMasteryFormula mastery e
      ∧ e2.sentenceIds = e.sentenceIds ∧ e2.totalSeenCount = e.totalSeenCount := by
  unfold recomputeWordMastery
  rw [h]
  by_cases hch : e.isMastered = wordMasteryFormula mastery e
  · exact ⟨e, by simp [hch, h], hch, rfl, rfl⟩
  · have hkey : e.id = wordId := mapGet_key h
    refine ⟨({ e with
              isMastered := wordMasteryFormula mastery e
              lastSeenAt := if wordMasteryFormula mastery e then some today else e.lastSeenAt }),
            ?_, rfl, rfl, rfl⟩
    simp only [if_neg hch]
    have := mapGet_mapSet_self (fun x : WordStats => x.id) wm
      { e with
        isMastered := wordMasteryFormula mastery e
        lastSeenAt := if wordMasteryFormula mastery e then some today else e.lastSeenAt }
    simpa [hkey] using this

/-- Helper: recomputing a word whose stored bit already matches is a no-op
and does not persist. -/
theorem recompute_noop (wm : List WordStats) (mastery : List SentenceMastery)
    (wordId : String) (today : Int) (e : WordStats)
    (h : mapGet (fun x => x.id) wm wordId = some e)
    (hset : e.isMastered = wordMasteryFormula mastery e) :
    recomputeWordMastery wm mastery wordId today = (wm, false) := by
  unfold recomputeWordMastery
  rw [h]
  simp [hset]

/-- Helper: recomputing an absent word is a no-op and does not persist. -/
theorem recompute_noop_none (wm : List WordStats) (mastery : List SentenceMastery)
    (wordId : String) (today : Int)
    (h : mapGet (fun x => x.id) wm wordId = none) :
    recomputeWordMastery wm mastery wordId today = (wm, false) := by
  unfold recomputeWordMastery
  rw [h]

/-- Helper: `recomputeWordMastery` persists exactly when the stored mastery
bit differs from the recomputed one. -/
theorem recompute_persisted_iff (wm : List WordStats) (mastery : List SentenceMastery)
    (wordId : String) (today : Int) :
    (recomputeWordMastery wm mastery wordId today).2 = true ↔
      ∃ e, mapGet (fun x => x.id) wm wordId = some e
        ∧ e.isMastered ≠ wordMasteryFormula mastery e := by
  unfold recomputeWordMastery
  cases hlook : mapGet (fun x => x.id) wm wordId with
  | none => simp
  | some w =>
      by_cases hch : w.isMastered = wordMasteryFormula mastery w
      · simp [hch]
      · simp [hch]

/-- Helper: the recomputed mastery bit depends only on the link list and the
seen count. -/
theorem wordMasteryFormula_fields (mastery : List SentenceMastery) (e1 e2 : WordStats)
    (h1 : e2.sentenceIds = e1.sentenceIds) (h2 : e2.totalSeenCount = e1.totalSeenCount) :
    wordMasteryFormula mastery e2 = wordMasteryFormula mastery e1 := by
  simp [wordMasteryFormula, h1, h2]

/-- Specification of the token loop: (A) entries whose bit already matches the
formula are never touched again; (B) each token present in the map ends with
its bit equal to the formula over its original fields; (C) a word id is in
the persisted list exactly when its stored bit differed from the formula. -/
theorem foldTokens_spec (mastery : List SentenceMastery) (today : Int) (ts : List String) :
    ∀ (wmCur : List WordStats) (pers : List String),
      (∀ id e1, mapGet (fun x => x.id) wmCur id = some e1 →
          e1.isMastered = wordMasteryFormula mastery e1 →
          mapGet (fun x => x.id) (foldTokens mastery today ts (wmCur, pers)).1 id = some e1)
      ∧ (∀ w ∈ ts, ∀ e1, mapGet (fun x => x.id) wmCur w = some e1 →
          ∃ e2, mapGet (fun x => x.id) (foldTokens mastery today ts (wmCur, pers)).1 w = some e2
            ∧ e2.isMastered = wordMasteryFormula mastery e1
            ∧ e2.sentenceIds = e1.sentenceIds ∧ e2.totalSeenCount = e1.totalSeenCount)
      ∧ (∀ x, x ∈ (foldTokens mastery today ts (wmCur, pers)).2 ↔
          x ∈ pers ∨ ∃ e1, mapGet (fun y => y.id) wmCur x = some e1 ∧ x ∈ ts
            ∧ e1.isMastered ≠ wordMasteryFormula mastery e1) := by
  induction ts with
  | nil =>
      intro wmCur pers
      refine ⟨fun id e1 h _ => h, by simp, fun x => by simp [foldTokens]⟩
  | cons u ts ih =>
      intro wmCur pers
      have hfold : ∀ q : List String, foldTokens mastery today (u :: ts) (wmCur, q)
          = foldTokens mastery today ts
              ((recomputeWordMastery wmCur mastery u today).1,
               if (recomputeWordMastery wmCur mastery u today).2 then q ++ [u] else q) := by
        intro q
        rfl
      obtain ⟨ihA, ihB, ihC⟩ := ih (recomputeWordMastery wmCur mastery u today).1
        (if (recomputeWordMastery wmCur mastery u today).2 then pers ++ [u] else pers)
      refine ⟨?_, ?_, ?_⟩
      · intro id e1 h hset
        rw [hfold]
        refine ihA id e1 ?_ hset
        by_cases hid : id = u
        · subst hid
          rw [recompute_noop wmCur mastery id today e1 h hset]
          exact h
        · rw [recompute_other_id wmCur mastery u today id hid]
          exact h
      · intro w hw e1 h
        by_cases hwu : w = u
        · subst hwu
          obtain ⟨e2, he2, hm, hsids, hcnt⟩ := recompute_settles wmCur mastery w today e1 h
          have hsettled : e2.isMastered = wordMasteryFormula mastery e2 := by
            rw [hm]
            exact (wordMasteryFormula_fields mastery e1 e2 hsids hcnt).symm
          refine ⟨e2, ?_, hm, hsids, hcnt⟩
          rw [hfold]
          exact ihA w e2 he2 hsettled
        · have hwts : w ∈ ts := by
            rcases List.mem_cons.mp hw with h1 | h1
            · exact absurd h1 hwu
            · exact h1
          have h1 : mapGet (fun x => x.id) (recomputeWordMastery wmCur mastery u today).1 w
              = some e1 := by
            rw [recompute_other_id wmCur mastery u today w hwu]
            exact h
          obtain ⟨e2, he2, hm, hsids, hcnt⟩ := ihB w hwts e1 h1
          refine ⟨e2, ?_, hm, hsids, hcnt⟩
          rw [hfold]
          exact he2
      · intro x
        rw [hfold, ihC x]
        by_cases hxu : x = u
        · subst hxu
          constructor
          · rintro (hin | ⟨e1, he1, hxts, hne⟩)
            · by_cases hp : (recomputeWordMastery wmCur mastery x today).2 = true
              · rw [if_pos hp] at hin
                rcases List.mem_append.mp hin with h1 | h1
                · exact Or.inl h1
                · obtain ⟨e, he, hne⟩ := (recompute_persisted_iff wmCur mastery x today).mp hp
                  exact Or.inr ⟨e, he, List.mem_cons_self _ _, hne⟩
              · rw [if_neg hp] at hin
                exact Or.inl hin
            · exfalso
              cases hlook : mapGet (fun y => y.id) wmCur x with
              | none =>
                  rw [recompute_noop_none wmCur mastery x today hlook] at he1
                  rw [hlook] at he1
                  exact Option.noConfusion he1
              | some e =>
                  obtain ⟨e2, he2, hm, hsids, hcnt⟩ :=
                    recompute_settles wmCur mastery x today e hlook
                  rw [he2] at he1
                  cases he1
                  apply hne
                  rw [hm]
                  exact (wordMasteryFormula_fields mastery e e1 hsids hcnt).symm
          · rintro (hin | ⟨e1, he1, _, hne⟩)
            · left
              by_cases hp : (recomputeWordMastery wmCur mastery x today).2 = true
              · rw [if_pos hp]
                exact List.mem_append.mpr (Or.inl hin)
              · rw [if_neg hp]
                exact hin
            · left
              have hp : (recomputeWordMastery wmCur mastery x today).2 = true :=
                (recompute_persisted_iff wmCur mastery x today).mpr ⟨e1, he1, hne⟩
              rw [if_pos hp]
              exact List.mem_append.mpr (Or.inr (List.mem_singleton.mpr rfl))
        · have hmem : ∀ q : List String,
              (x ∈ if (recomputeWordMastery wmCur mastery u today).2 then q ++ [u] else q)
                ↔ x ∈ q := by
            intro q
            by_cases hp : (recomputeWordMastery wmCur mastery u today).2 = true
            · rw [if_pos hp]
              simp [List.mem_append, hxu]
            · rw [if_neg hp]
          rw [hmem pers]
          rw [recompute_other_id wmCur mastery u today x hxu]
          simp only [List.mem_cons]
          constructor
          · rintro (h1 | ⟨e1, he1, hxts, hne⟩)
            · exact Or.inl h1
            · exact Or.inr ⟨e1, he1, Or.inr hxts, hne⟩
          · rintro (h1 | ⟨e1, he1, hxts, hne⟩)
            · exact Or.inl h1
            · rcases hxts with h2 | h2
              · exact absurd h2 hxu
              · exact Or.inr ⟨e1, he1, h2, hne⟩

/-- C4: after mastery recomputation for a sentence containing a token, the
token's `isMastered` equals (at least one linked sentence mastered) AND
(`totalSeenCount ≥ 3`), and the token's record is written to persistence
exactly when this value differs from the stored one. -/
theorem recomputeWordMasteryForSentence_spec
    (wm : List WordStats) (mastery : List SentenceMastery) (sentences : List Sentence)
    (sid : String) (today : Int) (s : Sentence) (w : String) (e : WordStats)
    (hs : getSentence sentences sid = some s)
    (hw : w ∈ tokenize s.french)
    (he : mapGet (fun x => x.id) wm w = some e) :
    ∃ e2, mapGet (fun x => x.id)
        (recomputeWordMasteryForSentence wm mastery sentences sid today).1 w = some e2
      ∧ e2.isMastered = (e.sentenceIds.any (fun id => getSentenceMasteryStatus mastery id)
          && decide (MIN_WORD_SEEN ≤ e.totalSeenCount))
      ∧ (w ∈ (recomputeWordMasteryForSentence wm mastery sentences sid today).2
          ↔ e.isMastered ≠ (e.sentenceIds.any (fun id => getSentenceMasteryStatus mastery id)
              && decide (MIN_WORD_SEEN ≤ e.totalSeenCount))) := by
  unfold recomputeWordMasteryForSentence
  rw [hs]
  obtain ⟨hA, hB, hC⟩ := foldTokens_spec mastery today (tokenize s.french) wm []
  obtain ⟨e2, he2, hm, hsids, hcnt⟩ := hB w hw e he
  refine ⟨e2, he2, by rw [hm]; rfl, ?_⟩
  rw [hC w]
  simp only [List.not_mem_nil, false_or]
  constructor
  · rintro ⟨e1, he1, _, hne⟩
    rw [he] at he1
    cases he1
    exact hne
  · intro hne
    exact ⟨e, he, hw, hne⟩

set_option maxHeartbeats 4000000 in
set_option maxRecDepth 20000 in
/-- Witness for `recomputeWordMasteryForSentence_spec` at a concrete input
(an accented token, kept whole by `tokenize`). -/
theorem recomputeWordMasteryForSentence_spec_witness :
    ∃ e2, mapGet (fun x => x.id)
        (recomputeWordMasteryForSentence
          [{ id := "café", text := "café", sentenceIds := ["s1"], totalSeenCount := 3,
             isMastered := false }]
          [{ sentenceId := "s1", isMastered := true, masteredAt := none,
             currentDifficulty := DifficultyPath.easy, transitionCount := 1 }]
          [{ id := "s1", lessonId := "l1", index := 0, french := "café", english := "coffee",
             createdAt := 0 }] "s1" 9).1 "café" = some e2
      ∧ e2.isMastered = ((["s1"] : List String).any (fun id => getSentenceMasteryStatus
            [{ sentenceId := "s1", isMastered := true, masteredAt := none,
               currentDifficulty := DifficultyPath.easy, transitionCount := 1 }] id)
          && decide (MIN_WORD_SEEN ≤ 3))
      ∧ (("café" ∈ (recomputeWordMasteryForSentence
          [{ id := "café", text := "café", sentenceIds := ["s1"], totalSeenCount := 3,
             isMastered := false }]
          [{ sentenceId := "s1", isMastered := true, masteredAt := none,
             currentDifficulty := DifficultyPath.easy, transitionCount := 1 }]
          [{ id := "s1", lessonId := "l1", index := 0, french := "café", english := "coffee",
             createdAt := 0 }] "s1" 9).2)
          ↔ (false : Bool) ≠ ((["s1"] : List String).any (fun id => getSentenceMasteryStatus
              [{ sentenceId := "s1", isMastered := true, masteredAt := none,
                 currentDifficulty := DifficultyPath.easy, transitionCount := 1 }] id)
            && decide (MIN_WORD_SEEN ≤ 3))) :=
  recomputeWordMasteryForSentence_spec
    [{ id := "café", text := "café", sentenceIds := ["s1"], totalSeenCount := 3,
       isMastered := false }]
    [{ sentenceId := "s1", isMastered := true, masteredAt := none,
       currentDifficulty := DifficultyPath.easy, transitionCount := 1 }]
    [{ id := "s1", lessonId := "l1", index := 0, french := "café", english := "coffee",
       createdAt := 0 }] "s1" 9
    { id := "s1", lessonId := "l1", index := 0, french := "café", english := "coffee",
      createdAt := 0 } "café"
    { id := "café", text := "café", sentenceIds := ["s1"], totalSeenCount := 3,
      isMastered := false }
    rfl (show "café" ∈ tokenize "café" by
      rw [show tokenize "café" = ["café"] from rfl]
      exact List.mem_singleton.mpr rfl) rfl

/-! ## Courses and lessons (src/store/courses.ts) and the app-state model -/

/-- types.ts `LessonRef`: the denormalized lesson summary held in a course. -/
structure LessonRef where
  id : String
  name : String
  order : Int
  isUnlocked : Bool
deriving DecidableEq, Repr

/-- types.ts `Lesson`.  `completedAt` is a day number. -/
structure Lesson where
  id : String
  courseId : String
  name : String
  order : Int
  sentenceIds : List String
  isUnlocked : Bool
  completedAt : Option Int := none
deriving DecidableEq, Repr

/-- types.ts `Course`.  `createdAt` is an instant. -/
structure Course where
  id : String
  name : String
  createdAt : Int
  lessons : List LessonRef
deriving DecidableEq, Repr

/-- The in-memory stores the progression / deletion paths touch: courses,
lessons, sentences, review states, sentence mastery, word stats, and the
listen-completed exposure set kept under its own storage key. -/
structure AppState where
  courses : List Course
  lessons : List Lesson
  sentences : List Sentence
  reviewStates : List ReviewState
  masteryMap : List SentenceMastery
  wordStats : List WordStats
  listenCompleted : List String
deriving Repr

/-- The array mutation `arr[arr.findIndex(p)] = f(found)` (equivalently
mutating the object returned by `arr.find(p)`): update the first entry
satisfying the predicate. -/
def updateFirst {α : Type} (p : α → Bool) (f : α → α) : List α → List α
  | [] => []
  | a :: as => if p a then f a :: as else a :: updateFirst p f as

/-- The array mutation `arr.splice(arr.findIndex(p), 1)`: remove the first
entry satisfying the predicate. -/
def removeFirst {α : Type} (p : α → Bool) : List α → List α
  | [] => []
  | a :: as => if p a then as else a :: removeFirst p as

/-- courses.ts `getLesson`: first lesson with the id. -/
def getLesson (st : AppState) (id : String) : Option Lesson :=
  st.lessons.find? (fun l => l.id == id)

/-- courses.ts `getCourse`: first course with the id. -/
def getCourse (st : AppState) (id : String) : Option Course :=
  st.courses.find? (fun c => c.id == id)

/-- sentences.ts `getSentencesByLessonId` (the source also sorts by `index`;
the sort is irrelevant to the properties below, which are order-insensitive). -/
def getSentencesByLessonId (st : AppState) (lessonId : String) : List Sentence :=
  st.sentences.filter (fun s => s.lessonId == lessonId)

/-! ## Cascading delete (claims C5, C9) -/

/-- reviewStates.ts `removeReviewStatesBySentenceIds`: delete every
(sentenceId, mode) entry whose sentence id is among the deleted ids (the
source collects the matching keys and deletes each from the map). -/
def removeReviewStatesBySentenceIds (m : List ReviewState) (ids : List String) :
    List ReviewState :=
  m.filter (fun s => !ids.contains s.sentenceId)

/-- sentenceMastery.ts `removeSentenceMasteryBySentenceIds`. -/
def removeSentenceMasteryBySentenceIds (m : List SentenceMastery) (ids : List String) :
    List SentenceMastery :=
  m.filter (fun e => !ids.contains e.sentenceId)

/-- wordStats.ts `pruneWordStatsBySentenceIds` (lines 232–253): drop deleted
sentence ids from every word entry; a word whose remaining id list is empty
is removed entirely, a word whose list shrank is updated, an untouched word
is kept as is. -/
def pruneWordStatsBySentenceIds (wm : List WordStats) (ids : List String) : List WordStats :=
  wm.filterMap (fun w =>
    if (w.sentenceIds.filter (fun id => !ids.contains id)).isEmpty then none
    else if (w.sentenceIds.filter (fun id => !ids.contains id)).length
        ≠ w.sentenceIds.length then
      some { w with sentenceIds := w.sentenceIds.filter (fun id => !ids.contains id) }
    else some w)

/-- sentences.ts `getSentenceIdsByFileId`. -/
def getSentenceIdsByFileId (st : AppState) (fileId : String) : List String :=
  (st.sentences.filter (fun s => s.sourceFileId == some fileId)).map (fun s => s.id)

/-- sentences.ts `removeSentencesByFileId` (lines 166–187): cascade over the
file's sentences — remove their review states, prune word stats, remove
mastery entries, drop their ids from their lessons' `sentenceIds`, then
delete the sentences themselves. -/
def removeSentencesByFileId (st : AppState) (fileId : String) : AppState :=
  let toRemove := st.sentences.filter (fun s => s.sourceFileId == some fileId)
  let ids := toRemove.map (fun s => s.id)
  { st with
    reviewStates := removeReviewStatesBySentenceIds st.reviewStates ids
    wordStats := pruneWordStatsBySentenceIds st.wordStats ids
    masteryMap := removeSentenceMasteryBySentenceIds st.masteryMap ids
    lessons := toRemove.foldl
      (fun ls s =>
        updateFirst (fun l => l.id == s.lessonId)
          (fun l => { l with sentenceIds := l.sentenceIds.filter (fun id => id ≠ s.id) }) ls)
      st.lessons
    sentences := st.sentences.filter (fun s => !ids.contains s.id) }

/-- courses.ts `removeCourse`: remove the course record (splice at the found
index) and every lesson belonging to it. -/
def removeCourse (st : AppState) (id : String) : AppState :=
  { st with
    courses := removeFirst (fun c => c.id == id) st.courses
    lessons := st.lessons.filter (fun l => !(l.courseId == id)) }

/-- The delete-course flow (`confirmDelete` in SentenceLibrary.tsx /
`handleDeleteCourse` in Settings.tsx): remove review states, remove mastery
entries, prune word stats over the file's sentence ids, then
`removeSentencesByFileId` and `removeCourse`. -/
def deleteCourseCascade (st : AppState) (fileId : String) : AppState :=
  let ids := getSentenceIdsByFileId st fileId
  let st1 := { st with
    reviewStates := removeReviewStatesBySentenceIds st.reviewStates ids
    masteryMap := removeSentenceMasteryBySentenceIds st.masteryMap ids
    wordStats := pruneWordStatsBySentenceIds st.wordStats ids }
  let st2 := removeSentencesByFileId st1 fileId
  removeCourse st2 fileId

/-- Helper: surviving a deletion filter means the key is not a deleted id. -/
theorem key_not_mem_of_mem_filter {α : Type} (key : α → String) (ids : List String)
    (l : List α) (x : α) (h : x ∈ l.filter (fun s => !ids.contains (key s))) :
    key x ∉ ids := by
  have := (List.mem_filter.mp h).2
  simp at this
  exact this

/-- Helper: after pruning, every surviving word entry has a nonempty sentence
list containing no deleted id. -/
theorem prune_no_orphans (wm : List WordStats) (ids : List String) (w : WordStats)
    (h : w ∈ pruneWordStatsBySentenceIds wm ids) :
    w.sentenceIds ≠ [] ∧ ∀ id ∈ w.sentenceIds, id ∉ ids := by
  obtain ⟨w0, hw0, hf⟩ := List.mem_filterMap.mp h
  by_cases hempty : (w0.sentenceIds.filter (fun id => !ids.contains id)).isEmpty = true
  · rw [if_pos hempty] at hf
    exact Option.noConfusion hf
  · rw [if_neg hempty] at hf
    by_cases hlen : (w0.sentenceIds.filter (fun id => !ids.contains id)).length
        ≠ w0.sentenceIds.length
    · rw [if_pos hlen] at hf
      have hw : w = { w0 with
          sentenceIds := w0.sentenceIds.filter (fun id => !ids.contains id) } :=
        (Option.some.inj hf).symm
      constructor
      · rw [hw]
        intro hnil
        apply hempty
        rw [show ({ w0 with
            sentenceIds := w0.sentenceIds.filter (fun id => !ids.contains id) } :
              WordStats).sentenceIds
            = w0.sentenceIds.filter (fun id => !ids.contains id) from rfl] at hnil
        rw [hnil]
        rfl
      · intro id hid
        rw [hw] at hid
        exact key_not_mem_of_mem_filter (fun x => x) ids w0.sentenceIds id hid
    · rw [if_neg hlen] at hf
      have hw : w = w0 := (Option.some.inj hf).symm
      push_neg at hlen
      have hall : ∀ a ∈ w0.sentenceIds, (!ids.contains a) = true :=
        List.filter_length_eq_length.mp hlen
      constructor
      · rw [hw]
        intro hnil
        apply hempty
        rw [hnil]
        rfl
      · intro id hid
        rw [hw] at hid
        have := hall id hid
        simp at this
        exact this

/-- C5: after the cascading delete of a file, no table retains a reference to
any of that file's sentence ids: every review state for those ids (hence for
all three modes) is gone, every mastery entry for those ids is gone, word
entries whose sentence-id list becomes empty are deleted entirely, every
remaining word entry's sentence-id list contains no deleted id, and the
sentences themselves are gone. -/
theorem deleteCourseCascade_no_orphans (st : AppState) (fileId : String) :
    (∀ rs ∈ (deleteCourseCascade st fileId).reviewStates,
        rs.sentenceId ∉ getSentenceIdsByFileId st fileId)
    ∧ (∀ e ∈ (deleteCourseCascade st fileId).masteryMap,
        e.sentenceId ∉ getSentenceIdsByFileId st fileId)
    ∧ (∀ w ∈ (deleteCourseCascade st fileId).wordStats,
        w.sentenceIds ≠ [] ∧ ∀ id ∈ w.sentenceIds, id ∉ getSentenceIdsByFileId st fileId)
    ∧ (∀ s ∈ (deleteCourseCascade st fileId).sentences,
        s.id ∉ getSentenceIdsByFileId st fileId ∧ s.sourceFileId ≠ some fileId) := by
  have hrv : (deleteCourseCascade st fileId).reviewStates
      = removeReviewStatesBySentenceIds
          (removeReviewStatesBySentenceIds st.reviewStates (getSentenceIdsByFileId st fileId))
          (getSentenceIdsByFileId st fileId) := rfl
  have hma : (deleteCourseCascade st fileId).masteryMap
      = removeSentenceMasteryBySentenceIds
          (removeSentenceMasteryBySentenceIds st.masteryMap (getSentenceIdsByFileId st fileId))
          (getSentenceIdsByFileId st fileId) := rfl
  have hws : (deleteCourseCascade st fileId).wordStats
      = pruneWordStatsBySentenceIds
          (pruneWordStatsBySentenceIds st.wordStats (getSentenceIdsByFileId st fileId))
          (getSentenceIdsByFileId st fileId) := rfl
  have hse : (deleteCourseCascade st fileId).sentences
      = st.sentences.filter
          (fun s => !(getSentenceIdsByFileId st fileId).contains s.id) := rfl
  refine ⟨?_, ?_, ?_, ?_⟩
  · intro rs hrs
    rw [hrv] at hrs
    unfold removeReviewStatesBySentenceIds at hrs
    exact key_not_mem_of_mem_filter (fun x => x.sentenceId) (getSentenceIdsByFileId st fileId)
      _ rs hrs
  · intro e he
    rw [hma] at he
    unfold removeSentenceMasteryBySentenceIds at he
    exact key_not_mem_of_mem_filter (fun x => x.sentenceId) (getSentenceIdsByFileId st fileId)
      _ e he
  · intro w hw
    rw [hws] at hw
    exact prune_no_orphans _ (getSentenceIdsByFileId st fileId) w hw
  · intro s hs
    rw [hse] at hs
    have hid : s.id ∉ getSentenceIdsByFileId st fileId :=
      key_not_mem_of_mem_filter (fun x => x.id) (getSentenceIdsByFileId st fileId) _ s hs
    refine ⟨hid, ?_⟩
    intro hsf
    apply hid
    have hmem : s ∈ st.sentences := (List.mem_filter.mp hs).1
    exact List.mem_map.mpr ⟨s, List.mem_filter.mpr ⟨hmem, by simp [hsf]⟩, rfl⟩

/-! ## Progression gate (src/engine/progression.ts, claims C6, C7) -/

/-- The result record of progression.ts `checkLessonCompletion`. -/
structure CompletionResult where
  listen : Bool
  speak : Bool
  write : Bool
  overall : Bool
deriving DecidableEq, Repr

/-- progression.ts `checkLessonCompletion` (lines 25–50): all-false for an
unknown lesson; otherwise, over the lesson's sentences, `listen` requires
membership in the listen-completed exposure set, and `speak` and `write`
both require session mastery; `overall` is the conjunction (the source loop
starts each flag at `true` and clears it on any failing sentence, which is
`List.all`). -/
def checkLessonCompletion (st : AppState) (lessonId : String) : CompletionResult :=
  match getLesson st lessonId with
  | none => ⟨false, false, false, false⟩
  | some _ =>
      let sentences := getSentencesByLessonId st lessonId
      let listenOk := sentences.all (fun s => st.listenCompleted.contains s.id)
      let speakOk := sentences.all (fun s => getSentenceMasteryStatus st.masteryMap s.id)
      let writeOk := sentences.all (fun s => getSentenceMasteryStatus st.masteryMap s.id)
      ⟨listenOk, speakOk, writeOk, listenOk && speakOk && writeOk⟩

/-- C6: for every existing group, `checkCompletion` returns `overall = true`
iff every sentence in the group is in the listen-completed exposure set and
is mastered; `overall` equals the conjunction of the returned listen, speak
and write flags. -/
theorem checkLessonCompletion_overall_iff (st : AppState) (lessonId : String)
    (lesson : Lesson) (h : getLesson st lessonId = some lesson) :
    ((checkLessonCompletion st lessonId).overall = true ↔
      ∀ s ∈ getSentencesByLessonId st lessonId,
        s.id ∈ st.listenCompleted ∧ getSentenceMasteryStatus st.masteryMap s.id = true)
    ∧ (checkLessonCompletion st lessonId).overall
      = ((checkLessonCompletion st lessonId).listen
          && (checkLessonCompletion st lessonId).speak
          && (checkLessonCompletion st lessonId).write) := by
  unfold checkLessonCompletion
  rw [h]
  constructor
  · simp only [Bool.and_eq_true, List.all_eq_true]
    constructor
    · rintro ⟨⟨hl, hs⟩, _⟩ s hmem
      refine ⟨?_, hs s hmem⟩
      have := hl s hmem
      simpa using this
    · intro hall
      refine ⟨⟨?_, ?_⟩, ?_⟩
      · intro s hmem
        simpa using (hall s hmem).1
      · intro s hmem
        exact (hall s hmem).2
      · intro s hmem
        exact (hall s hmem).2
  · rfl

/-- Witness for `checkLessonCompletion_overall_iff` at a concrete input. -/
theorem checkLessonCompletion_overall_iff_witness :
    ((checkLessonCompletion
        { courses := []
          lessons := [{ id := "l1", courseId := "c1", name := "L1", order := 0,
                        sentenceIds := ["s1"], isUnlocked := true }]
          sentences := [{ id := "s1", lessonId := "l1", index := 0, french := "le",
                          english := "the", createdAt := 0 }]
          reviewStates := []
          masteryMap := [{ sentenceId := "s1", isMastered := true, masteredAt := none,
                           currentDifficulty := DifficultyPath.easy, transitionCount := 1 }]
          wordStats := []
          listenCompleted := ["s1"] } "l1").overall = true ↔
      ∀ s ∈ getSentencesByLessonId
          { courses := []
            lessons := [{ id := "l1", courseId := "c1", name := "L1", order := 0,
                          sentenceIds := ["s1"], isUnlocked := true }]
            sentences := [{ id := "s1", lessonId := "l1", index := 0, french := "le",
                            english := "the", createdAt := 0 }]
            reviewStates := []
            masteryMap := [{ sentenceId := "s1", isMastered := true, masteredAt := none,
                             currentDifficulty := DifficultyPath.easy, transitionCount := 1 }]
            wordStats := []
            listenCompleted := ["s1"] } "l1",
        s.id ∈ ["s1"]
        ∧ getSentenceMasteryStatus
            [{ sentenceId := "s1", isMastered := true, masteredAt := none,
               currentDifficulty := DifficultyPath.easy, transitionCount := 1 }] s.id
            = true) :=
  (checkLessonCompletion_overall_iff
    { courses := []
      lessons := [{ id := "l1", courseId := "c1", name := "L1", order := 0,
                    sentenceIds := ["s1"], isUnlocked := true }]
      sentences := [{ id := "s1", lessonId := "l1", index := 0, french := "le",
                      english := "the", createdAt := 0 }]
      reviewStates := []
      masteryMap := [{ sentenceId := "s1", isMastered := true, masteredAt := none,
                       currentDifficulty := DifficultyPath.easy, transitionCount := 1 }]
      wordStats := []
      listenCompleted := ["s1"] } "l1"
    { id := "l1", courseId := "c1", name := "L1", order := 0,
      sentenceIds := ["s1"], isUnlocked := true } rfl).1

/-- courses.ts `unlockNextLesson` (lines 183–224): stamp the completed
lesson's `completedAt` (replace at the found index), look for the sibling
lesson with order exactly one higher among the course's lessons (the source
sorts the filtered list by `order` with a stable sort, which does not change
the first entry holding a given order, so the sort is omitted), set its
unlock flag, and mirror the flag into the parent course's denormalized
lesson summary — all in the same call.  Lesson and course ids are unique in
the store (`addLesson` / `addCourse` refuse duplicates), so replacing the
first entry with a given id is the store's update. -/
def unlockNextLesson (st : AppState) (completedLessonId : String) (today : Int) : AppState :=
  match st.lessons.find? (fun l => l.id == completedLessonId) with
  | none => st
  | some lesson0 =>
      let lesson := { lesson0 with completedAt := some today }
      let lessons1 := updateFirst (fun l => l.id == completedLessonId) (fun _ => lesson)
        st.lessons
      let courseLessons := lessons1.filter (fun l => l.courseId == lesson.courseId)
      match courseLessons.find? (fun l => l.order == lesson.order + 1) with
      | none => { st with lessons := lessons1 }
      | some next0 =>
          let next := { next0 with isUnlocked := true }
          let lessons2 := updateFirst (fun l => l.id == next0.id) (fun _ => next) lessons1
          let courses2 := updateFirst (fun c => c.id == lesson.courseId)
            (fun c => { c with
              lessons := updateFirst (fun r => r.id == next0.id)
                (fun r => { r with isUnlocked := true }) c.lessons }) st.courses
          { st with lessons := lessons2, courses := courses2 }

/-- progression.ts `unlockNextLessonAfterComplete` (lines 56–61): unlock the
next lesson only when the completion gate reports `overall`. -/
def unlockNextLessonAfterComplete (st : AppState) (lessonId : String) (today : Int) :
    AppState :=
  if (checkLessonCompletion st lessonId).overall then unlockNextLesson st lessonId today
  else st

/-- Helper: updating a first match is the identity when nothing matches. -/
theorem updateFirst_of_no_match {α : Type} {p : α → Bool} {f : α → α} {l : List α}
    (h : ∀ b ∈ l, p b = false) : updateFirst p f l = l := by
  induction l with
  | nil => rfl
  | cons a as ih =>
      rw [updateFirst, if_neg (by simp [h a (List.mem_cons_self a as)])]
      rw [ih (fun b hb => h b (List.mem_cons_of_mem a hb))]

/-- Helper: updating the first match is the identity when the update fixes
the found entry. -/
theorem updateFirst_eq_self {α : Type} {p : α → Bool} {f : α → α} {l : List α} {a : α}
    (h : l.find? p = some a) (hf : f a = a) : updateFirst p f l = l := by
  induction l with
  | nil => simp [List.find?] at h
  | cons b bs ih =>
      by_cases hb : p b = true
      · rw [List.find?_cons_of_pos _ hb] at h
        cases h
        rw [updateFirst, if_pos hb, hf]
      · rw [List.find?_cons_of_neg _ (by simpa using hb)] at h
        rw [updateFirst, if_neg hb, ih h]

/-- Helper: after updating the first match of `p`, `find? p` returns the
updated entry (when it still matches). -/
theorem find?_updateFirst_same {α : Type} {p : α → Bool} {f : α → α} {l : List α} {a : α}
    (h : l.find? p = some a) (hfa : p (f a) = true) :
    (updateFirst p f l).find? p = some (f a) := by
  induction l with
  | nil => simp [List.find?] at h
  | cons b bs ih =>
      by_cases hb : p b = true
      · rw [List.find?_cons_of_pos _ hb] at h
        cases h
        rw [updateFirst, if_pos hb]
        exact List.find?_cons_of_pos _ hfa
      · rw [List.find?_cons_of_neg _ (by simpa using hb)] at h
        rw [updateFirst, if_neg hb]
        rw [List.find?_cons_of_neg _ (by simpa using hb)]
        exact ih h

/-- Helper: updating the first `p`-match does not change `find?` under a
predicate false on the match before and after the update. -/
theorem find?_updateFirst_other {α : Type} {p q : α → Bool} {f : α → α} {l : List α}
    (h : ∀ b ∈ l, p b = true → q b = false ∧ q (f b) = false) :
    (updateFirst p f l).find? q = l.find? q := by
  induction l with
  | nil => rfl
  | cons b bs ih =>
      by_cases hb : p b = true
      · obtain ⟨h1, h2⟩ := h b (List.mem_cons_self b bs) hb
        rw [updateFirst, if_pos hb]
        rw [List.find?_cons_of_neg _ (by simp [h2]), List.find?_cons_of_neg _ (by simp [h1])]
      · rw [updateFirst, if_neg hb]
        by_cases hq : q b = true
        · rw [List.find?_cons_of_pos _ hq, List.find?_cons_of_pos _ hq]
        · rw [List.find?_cons_of_neg _ (by simpa using hq),
            List.find?_cons_of_neg _ (by simpa using hq)]
          exact ih (fun c hc => h c (List.mem_cons_of_mem b hc))

/-- Helper: updating the first match commutes with a filter that keeps every
match before and after the update. -/
theorem filter_updateFirst_comm {α : Type} {p r : α → Bool} {f : α → α} {l : List α}
    (h : ∀ b ∈ l, p b = true → r b = true ∧ r (f b) = true) :
    (updateFirst p f l).filter r = updateFirst p f (l.filter r) := by
  induction l with
  | nil => rfl
  | cons b bs ih =>
      by_cases hb : p b = true
      · obtain ⟨h1, h2⟩ := h b (List.mem_cons_self b bs) hb
        rw [updateFirst, if_pos hb]
        rw [List.filter_cons_of_pos h2, List.filter_cons_of_pos h1]
        rw [updateFirst, if_pos hb]
      · rw [updateFirst, if_neg hb]
        by_cases hr : r b = true
        · rw [List.filter_cons_of_pos hr, List.filter_cons_of_pos hr]
          rw [updateFirst, if_neg hb]
          rw [ih (fun c hc hp => h c (List.mem_cons_of_mem b hc) hp)]
        · rw [List.filter_cons_of_neg (by simpa using hr),
            List.filter_cons_of_neg (by simpa using hr)]
          exact ih (fun c hc hp => h c (List.mem_cons_of_mem b hc) hp)

/-- Helper: when the unique `p`-match is also the first `q`-match, `find? q`
after the update returns the updated entry. -/
theorem find?_updateFirst_uniqueMatch {α : Type} {p q : α → Bool} {f : α → α} {l : List α}
    {e : α} (hq : l.find? q = some e) (hp : p e = true)
    (huniq : ∀ b ∈ l, p b = true → b = e) (hqf : q (f e) = true) :
    (updateFirst p f l).find? q = some (f e) := by
  induction l with
  | nil => simp [List.find?] at hq
  | cons b bs ih =>
      by_cases hqb : q b = true
      · rw [List.find?_cons_of_pos _ hqb] at hq
        cases hq
        rw [updateFirst, if_pos hp]
        exact List.find?_cons_of_pos _ hqf
      · rw [List.find?_cons_of_neg _ (by simpa using hqb)] at hq
        by_cases hpb : p b = true
        · have hbe : b = e := huniq b (List.mem_cons_self b bs) hpb
          subst hbe
          rw [updateFirst, if_pos hpb]
          rw [List.find?_cons_of_pos _ hqf]
        · rw [updateFirst, if_neg hpb]
          rw [List.find?_cons_of_neg _ (by simpa using hqb)]
          exact ih hq (fun c hc hp2 => huniq c (List.mem_cons_of_mem b hc) hp2)

/-- Helper: updating the first match twice with an idempotent,
match-preserving update equals updating once. -/
theorem updateFirst_updateFirst {α : Type} {p : α → Bool} {f : α → α} {l : List α}
    (hp : ∀ a, p (f a) = p a) (hf : ∀ a, f (f a) = f a) :
    updateFirst p f (updateFirst p f l) = updateFirst p f l := by
  induction l with
  | nil => rfl
  | cons b bs ih =>
      by_cases hb : p b = true
      · rw [updateFirst, if_pos hb]
        rw [updateFirst, if_pos (by rw [hp]; exact hb), hf]
      · rw [updateFirst, if_neg hb]
        rw [updateFirst, if_neg hb, ih]

/-- Helper: `find?` returns the unique matching entry. -/
theorem find?_eq_some_of_unique {α : Type} {q : α → Bool} {l : List α} {e : α}
    (hmem : e ∈ l) (hq : q e = true) (huniq : ∀ b ∈ l, q b = true → b = e) :
    l.find? q = some e := by
  induction l with
  | nil => simp at hmem
  | cons b bs ih =>
      by_cases hqb : q b = true
      · rw [List.find?_cons_of_pos _ hqb]
        rw [huniq b (List.mem_cons_self b bs) hqb]
      · rw [List.find?_cons_of_neg _ (by simpa using hqb)]
        have hmem2 : e ∈ bs := by
          rcases List.mem_cons.mp hmem with h1 | h1
          · exact absurd (h1 ▸ hq) (by simpa [h1] using hqb)
          · exact h1
        exact ih hmem2 (fun c hc hq2 => huniq c (List.mem_cons_of_mem b hc) hq2)

/-- Helper: an update that preserves the key leaves the list of keys
unchanged. -/
theorem map_updateFirst {α β : Type} {p : α → Bool} {f : α → α} {k : α → β} {l : List α}
    (h : ∀ a ∈ l, p a = true → k (f a) = k a) :
    (updateFirst p f l).map k = l.map k := by
  induction l with
  | nil => rfl
  | cons b bs ih =>
      by_cases hb : p b = true
      · rw [updateFirst, if_pos hb]
        simp [h b (List.mem_cons_self b bs) hb]
      · rw [updateFirst, if_neg hb]
        simp only [List.map_cons]
        rw [ih (fun c hc hp => h c (List.mem_cons_of_mem b hc) hp)]






/-- Computation: `unlockNextLesson` on an unknown lesson id is the
identity. -/
theorem unlockNextLesson_not_found (st : AppState) (lessonId : String) (today : Int)
    (h0 : st.lessons.find? (fun l => l.id == lessonId) = none) :
    unlockNextLesson st lessonId today = st := by
  unfold unlockNextLesson
  rw [h0]

/-- Computation: `unlockNextLesson` when no sibling holds the next order
only stamps the completed lesson. -/
theorem unlockNextLesson_no_next (st : AppState) (lessonId : String) (today : Int)
    (lesson0 : Lesson)
    (h0 : st.lessons.find? (fun l => l.id == lessonId) = some lesson0)
    (hfind2 : ((updateFirst (fun l => l.id == lessonId)
          (fun _ => { lesson0 with completedAt := some today }) st.lessons).filter
          (fun l => l.courseId == lesson0.courseId)).find?
          (fun l => l.order == lesson0.order + 1) = none) :
    unlockNextLesson st lessonId today
      = { st with
          lessons := updateFirst (fun l => l.id == lessonId)
            (fun _ => { lesson0 with completedAt := some today }) st.lessons } := by
  unfold unlockNextLesson
  rw [h0]
  simp only []
  rw [hfind2]

/-- Computation: `unlockNextLesson` when the next-ordered sibling exists
stamps the completed lesson, unlocks the sibling, and mirrors the flag into
the parent course's summary. -/
theorem unlockNextLesson_found_next (st : AppState) (lessonId : String) (today : Int)
    (lesson0 : Lesson)
    (h0 : st.lessons.find? (fun l => l.id == lessonId) = some lesson0)
    (next0 : Lesson)
    (hfind2 : ((updateFirst (fun l => l.id == lessonId)
          (fun _ => { lesson0 with completedAt := some today }) st.lessons).filter
          (fun l => l.courseId == lesson0.courseId)).find?
          (fun l => l.order == lesson0.order + 1) = some next0) :
    unlockNextLesson st lessonId today
      = { st with
          lessons := updateFirst (fun l => l.id == next0.id)
            (fun _ => { next0 with isUnlocked := true })
            (updateFirst (fun l => l.id == lessonId)
              (fun _ => { lesson0 with completedAt := some today }) st.lessons)
          courses := updateFirst (fun c => c.id == lesson0.courseId)
            (fun c => { c with
              lessons := updateFirst (fun r => r.id == next0.id)
                (fun r => { r with isUnlocked := true }) c.lessons }) st.courses } := by
  unfold unlockNextLesson
  rw [h0]
  simp only []
  rw [hfind2]

/-- Helper: the completion gate only reads lesson existence, the sentences,
the listen-completed set and the mastery table. -/
theorem checkLessonCompletion_congr (stA stB : AppState) (lessonId : String)
    (hA : (getLesson stA lessonId).isSome = (getLesson stB lessonId).isSome)
    (hsent : stA.sentences = stB.sentences)
    (hlisten : stA.listenCompleted = stB.listenCompleted)
    (hmast : stA.masteryMap = stB.masteryMap) :
    checkLessonCompletion stA lessonId = checkLessonCompletion stB lessonId := by
  unfold checkLessonCompletion getSentencesByLessonId
  cases hgA : getLesson stA lessonId with
  | none =>
      rw [hgA] at hA
      cases hgB : getLesson stB lessonId with
      | none => rfl
      | some y => rw [hgB] at hA; simp at hA
  | some x =>
      rw [hgA] at hA
      cases hgB : getLesson stB lessonId with
      | none => rw [hgB] at hA; simp at hA
      | some y =>
          simp only [hsent, hlisten, hmast]



theorem unlockNextLesson_effect (st : AppState) (lessonId : String) (today : Int)
    (hN : (st.lessons.map (fun l => l.id)).Nodup)
    (lesson0 : Lesson)
    (h0 : st.lessons.find? (fun l => l.id == lessonId) = some lesson0)
    (next0 : Lesson)
    (hnext : ((st.lessons.filter (fun l => l.courseId == lesson0.courseId)).find?
        (fun l => l.order == lesson0.order + 1)) = some next0) :
    getLesson (unlockNextLesson st lessonId today) lessonId
        = some { lesson0 with completedAt := some today }
    ∧ getLesson (unlockNextLesson st lessonId today) next0.id
        = some { next0 with isUnlocked := true }
    ∧ (∀ course, getCourse st lesson0.courseId = some course →
        ∀ ref, course.lessons.find? (fun r => r.id == next0.id) = some ref →
          ∃ course2, getCourse (unlockNextLesson st lessonId today) lesson0.courseId
              = some course2
            ∧ course2.lessons.find? (fun r => r.id == next0.id)
                = some { ref with isUnlocked := true }) := by
  have hmem0 : lesson0 ∈ st.lessons := List.mem_of_find?_eq_some h0
  have hid0 : lesson0.id = lessonId := by simpa using List.find?_some h0
  have hinj := List.inj_on_of_nodup_map hN
  have huniq : ∀ b ∈ st.lessons, (b.id == lessonId) = true → b = lesson0 := by
    intro b hb hbeq
    apply hinj hb hmem0
    simp at hbeq
    rw [hbeq, hid0]
  have hcomm : (updateFirst (fun l => l.id == lessonId)
        (fun _ => { lesson0 with completedAt := some today }) st.lessons).filter
        (fun l => l.courseId == lesson0.courseId)
      = updateFirst (fun l => l.id == lessonId)
          (fun _ => { lesson0 with completedAt := some today })
          (st.lessons.filter (fun l => l.courseId == lesson0.courseId)) := by
    apply filter_updateFirst_comm
    intro b hb hpb
    have hb0 : b = lesson0 := huniq b hb hpb
    subst hb0
    exact ⟨by simp, by simp⟩
  have hfind2 : ((updateFirst (fun l => l.id == lessonId)
        (fun _ => { lesson0 with completedAt := some today }) st.lessons).filter
        (fun l => l.courseId == lesson0.courseId)).find?
        (fun l => l.order == lesson0.order + 1) = some next0 := by
    rw [hcomm]
    rw [find?_updateFirst_other ?uo]
    · exact hnext
    case uo =>
      intro b hb hpb
      have hb0 : b = lesson0 := huniq b (List.mem_of_mem_filter hb) hpb
      constructor
      · rw [hb0]
        show (lesson0.order == lesson0.order + 1) = false
        rw [beq_eq_false_iff_ne]
        omega
      · show (lesson0.order == lesson0.order + 1) = false
        rw [beq_eq_false_iff_ne]
        omega
  have hcompute := unlockNextLesson_found_next st lessonId today lesson0 h0 next0 hfind2
  have hmemN : next0 ∈ st.lessons := List.mem_of_mem_filter (List.mem_of_find?_eq_some hnext)
  have hqN := List.find?_some hnext
  simp only [beq_iff_eq] at hqN
  have hNid : next0.id ≠ lessonId := by
    intro hc
    have hne : next0 = lesson0 := huniq next0 hmemN (by simp [hc])
    rw [hne] at hqN
    omega
  have hfind1 : (updateFirst (fun l => l.id == lessonId)
        (fun _ => { lesson0 with completedAt := some today }) st.lessons).find?
        (fun l => l.id == lessonId) = some { lesson0 with completedAt := some today } := by
    apply find?_updateFirst_same h0
    simp [hid0]
  have hmemN1 : next0 ∈ updateFirst (fun l => l.id == lessonId)
      (fun _ => { lesson0 with completedAt := some today }) st.lessons :=
    List.mem_of_mem_filter (List.mem_of_find?_eq_some hfind2)
  have hmap1 : (updateFirst (fun l => l.id == lessonId)
        (fun _ => { lesson0 with completedAt := some today }) st.lessons).map
        (fun l => l.id) = st.lessons.map (fun l => l.id) := by
    apply map_updateFirst
    intro a ha hpa
    have : a = lesson0 := huniq a ha hpa
    subst this
    rfl
  have hN1 : ((updateFirst (fun l => l.id == lessonId)
      (fun _ => { lesson0 with completedAt := some today }) st.lessons).map
      (fun l => l.id)).Nodup := by
    rw [hmap1]
    exact hN
  have hinj1 := List.inj_on_of_nodup_map hN1
  have huniq1 : ∀ b ∈ updateFirst (fun l => l.id == lessonId)
      (fun _ => { lesson0 with completedAt := some today }) st.lessons,
      (b.id == next0.id) = true → b = next0 := by
    intro b hb hbeq
    apply hinj1 hb hmemN1
    simp at hbeq
    exact hbeq
  refine ⟨?_, ?_, ?_⟩
  · rw [hcompute]
    show (updateFirst (fun l => l.id == next0.id) (fun _ => { next0 with isUnlocked := true })
        (updateFirst (fun l => l.id == lessonId)
          (fun _ => { lesson0 with completedAt := some today }) st.lessons)).find?
        (fun l => l.id == lessonId) = some { lesson0 with completedAt := some today }
    rw [find?_updateFirst_other ?uo2]
    · exact hfind1
    case uo2 =>
      intro b hb hpb
      have hb0 : b = next0 := huniq1 b hb hpb
      subst hb0
      constructor
      · simp [hNid]
      · simp [hNid]
  · rw [hcompute]
    show (updateFirst (fun l => l.id == next0.id) (fun _ => { next0 with isUnlocked := true })
        (updateFirst (fun l => l.id == lessonId)
          (fun _ => { lesson0 with completedAt := some today }) st.lessons)).find?
        (fun l => l.id == next0.id) = some { next0 with isUnlocked := true }
    have hfindN1 : (updateFirst (fun l => l.id == lessonId)
        (fun _ => { lesson0 with completedAt := some today }) st.lessons).find?
        (fun l => l.id == next0.id) = some next0 :=
      find?_eq_some_of_unique hmemN1 (by simp) huniq1
    apply find?_updateFirst_same hfindN1
    simp
  · intro course hc ref hr
    have hcid : course.id = lesson0.courseId := by simpa using List.find?_some hc
    refine ⟨{ course with
        lessons := updateFirst (fun r => r.id == next0.id)
          (fun r => { r with isUnlocked := true }) course.lessons }, ?_, ?_⟩
    · rw [hcompute]
      show (updateFirst (fun c => c.id == lesson0.courseId)
          (fun c => { c with
            lessons := updateFirst (fun r => r.id == next0.id)
              (fun r => { r with isUnlocked := true }) c.lessons }) st.courses).find?
          (fun c => c.id == lesson0.courseId)
          = some { course with
              lessons := updateFirst (fun r => r.id == next0.id)
                (fun r => { r with isUnlocked := true }) course.lessons }
      apply find?_updateFirst_same hc
      simp [hcid]
    · have hrid : ref.id = next0.id := by simpa using List.find?_some hr
      show (updateFirst (fun r => r.id == next0.id)
          (fun r => { r with isUnlocked := true }) course.lessons).find?
          (fun r => r.id == next0.id) = some { ref with isUnlocked := true }
      apply find?_updateFirst_same hr
      simp [hrid]



/-- Helper: `unlockNextLesson` is idempotent (lesson ids unique in the
store). -/
theorem unlockNextLesson_idem (st : AppState) (lessonId : String) (today : Int)
    (hN : (st.lessons.map (fun l => l.id)).Nodup) :
    unlockNextLesson (unlockNextLesson st lessonId today) lessonId today
      = unlockNextLesson st lessonId today := by
  cases h0 : st.lessons.find? (fun l => l.id == lessonId) with
  | none =>
      rw [unlockNextLesson_not_found st lessonId today h0]
      exact unlockNextLesson_not_found st lessonId today h0
  | some lesson0 =>
      have hmem0 : lesson0 ∈ st.lessons := List.mem_of_find?_eq_some h0
      have hid0 : lesson0.id = lessonId := by simpa using List.find?_some h0
      have hinj := List.inj_on_of_nodup_map hN
      have huniq : ∀ b ∈ st.lessons, (b.id == lessonId) = true → b = lesson0 := by
        intro b hb hbeq
        apply hinj hb hmem0
        simp at hbeq
        rw [hbeq, hid0]
      have hfind1 : (updateFirst (fun l => l.id == lessonId)
          (fun _ => { lesson0 with completedAt := some today }) st.lessons).find?
          (fun l => l.id == lessonId) = some { lesson0 with completedAt := some today } := by
        apply find?_updateFirst_same h0
        simp [hid0]
      have hmap1 : (updateFirst (fun l => l.id == lessonId)
            (fun _ => { lesson0 with completedAt := some today }) st.lessons).map
            (fun l => l.id) = st.lessons.map (fun l => l.id) := by
        apply map_updateFirst
        intro a ha hpa
        have : a = lesson0 := huniq a ha hpa
        subst this
        rfl
      have hN1 : ((updateFirst (fun l => l.id == lessonId)
          (fun _ => { lesson0 with completedAt := some today }) st.lessons).map
          (fun l => l.id)).Nodup := by
        rw [hmap1]
        exact hN
      have hinj1 := List.inj_on_of_nodup_map hN1
      cases hf2 : ((updateFirst (fun l => l.id == lessonId)
          (fun _ => { lesson0 with completedAt := some today }) st.lessons).filter
          (fun l => l.courseId == lesson0.courseId)).find?
          (fun l => l.order == lesson0.order + 1) with
      | none =>
          have hcompute := unlockNextLesson_no_next st lessonId today lesson0 h0 hf2
          rw [hcompute]
          have e1 : updateFirst (fun l => l.id == lessonId)
              (fun _ => { { lesson0 with completedAt := some today } with
                completedAt := some today })
              (updateFirst (fun l => l.id == lessonId)
                (fun _ => { lesson0 with completedAt := some today }) st.lessons)
              = updateFirst (fun l => l.id == lessonId)
                  (fun _ => { lesson0 with completedAt := some today }) st.lessons :=
            updateFirst_eq_self hfind1 rfl
          rw [unlockNextLesson_no_next
            { st with
              lessons := updateFirst (fun l => l.id == lessonId)
                (fun _ => { lesson0 with completedAt := some today }) st.lessons }
            lessonId today { lesson0 with completedAt := some today } hfind1
            (by rw [e1]; exact hf2)]
          rw [e1]
      | some next0 =>
          have hmemN1 : next0 ∈ updateFirst (fun l => l.id == lessonId)
              (fun _ => { lesson0 with completedAt := some today }) st.lessons :=
            List.mem_of_mem_filter (List.mem_of_find?_eq_some hf2)
          have hqN := List.find?_some hf2
          simp only [beq_iff_eq] at hqN
          have hrN := (List.mem_filter.mp (List.mem_of_find?_eq_some hf2)).2
          have hmemStamped : { lesson0 with completedAt := some today } ∈ updateFirst
              (fun l => l.id == lessonId)
              (fun _ => { lesson0 with completedAt := some today }) st.lessons :=
            List.mem_of_find?_eq_some hfind1
          have huniq1N : ∀ b ∈ updateFirst (fun l => l.id == lessonId)
              (fun _ => { lesson0 with completedAt := some today }) st.lessons,
              (b.id == next0.id) = true → b = next0 := by
            intro b hb hbeq
            apply hinj1 hb hmemN1
            simp at hbeq
            exact hbeq
          have hNid : next0.id ≠ lessonId := by
            intro hc
            have hne : next0 = { lesson0 with completedAt := some today } := by
              apply hinj1 hmemN1 hmemStamped
              show next0.id = lesson0.id
              rw [hc, hid0]
            have : next0.order = lesson0.order := by rw [hne]
            omega
          have hcompute := unlockNextLesson_found_next st lessonId today lesson0 h0 next0 hf2
          rw [hcompute]
          -- second-run facts on ST2
          have hfindN1 : (updateFirst (fun l => l.id == lessonId)
              (fun _ => { lesson0 with completedAt := some today }) st.lessons).find?
              (fun l => l.id == next0.id) = some next0 :=
            find?_eq_some_of_unique hmemN1 (by simp) huniq1N
          have h0ST2 : (updateFirst (fun l => l.id == next0.id)
              (fun _ => { next0 with isUnlocked := true })
              (updateFirst (fun l => l.id == lessonId)
                (fun _ => { lesson0 with completedAt := some today }) st.lessons)).find?
              (fun l => l.id == lessonId) = some { lesson0 with completedAt := some today } := by
            rw [find?_updateFirst_other ?uoA]
            · exact hfind1
            case uoA =>
              intro b hb hpb
              have hb0 : b = next0 := huniq1N b hb hpb
              constructor
              · rw [hb0]
                simp [hNid]
              · show (((fun _ => { next0 with isUnlocked := true }) b).id == lessonId) = false
                simp [hNid]
          have e1 : updateFirst (fun l => l.id == lessonId)
              (fun _ => { { lesson0 with completedAt := some today } with
                completedAt := some today })
              (updateFirst (fun l => l.id == next0.id)
                (fun _ => { next0 with isUnlocked := true })
                (updateFirst (fun l => l.id == lessonId)
                  (fun _ => { lesson0 with completedAt := some today }) st.lessons))
              = updateFirst (fun l => l.id == next0.id)
                  (fun _ => { next0 with isUnlocked := true })
                  (updateFirst (fun l => l.id == lessonId)
                    (fun _ => { lesson0 with completedAt := some today }) st.lessons) :=
            updateFirst_eq_self h0ST2 rfl
          have hcomm2 : (updateFirst (fun l => l.id == next0.id)
                (fun _ => { next0 with isUnlocked := true })
                (updateFirst (fun l => l.id == lessonId)
                  (fun _ => { lesson0 with completedAt := some today }) st.lessons)).filter
                (fun l => l.courseId == lesson0.courseId)
              = updateFirst (fun l => l.id == next0.id)
                  (fun _ => { next0 with isUnlocked := true })
                  ((updateFirst (fun l => l.id == lessonId)
                    (fun _ => { lesson0 with completedAt := some today }) st.lessons).filter
                    (fun l => l.courseId == lesson0.courseId)) := by
            apply filter_updateFirst_comm
            intro b hb hpb
            have hb0 : b = next0 := huniq1N b hb hpb
            constructor
            · rw [hb0]
              exact hrN
            · show (((fun _ => { next0 with isUnlocked := true }) b).courseId
                == lesson0.courseId) = true
              exact hrN
          have hf2ST2 : ((updateFirst (fun l => l.id == next0.id)
                (fun _ => { next0 with isUnlocked := true })
                (updateFirst (fun l => l.id == lessonId)
                  (fun _ => { lesson0 with completedAt := some today }) st.lessons)).filter
                (fun l => l.courseId == lesson0.courseId)).find?
                (fun l => l.order == lesson0.order + 1)
              = some { next0 with isUnlocked := true } := by
            rw [hcomm2]
            apply find?_updateFirst_uniqueMatch hf2 (by simp)
            · intro b hb hpb
              exact huniq1N b (List.mem_of_mem_filter hb) hpb
            · show ({ next0 with isUnlocked := true }.order == lesson0.order + 1) = true
              simp [hqN]
          have hfindN2 : (updateFirst (fun l => l.id == next0.id)
              (fun _ => { next0 with isUnlocked := true })
              (updateFirst (fun l => l.id == lessonId)
                (fun _ => { lesson0 with completedAt := some today }) st.lessons)).find?
              (fun l => l.id == next0.id) = some { next0 with isUnlocked := true } := by
            apply find?_updateFirst_same hfindN1
            simp
          have e2 : updateFirst (fun l => l.id == next0.id)
              (fun _ => { { next0 with isUnlocked := true } with isUnlocked := true })
              (updateFirst (fun l => l.id == next0.id)
                (fun _ => { next0 with isUnlocked := true })
                (updateFirst (fun l => l.id == lessonId)
                  (fun _ => { lesson0 with completedAt := some today }) st.lessons))
              = updateFirst (fun l => l.id == next0.id)
                  (fun _ => { next0 with isUnlocked := true })
                  (updateFirst (fun l => l.id == lessonId)
                    (fun _ => { lesson0 with completedAt := some today }) st.lessons) :=
            updateFirst_eq_self hfindN2 rfl
          have e3 : updateFirst (fun c => c.id == lesson0.courseId)
              (fun c => { c with
                lessons := updateFirst (fun r => r.id == next0.id)
                  (fun r => { r with isUnlocked := true }) c.lessons })
              (updateFirst (fun c => c.id == lesson0.courseId)
                (fun c => { c with
                  lessons := updateFirst (fun r => r.id == next0.id)
                    (fun r => { r with isUnlocked := true }) c.lessons }) st.courses)
              = updateFirst (fun c => c.id == lesson0.courseId)
                  (fun c => { c with
                    lessons := updateFirst (fun r => r.id == next0.id)
                      (fun r => { r with isUnlocked := true }) c.lessons }) st.courses := by
            apply updateFirst_updateFirst
            · intro a
              rfl
            · intro a
              have hinner : updateFirst (fun r => r.id == next0.id)
                  (fun r => { r with isUnlocked := true })
                  (updateFirst (fun r => r.id == next0.id)
                    (fun r => { r with isUnlocked := true }) a.lessons)
                  = updateFirst (fun r => r.id == next0.id)
                    (fun r => { r with isUnlocked := true }) a.lessons :=
                updateFirst_updateFirst (fun r => rfl) (fun r => rfl)
              show ({ a with
                  lessons := updateFirst (fun r => r.id == next0.id)
                    (fun r => { r with isUnlocked := true })
                    (updateFirst (fun r => r.id == next0.id)
                      (fun r => { r with isUnlocked := true }) a.lessons) } : Course)
                = { a with
                    lessons := updateFirst (fun r => r.id == next0.id)
                      (fun r => { r with isUnlocked := true }) a.lessons }
              rw [hinner]
          rw [unlockNextLesson_found_next
            { st with
              lessons := updateFirst (fun l => l.id == next0.id)
                (fun _ => { next0 with isUnlocked := true })
                (updateFirst (fun l => l.id == lessonId)
                  (fun _ => { lesson0 with completedAt := some today }) st.lessons)
              courses := updateFirst (fun c => c.id == lesson0.courseId)
                (fun c => { c with
                  lessons := updateFirst (fun r => r.id == next0.id)
                    (fun r => { r with isUnlocked := true }) c.lessons }) st.courses }
            lessonId today { lesson0 with completedAt := some today } h0ST2
            { next0 with isUnlocked := true } (by rw [e1]; exact hf2ST2)]
          show ({ st with
              lessons := updateFirst (fun l => l.id == { next0 with isUnlocked := true }.id)
                (fun _ => { { next0 with isUnlocked := true } with isUnlocked := true })
                (updateFirst (fun l => l.id == lessonId)
                  (fun _ => { { lesson0 with completedAt := some today } with
                    completedAt := some today })
                  (updateFirst (fun l => l.id == next0.id)
                    (fun _ => { next0 with isUnlocked := true })
                    (updateFirst (fun l => l.id == lessonId)
                      (fun _ => { lesson0 with completedAt := some today }) st.lessons)))
              courses := updateFirst
                (fun c => c.id == { lesson0 with completedAt := some today }.courseId)
                (fun c => { c with
                  lessons := updateFirst
                    (fun r => r.id == { next0 with isUnlocked := true }.id)
                    (fun r => { r with isUnlocked := true }) c.lessons })
                (updateFirst (fun c => c.id == lesson0.courseId)
                  (fun c => { c with
                    lessons := updateFirst (fun r => r.id == next0.id)
                      (fun r => { r with isUnlocked := true }) c.lessons }) st.courses) } :
                AppState)
            = { st with
                lessons := updateFirst (fun l => l.id == next0.id)
                  (fun _ => { next0 with isUnlocked := true })
                  (updateFirst (fun l => l.id == lessonId)
                    (fun _ => { lesson0 with completedAt := some today }) st.lessons)
                courses := updateFirst (fun c => c.id == lesson0.courseId)
                  (fun c => { c with
                    lessons := updateFirst (fun r => r.id == next0.id)
                      (fun r => { r with isUnlocked := true }) c.lessons }) st.courses }
          rw [e1, e2, e3]



/-- Helper: `unlockNextLesson` leaves sentences, the listen-completed set
and the mastery table untouched. -/
theorem unlockNextLesson_preserves (st : AppState) (lessonId : String) (today : Int) :
    (unlockNextLesson st lessonId today).sentences = st.sentences
    ∧ (unlockNextLesson st lessonId today).listenCompleted = st.listenCompleted
    ∧ (unlockNextLesson st lessonId today).masteryMap = st.masteryMap := by
  cases h0 : st.lessons.find? (fun l => l.id == lessonId) with
  | none =>
      rw [unlockNextLesson_not_found st lessonId today h0]
      exact ⟨rfl, rfl, rfl⟩
  | some lesson0 =>
      cases hf2 : ((updateFirst (fun l => l.id == lessonId)
          (fun _ => { lesson0 with completedAt := some today }) st.lessons).filter
          (fun l => l.courseId == lesson0.courseId)).find?
          (fun l => l.order == lesson0.order + 1) with
      | none =>
          rw [unlockNextLesson_no_next st lessonId today lesson0 h0 hf2]
          exact ⟨rfl, rfl, rfl⟩
      | some next0 =>
          rw [unlockNextLesson_found_next st lessonId today lesson0 h0 next0 hf2]
          exact ⟨rfl, rfl, rfl⟩

/-- Helper: after `unlockNextLesson`, the completed lesson reads back with
its completion timestamp stamped. -/
theorem getLesson_unlock (st : AppState) (lessonId : String) (today : Int)
    (hN : (st.lessons.map (fun l => l.id)).Nodup)
    (lesson0 : Lesson)
    (h0 : st.lessons.find? (fun l => l.id == lessonId) = some lesson0) :
    getLesson (unlockNextLesson st lessonId today) lessonId
      = some { lesson0 with completedAt := some today } := by
  have hmem0 : lesson0 ∈ st.lessons := List.mem_of_find?_eq_some h0
  have hid0 : lesson0.id = lessonId := by simpa using List.find?_some h0
  have hinj := List.inj_on_of_nodup_map hN
  have huniq : ∀ b ∈ st.lessons, (b.id == lessonId) = true → b = lesson0 := by
    intro b hb hbeq
    apply hinj hb hmem0
    simp at hbeq
    rw [hbeq, hid0]
  have hfind1 : (updateFirst (fun l => l.id == lessonId)
      (fun _ => { lesson0 with completedAt := some today }) st.lessons).find?
      (fun l => l.id == lessonId) = some { lesson0 with completedAt := some today } := by
    apply find?_updateFirst_same h0
    simp [hid0]
  have hmap1 : (updateFirst (fun l => l.id == lessonId)
        (fun _ => { lesson0 with completedAt := some today }) st.lessons).map
        (fun l => l.id) = st.lessons.map (fun l => l.id) := by
    apply map_updateFirst
    intro a ha hpa
    have : a = lesson0 := huniq a ha hpa
    subst this
    rfl
  have hN1 : ((updateFirst (fun l => l.id == lessonId)
      (fun _ => { lesson0 with completedAt := some today }) st.lessons).map
      (fun l => l.id)).Nodup := by
    rw [hmap1]
    exact hN
  have hinj1 := List.inj_on_of_nodup_map hN1
  cases hf2 : ((updateFirst (fun l => l.id == lessonId)
      (fun _ => { lesson0 with completedAt := some today }) st.lessons).filter
      (fun l => l.courseId == lesson0.courseId)).find?
      (fun l => l.order == lesson0.order + 1) with
  | none =>
      rw [unlockNextLesson_no_next st lessonId today lesson0 h0 hf2]
      exact hfind1
  | some next0 =>
      have hmemN1 : next0 ∈ updateFirst (fun l => l.id == lessonId)
          (fun _ => { lesson0 with completedAt := some today }) st.lessons :=
        List.mem_of_mem_filter (List.mem_of_find?_eq_some hf2)
      have hqN := List.find?_some hf2
      simp only [beq_iff_eq] at hqN
      have hmemStamped : { lesson0 with completedAt := some today } ∈ updateFirst
          (fun l => l.id == lessonId)
          (fun _ => { lesson0 with completedAt := some today }) st.lessons :=
        List.mem_of_find?_eq_some hfind1
      have huniq1N : ∀ b ∈ updateFirst (fun l => l.id == lessonId)
          (fun _ => { lesson0 with completedAt := some today }) st.lessons,
          (b.id == next0.id) = true → b = next0 := by
        intro b hb hbeq
        apply hinj1 hb hmemN1
        simp at hbeq
        exact hbeq
      have hNid : next0.id ≠ lessonId := by
        intro hc
        have hne : next0 = { lesson0 with completedAt := some today } := by
          apply hinj1 hmemN1 hmemStamped
          show next0.id = lesson0.id
          rw [hc, hid0]
        have : next0.order = lesson0.order := by rw [hne]
        omega
      rw [unlockNextLesson_found_next st lessonId today lesson0 h0 next0 hf2]
      show (updateFirst (fun l => l.id == next0.id) (fun _ => { next0 with isUnlocked := true })
          (updateFirst (fun l => l.id == lessonId)
            (fun _ => { lesson0 with completedAt := some today }) st.lessons)).find?
          (fun l => l.id == lessonId) = some { lesson0 with completedAt := some today }
      rw [find?_updateFirst_other ?uoB]
      · exact hfind1
      case uoB =>
        intro b hb hpb
        have hb0 : b = next0 := huniq1N b hb hpb
        constructor
        · rw [hb0]
          simp [hNid]
        · show (((fun _ => { next0 with isUnlocked := true }) b).id == lessonId) = false
          simp [hNid]



/-- C7: `unlockNextLessonAfterComplete` changes state only when the
completion gate reports `overall`; when it does and the next-ordered sibling
exists, it stamps the completed lesson's completion timestamp, sets the
sibling's unlock flag, and updates the unlock flag in the parent course's
denormalized summary in the same operation; calling it twice in a row
produces the same end state as calling it once. -/
theorem unlockNextLessonAfterComplete_spec (st : AppState) (lessonId : String) (today : Int)
    (hN : (st.lessons.map (fun l => l.id)).Nodup) :
    ((checkLessonCompletion st lessonId).overall = false →
        unlockNextLessonAfterComplete st lessonId today = st)
    ∧ ((checkLessonCompletion st lessonId).overall = true →
        ∀ lesson0, st.lessons.find? (fun l => l.id == lessonId) = some lesson0 →
        ∀ next0, ((st.lessons.filter (fun l => l.courseId == lesson0.courseId)).find?
            (fun l => l.order == lesson0.order + 1)) = some next0 →
          getLesson (unlockNextLessonAfterComplete st lessonId today) lessonId
              = some { lesson0 with completedAt := some today }
          ∧ getLesson (unlockNextLessonAfterComplete st lessonId today) next0.id
              = some { next0 with isUnlocked := true }
          ∧ (∀ course, getCourse st lesson0.courseId = some course →
              ∀ ref, course.lessons.find? (fun r => r.id == next0.id) = some ref →
                ∃ course2, getCourse (unlockNextLessonAfterComplete st lessonId today)
                    lesson0.courseId = some course2
                  ∧ course2.lessons.find? (fun r => r.id == next0.id)
                      = some { ref with isUnlocked := true }))
    ∧ unlockNextLessonAfterComplete (unlockNextLessonAfterComplete st lessonId today)
        lessonId today = unlockNextLessonAfterComplete st lessonId today := by
  refine ⟨?_, ?_, ?_⟩
  · intro h
    unfold unlockNextLessonAfterComplete
    simp [h]
  · intro hovr lesson0 h0 next0 hnext
    have hrw : unlockNextLessonAfterComplete st lessonId today
        = unlockNextLesson st lessonId today := by
      unfold unlockNextLessonAfterComplete
      simp [hovr]
    rw [hrw]
    exact unlockNextLesson_effect st lessonId today hN lesson0 h0 next0 hnext
  · cases hovr : (checkLessonCompletion st lessonId).overall with
    | false =>
        have hrw : unlockNextLessonAfterComplete st lessonId today = st := by
          unfold unlockNextLessonAfterComplete
          simp [hovr]
        rw [hrw, hrw]
    | true =>
        have hrw : unlockNextLessonAfterComplete st lessonId today
            = unlockNextLesson st lessonId today := by
          unfold unlockNextLessonAfterComplete
          simp [hovr]
        rw [hrw]
        have hcomp : checkLessonCompletion (unlockNextLesson st lessonId today) lessonId
            = checkLessonCompletion st lessonId := by
        -- congruence: same sentences / listen / mastery, and getLesson isSome matches
          obtain ⟨hs, hl, hm⟩ := unlockNextLesson_preserves st lessonId today
          apply checkLessonCompletion_congr _ _ _ _ hs hl hm
          cases h0 : st.lessons.find? (fun l => l.id == lessonId) with
          | none =>
              rw [unlockNextLesson_not_found st lessonId today h0]
          | some lesson0 =>
              have := getLesson_unlock st lessonId today hN lesson0 h0
              show (getLesson (unlockNextLesson st lessonId today) lessonId).isSome
                  = (getLesson st lessonId).isSome
              rw [this]
              show Option.isSome (some { lesson0 with completedAt := some today })
                  = (st.lessons.find? (fun l => l.id == lessonId)).isSome
              rw [h0]
              rfl
        have hovr2 : (checkLessonCompletion (unlockNextLesson st lessonId today)
            lessonId).overall = true := by
          rw [hcomp]
          exact hovr
        have hrw2 : unlockNextLessonAfterComplete (unlockNextLesson st lessonId today)
            lessonId today = unlockNextLesson (unlockNextLesson st lessonId today)
              lessonId today := by
          unfold unlockNextLessonAfterComplete
          simp [hovr2]
        rw [hrw2]
        exact unlockNextLesson_idem st lessonId today hN

/-- Witness for `unlockNextLessonAfterComplete_spec` at a concrete input
(its idempotence component). -/
theorem unlockNextLessonAfterComplete_spec_witness :
    unlockNextLessonAfterComplete
      (unlockNextLessonAfterComplete
        { courses :=
            [{ id := "c1", name := "C", createdAt := 0,
               lessons := [{ id := "l1", name := "L1", order := 0, isUnlocked := true },
                           { id := "l2", name := "L2", order := 1, isUnlocked := false }] }]
          lessons :=
            [{ id := "l1", courseId := "c1", name := "L1", order := 0,
               sentenceIds := ["s1"], isUnlocked := true },
             { id := "l2", courseId := "c1", name := "L2", order := 1,
               sentenceIds := [], isUnlocked := false }]
          sentences :=
            [{ id := "s1", lessonId := "l1", index := 0, french := "le",
               english := "the", createdAt := 0 }]
          reviewStates := []
          masteryMap :=
            [{ sentenceId := "s1", isMastered := true, masteredAt := none,
               currentDifficulty := DifficultyPath.easy, transitionCount := 1 }]
          wordStats := []
          listenCompleted := ["s1"] } "l1" 5) "l1" 5
    = unlockNextLessonAfterComplete
        { courses :=
            [{ id := "c1", name := "C", createdAt := 0,
               lessons := [{ id := "l1", name := "L1", order := 0, isUnlocked := true },
                           { id := "l2", name := "L2", order := 1, isUnlocked := false }] }]
          lessons :=
            [{ id := "l1", courseId := "c1", name := "L1", order := 0,
               sentenceIds := ["s1"], isUnlocked := true },
             { id := "l2", courseId := "c1", name := "L2", order := 1,
               sentenceIds := [], isUnlocked := false }]
          sentences :=
            [{ id := "s1", lessonId := "l1", index := 0, french := "le",
               english := "the", createdAt := 0 }]
          reviewStates := []
          masteryMap :=
            [{ sentenceId := "s1", isMastered := true, masteredAt := none,
               currentDifficulty := DifficultyPath.easy, transitionCount := 1 }]
          wordStats := []
          listenCompleted := ["s1"] } "l1" 5 :=
  (unlockNextLessonAfterComplete_spec
    { courses :=
        [{ id := "c1", name := "C", createdAt := 0,
           lessons := [{ id := "l1", name := "L1", order := 0, isUnlocked := true },
                       { id := "l2", name := "L2", order := 1, isUnlocked := false }] }]
      lessons :=
        [{ id := "l1", courseId := "c1", name := "L1", order := 0,
           sentenceIds := ["s1"], isUnlocked := true },
         { id := "l2", courseId := "c1", name := "L2", order := 1,
           sentenceIds := [], isUnlocked := false }]
      sentences :=
        [{ id := "s1", lessonId := "l1", index := 0, french := "le",
           english := "the", createdAt := 0 }]
      reviewStates := []
      masteryMap :=
        [{ sentenceId := "s1", isMastered := true, masteredAt := none,
           currentDifficulty := DifficultyPath.easy, transitionCount := 1 }]
      wordStats := []
      listenCompleted := ["s1"] } "l1" 5 (by decide)).2.2

/-! ## Fallback bulk import with rollback (src/engine/writing.ts, claim C9) -/

/-- A thrown JavaScript error, identified by its `name` (writing.ts
`isQuotaExceeded` inspects `err.name`). -/
structure JsError where
  name : String
deriving DecidableEq, Repr

/-- writing.ts `isQuotaExceeded` (lines 599–602). -/
def isQuotaExceeded (err : JsError) : Bool :=
  err.name == "QuotaExceededError" || err.name == "NS_ERROR_DOM_QUOTA_REACHED"

/-- The error surfaced by `persistExcelImport`: either the distinct
user-actionable storage-quota error (`throw new Error('Storage quota
exceeded. ...')`) or the original failure re-thrown. -/
inductive ImportError where
  | storageQuota
  | failure (err : JsError)
deriving DecidableEq, Repr

/-- excelParse.ts `ExcelImportResult`. -/
structure ExcelImportResult where
  course : Course
  lessons : List Lesson
  sentences : List Sentence
  reviewStates : List ReviewState
  errors : List String
deriving Repr

/-- A word-index entry produced by the worker / chunked tokenizer. -/
structure WordIndexEntry where
  id : String
  text : String
  sentenceIds : List String
deriving DecidableEq, Repr

/-- files.ts `stripCourseNameExtension`: drop a case-insensitive `.xlsx` /
`.xls` suffix, trim, and fall back to the original on an empty result. -/
def stripCourseNameExtension (name : String) : String :=
  let lowered := String.mk (name.toList.map Char.toLower)
  let core :=
    if lowered.endsWith ".xlsx" then name.dropRight 5
    else if lowered.endsWith ".xls" then name.dropRight 4
    else name
  let trimmed := core.trim
  if trimmed = "" then name else trimmed

/-- courses.ts `addCourse`: refuse a duplicate id, else push. -/
def addCourse (st : AppState) (course : Course) : AppState :=
  if st.courses.any (fun c => c.id == course.id) then st
  else { st with courses := st.courses ++ [course] }

/-- courses.ts `addLesson`: refuse a duplicate id, else push the lesson and
insert its summary ref (sorted by order) into the parent course if the ref
is not already there. -/
def addLesson (st : AppState) (lesson : Lesson) : AppState :=
  if st.lessons.any (fun l => l.id == lesson.id) then st
  else
    let st1 := { st with lessons := st.lessons ++ [lesson] }
    match st1.courses.find? (fun c => c.id == lesson.courseId) with
    | none => st1
    | some course =>
        if course.lessons.any (fun r => r.id == lesson.id) then st1
        else
          { st1 with
            courses := updateFirst (fun c => c.id == lesson.courseId)
              (fun c => { c with
                lessons := (c.lessons ++
                  ([{ id := lesson.id, name := lesson.name, order := lesson.order,
                      isUnlocked := lesson.isUnlocked }] : List LessonRef)).mergeSort
                  (fun a b => decide (a.order ≤ b.order)) }) st1.courses }

/-- sentences.ts `addSentences`: append the sentences whose ids are not
already present (the source tracks seen ids in a set while pushing). -/
def addSentencesList (acc : List Sentence) (newSentences : List Sentence) : List Sentence :=
  newSentences.foldl
    (fun acc s => if acc.any (fun t => t.id == s.id) then acc else acc ++ [s]) acc

/-- reviewStates.ts `setReviewStatesBatch` on the in-memory map:
`stateMap.set` for each state. -/
def setReviewStatesBatch (m : List ReviewState) (states : List ReviewState) :
    List ReviewState :=
  states.foldl (fun acc s => setState acc s) m

/-- The insertion-ordered de-duplication of `[...new Set([...a, ...b])]`. -/
def insertUnique (acc : List String) (id : String) : List String :=
  if acc.contains id then acc else acc ++ [id]

/-- JS `new Set` union keeping first occurrences. -/
def setMerge (a b : List String) : List String :=
  (a ++ b).foldl insertUnique []

/-- wordStats.ts `applyWordIndexEntries` (lines 94–116): merge each produced
entry's sentence ids into the existing word record. -/
def applyWordIndexEntries (wm : List WordStats) (entries : List WordIndexEntry) :
    List WordStats :=
  entries.foldl
    (fun acc e =>
      let existing := mapGet (fun w => w.id) acc e.id
      let sentenceIds := match existing with | some w => w.sentenceIds | none => []
      mapSet (fun w => w.id) acc
        { id := e.id
          text := e.text
          sentenceIds := setMerge sentenceIds e.sentenceIds
          totalSeenCount := match existing with | some w => w.totalSeenCount | none => 0
          lastSeenAt := match existing with | some w => w.lastSeenAt | none => none
          isMastered := match existing with | some w => w.isMastered | none => false })
    wm

/-- writing.ts `REVIEW_STATE_CHUNK_SIZE = 1000`. -/
def REVIEW_STATE_CHUNK_SIZE : Nat := 1000

/-- writing.ts `persistInChunks`: split into chunks of `n` (the source only
uses positive chunk sizes; `max n 1` guards termination). -/
def chunksOf {α : Type} (n : Nat) (l : List α) : List (List α) :=
  match l with
  | [] => []
  | a :: as => ((a :: as).take (max n 1)) :: chunksOf n ((a :: as).drop (max n 1))
termination_by l.length
decreasing_by
  simp [List.length_drop]

/-- The sequence of in-memory writes performed by the fallback
(non-IndexedDB) branch of writing.ts `persistExcelImport` (lines 745–779):
`addCourse` with the stripped display name, `addLesson` for each lesson,
`addSentences`, the review states in chunks of `REVIEW_STATE_CHUNK_SIZE`
via `setReviewStatesBatchAsync`, and finally `applyWordIndexEntries` unless
the reduced (skip-word-index) mode is active. -/
def fallbackWrites (r : ExcelImportResult) (entries : List WordIndexEntry)
    (skipWordIndex : Bool) : List (AppState → AppState) :=
  [fun st => addCourse st { r.course with name := stripCourseNameExtension r.course.name }]
  ++ r.lessons.map (fun l => fun st => addLesson st l)
  ++ [fun st => { st with sentences := addSentencesList st.sentences r.sentences }]
  ++ (chunksOf REVIEW_STATE_CHUNK_SIZE r.reviewStates).map
      (fun chunk => fun st =>
        { st with reviewStates := setReviewStatesBatch st.reviewStates chunk })
  ++ (if skipWordIndex then []
      else [fun st => { st with wordStats := applyWordIndexEntries st.wordStats entries }])

/-- Run a sequence of writes. -/
def applyWrites (ws : List (AppState → AppState)) (st : AppState) : AppState :=
  ws.foldl (fun s f => f s) st

/-- The fallback branch of writing.ts `persistExcelImport` with an injected
failure point: when `failAt = some (k, err)` the first `k` writes complete,
the error `err` is raised, the catch handler undoes everything written for
the import's course id (the same remove/prune/remove-sentences/remove-course
sequence as `deleteCourseCascade`), and the surfaced error is the distinct
storage-quota error when `isQuotaExceeded err`, else the original error. -/
def persistExcelImportFallback (r : ExcelImportResult) (entries : List WordIndexEntry)
    (skipWordIndex : Bool) (st : AppState) (failAt : Option (Nat × JsError)) :
    AppState × Option ImportError :=
  let ws := fallbackWrites r entries skipWordIndex
  match failAt with
  | none => (applyWrites ws st, none)
  | some (k, err) =>
      let written := applyWrites (ws.take k) st
      let cleaned := deleteCourseCascade written r.course.id
      (cleaned,
       some (if isQuotaExceeded err then ImportError.storageQuota else ImportError.failure err))

/-- The ids of the imported sentences. -/
def importedIds (r : ExcelImportResult) : List String :=
  r.sentences.map (fun s => s.id)

end ShadowFlow

/-! ## Rollback of the fallback import path (writing.ts `persistExcelImport`)

The remaining development models the sequential fallback writes with an
injected failure point and proves the catch handler's cleanup leaves no
reference to the failed import. -/


namespace ShadowFlow

theorem mem_mapSet {α κ : Type} [DecidableEq κ] {k : α → κ} {m : List α} {y x : α}
    (h : x ∈ mapSet k m y) : x ∈ m ∨ x = y := by
  unfold mapSet at h
  by_cases hany : m.any (fun t => decide (k t = k y)) = true
  · rw [if_pos hany] at h
    obtain ⟨t, ht, hx⟩ := List.mem_map.mp h
    by_cases hk : k t = k y
    · right
      rw [if_pos hk] at hx
      exact hx.symm
    · left
      rw [if_neg hk] at hx
      exact hx ▸ ht
  · rw [if_neg hany] at h
    rcases List.mem_append.mp h with h1 | h1
    · exact Or.inl h1
    · exact Or.inr (List.mem_singleton.mp h1)

theorem mem_setState {m : List ReviewState} {s x : ReviewState}
    (h : x ∈ setState m s) : x ∈ m ∨ x = s := by
  unfold setState at h
  by_cases hany : m.any (fun t => stateKeyMatches t s.sentenceId s.mode) = true
  · rw [if_pos hany] at h
    obtain ⟨t, ht, hx⟩ := List.mem_map.mp h
    by_cases hk : stateKeyMatches t s.sentenceId s.mode = true
    · right
      rw [if_pos hk] at hx
      exact hx.symm
    · left
      rw [if_neg hk] at hx
      exact hx ▸ ht
  · rw [if_neg hany] at h
    rcases List.mem_append.mp h with h1 | h1
    · exact Or.inl h1
    · exact Or.inr (List.mem_singleton.mp h1)

theorem mem_setReviewStatesBatch {m : List ReviewState} {c : List ReviewState}
    {x : ReviewState} (h : x ∈ setReviewStatesBatch m c) : x ∈ m ∨ x ∈ c := by
  induction c generalizing m with
  | nil => exact Or.inl h
  | cons s rest ih =>
      rcases ih (m := setState m s) h with h1 | h1
      · rcases mem_setState h1 with h2 | h2
        · exact Or.inl h2
        · exact Or.inr (h2 ▸ List.mem_cons_self s rest)
      · exact Or.inr (List.mem_cons_of_mem s h1)

theorem chunksOf_subset_aux {α : Type} (n : Nat) :
    ∀ (len : Nat) (l : List α), l.length ≤ len → ∀ c ∈ chunksOf n l, ∀ x ∈ c, x ∈ l := by
  intro len
  induction len with
  | zero =>
      intro l hl
      cases l with
      | nil =>
          intro c hc
          simp [chunksOf] at hc
      | cons a as => simp at hl
  | succ m ih =>
      intro l hl
      cases l with
      | nil =>
          intro c hc
          simp [chunksOf] at hc
      | cons a as =>
          intro c hc x hx
          rw [chunksOf] at hc
          rcases List.mem_cons.mp hc with h1 | h1
          · exact List.take_subset _ _ (h1 ▸ hx)
          · have hle : ((a :: as).drop (max n 1)).length ≤ m := by
              simp only [List.length_drop, List.length_cons]
              simp at hl
              omega
            have := ih ((a :: as).drop (max n 1)) hle c h1 x hx
            exact List.drop_subset _ _ this

theorem chunksOf_subset {α : Type} (n : Nat) (l : List α) :
    ∀ c ∈ chunksOf n l, ∀ x ∈ c, x ∈ l :=
  chunksOf_subset_aux n l.length l le_rfl

theorem mem_foldl_insertUnique (l : List String) :
    ∀ (acc : List String) (x : String), x ∈ l.foldl insertUnique acc → x ∈ acc ∨ x ∈ l := by
  induction l with
  | nil => exact fun acc x h => Or.inl h
  | cons y rest ih =>
      intro acc x h
      rcases ih (insertUnique acc y) x h with h1 | h1
      · unfold insertUnique at h1
        by_cases hc : acc.contains y = true
        · rw [if_pos hc] at h1
          exact Or.inl h1
        · rw [if_neg hc] at h1
          rcases List.mem_append.mp h1 with h2 | h2
          · exact Or.inl h2
          · exact Or.inr ((List.mem_singleton.mp h2) ▸ List.mem_cons_self y rest)
      · exact Or.inr (List.mem_cons_of_mem y h1)

theorem setMerge_subset {a b : List String} {x : String} (h : x ∈ setMerge a b) :
    x ∈ a ∨ x ∈ b := by
  unfold setMerge at h
  rcases mem_foldl_insertUnique (a ++ b) [] x h with h1 | h1
  · simp at h1
  · exact List.mem_append.mp h1

theorem mapGet_mem {α κ : Type} [DecidableEq κ] {k : α → κ} {m : List α} {key : κ} {w : α}
    (h : mapGet k m key = some w) : w ∈ m :=
  List.mem_of_find?_eq_some h

theorem applyWordIndexEntries_inv (Q : String → Prop) (entries : List WordIndexEntry)
    (hent : ∀ e ∈ entries, ∀ id ∈ e.sentenceIds, Q id) :
    ∀ (wm : List WordStats), (∀ w ∈ wm, ∀ id ∈ w.sentenceIds, Q id) →
      ∀ w ∈ applyWordIndexEntries wm entries, ∀ id ∈ w.sentenceIds, Q id := by
  induction entries with
  | nil => exact fun wm hacc w hw => hacc w hw
  | cons e rest ih =>
      intro wm hacc w hw id hid
      refine ih (fun e2 he2 => hent e2 (List.mem_cons_of_mem e he2)) _ ?_ w hw id hid
      intro w2 hw2 id2 hid2
      rcases mem_mapSet hw2 with h1 | h1
      · exact hacc w2 h1 id2 hid2
      · subst h1
        have hid2m : id2 ∈ setMerge
            (match mapGet (fun w => w.id) wm e.id with
             | some w => w.sentenceIds
             | none => []) e.sentenceIds := hid2
        rcases setMerge_subset hid2m with h2 | h2
        · cases hg : mapGet (fun w => w.id) wm e.id with
          | none =>
              rw [hg] at h2
              simp at h2
          | some w0 =>
              rw [hg] at h2
              exact hacc w0 (mapGet_mem hg) id2 h2
        · exact hent e (List.mem_cons_self e rest) id2 h2

end ShadowFlow

namespace ShadowFlow

theorem mem_addSentencesList {acc newSentences : List Sentence} {x : Sentence}
    (h : x ∈ addSentencesList acc newSentences) : x ∈ acc ∨ x ∈ newSentences := by
  induction newSentences generalizing acc with
  | nil => exact Or.inl h
  | cons s rest ih =>
      unfold addSentencesList at h
      simp only [List.foldl_cons] at h
      rcases @ih (if acc.any (fun t => t.id == s.id) then acc else acc ++ [s]) h with
        h1 | h1
      · by_cases hany : acc.any (fun t => t.id == s.id) = true
        · rw [if_pos hany] at h1
          exact Or.inl h1
        · rw [if_neg hany] at h1
          rcases List.mem_append.mp h1 with h2 | h2
          · exact Or.inl h2
          · exact Or.inr ((List.mem_singleton.mp h2) ▸ List.mem_cons_self s rest)
      · exact Or.inr (List.mem_cons_of_mem s h1)

theorem addSentencesList_grows {acc newSentences : List Sentence} {x : Sentence}
    (h : x ∈ acc) : x ∈ addSentencesList acc newSentences := by
  induction newSentences generalizing acc with
  | nil => exact h
  | cons s rest ih =>
      unfold addSentencesList
      simp only [List.foldl_cons]
      apply ih
      by_cases hany : acc.any (fun t => t.id == s.id) = true
      · rw [if_pos hany]
        exact h
      · rw [if_neg hany]
        exact List.mem_append.mpr (Or.inl h)

theorem addSentencesList_adds {newSentences : List Sentence} :
    ∀ (acc : List Sentence),
      (∀ s ∈ newSentences, ∀ t ∈ acc, t.id ≠ s.id) →
      ((newSentences.map (fun s => s.id)).Nodup) →
      ∀ s ∈ newSentences, s ∈ addSentencesList acc newSentences := by
  induction newSentences with
  | nil => simp
  | cons a rest ih =>
      intro acc hfresh hnd s hs
      have hany : acc.any (fun t => t.id == a.id) = false := by
        rw [List.any_eq_false]
        intro t ht
        simpa using hfresh a (List.mem_cons_self a rest) t ht
      have hstep : addSentencesList acc (a :: rest) = addSentencesList (acc ++ [a]) rest := by
        unfold addSentencesList
        simp only [List.foldl_cons, hany]
        rfl
      rw [hstep]
      simp only [List.map_cons, List.nodup_cons] at hnd
      rcases List.mem_cons.mp hs with h1 | h1
      · subst h1
        exact addSentencesList_grows (List.mem_append.mpr (Or.inr (List.mem_singleton.mpr rfl)))
      · refine ih (acc ++ [a]) ?_ hnd.2 s h1
        intro s2 hs2 t ht
        rcases List.mem_append.mp ht with h2 | h2
        · exact hfresh s2 (List.mem_cons_of_mem a hs2) t h2
        · rw [List.mem_singleton.mp h2]
          intro hc
          exact hnd.1 (hc ▸ List.mem_map.mpr ⟨s2, hs2, rfl⟩)

theorem applyWrites_append (ws1 ws2 : List (AppState → AppState)) (st : AppState) :
    applyWrites (ws1 ++ ws2) st = applyWrites ws2 (applyWrites ws1 st) := by
  unfold applyWrites
  exact List.foldl_append _ _ _ _

theorem applyWrites_take_append (ws1 ws2 : List (AppState → AppState)) (k : Nat)
    (st : AppState) :
    applyWrites ((ws1 ++ ws2).take k) st
      = applyWrites (ws2.take (k - ws1.length)) (applyWrites (ws1.take k) st) := by
  rw [List.take_append_eq_append_take]
  exact applyWrites_append _ _ _

theorem applyWrites_inv (P : AppState → Prop) (ws : List (AppState → AppState))
    (h : ∀ f ∈ ws, ∀ σ, P σ → P (f σ)) :
    ∀ σ, P σ → P (applyWrites ws σ) := by
  induction ws with
  | nil => exact fun σ hσ => hσ
  | cons f rest ih =>
      intro σ hσ
      exact ih (fun g hg => h g (List.mem_cons_of_mem f hg)) (f σ)
        (h f (List.mem_cons_self f rest) σ hσ)

theorem removeFirst_count_le_one {α : Type} {k : α → String} {x : String} {l : List α}
    (h : (l.map k).count x ≤ 1) :
    ∀ c ∈ removeFirst (fun c => k c == x) l, k c ≠ x := by
  induction l with
  | nil => simp [removeFirst]
  | cons a as ih =>
      intro c hc
      by_cases ha : (k a == x) = true
      · rw [removeFirst, if_pos ha] at hc
        intro hcx
        have hmem : x ∈ as.map k := List.mem_map.mpr ⟨c, hc, hcx⟩
        have h2 : 0 < (as.map k).count x := List.count_pos_iff.mpr hmem
        have h3 : (List.map k (a :: as)).count x = (as.map k).count x + 1 := by
          simp only [List.map_cons, List.count_cons]
          simp [ha]
        rw [h3] at h
        omega
      · rw [removeFirst, if_neg ha] at hc
        rcases List.mem_cons.mp hc with h1 | h1
        · subst h1
          simpa using ha
        · refine ih ?_ c h1
          simp only [List.map_cons, List.count_cons] at h
          omega

theorem prune_subset {wm : List WordStats} {ids : List String} {w : WordStats}
    (h : w ∈ pruneWordStatsBySentenceIds wm ids) :
    ∃ w0 ∈ wm, ∀ id ∈ w.sentenceIds, id ∈ w0.sentenceIds := by
  obtain ⟨w0, hw0, hf⟩ := List.mem_filterMap.mp h
  refine ⟨w0, hw0, ?_⟩
  by_cases hempty : (w0.sentenceIds.filter (fun id => !ids.contains id)).isEmpty = true
  · rw [if_pos hempty] at hf
    exact Option.noConfusion hf
  · rw [if_neg hempty] at hf
    by_cases hlen : (w0.sentenceIds.filter (fun id => !ids.contains id)).length
        ≠ w0.sentenceIds.length
    · rw [if_pos hlen] at hf
      have hw : w = { w0 with
          sentenceIds := w0.sentenceIds.filter (fun id => !ids.contains id) } :=
        (Option.some.inj hf).symm
      intro id hid
      rw [hw] at hid
      exact List.mem_of_mem_filter hid
    · rw [if_neg hlen] at hf
      have hw : w = w0 := (Option.some.inj hf).symm
      intro id hid
      exact hw ▸ hid

end ShadowFlow

namespace ShadowFlow

theorem addCourse_fields (σ : AppState) (course : Course) :
    (addCourse σ course).sentences = σ.sentences
    ∧ (addCourse σ course).reviewStates = σ.reviewStates
    ∧ (addCourse σ course).wordStats = σ.wordStats
    ∧ (addCourse σ course).masteryMap = σ.masteryMap := by
  unfold addCourse
  by_cases hany : σ.courses.any (fun c => c.id == course.id) = true
  · rw [if_pos hany]
    exact ⟨rfl, rfl, rfl, rfl⟩
  · rw [if_neg hany]
    exact ⟨rfl, rfl, rfl, rfl⟩

theorem addCourse_count (σ : AppState) (course : Course)
    (h : ((σ.courses.map (fun c => c.id)).count course.id) ≤ 1) :
    (((addCourse σ course).courses.map (fun c => c.id)).count course.id) ≤ 1 := by
  unfold addCourse
  by_cases hany : σ.courses.any (fun c => c.id == course.id) = true
  · rw [if_pos hany]
    exact h
  · rw [if_neg hany]
    have hzero : ((σ.courses.map (fun c => c.id)).count course.id) = 0 := by
      rw [List.count_eq_zero]
      intro hmem
      obtain ⟨c, hc, hcid⟩ := List.mem_map.mp hmem
      have := (List.any_eq_false.mp (Bool.eq_false_iff.mpr hany)) c hc
      simp [hcid] at this
    show ((σ.courses ++ [course]).map (fun c => c.id)).count course.id ≤ 1
    rw [List.map_append, List.count_append, hzero]
    simp

theorem addLesson_fields (σ : AppState) (lesson : Lesson) :
    (addLesson σ lesson).sentences = σ.sentences
    ∧ (addLesson σ lesson).reviewStates = σ.reviewStates
    ∧ (addLesson σ lesson).wordStats = σ.wordStats
    ∧ (addLesson σ lesson).masteryMap = σ.masteryMap
    ∧ (addLesson σ lesson).courses.map (fun c => c.id) = σ.courses.map (fun c => c.id) := by
  unfold addLesson
  by_cases hany : σ.lessons.any (fun l => l.id == lesson.id) = true
  · rw [if_pos hany]
    exact ⟨rfl, rfl, rfl, rfl, rfl⟩
  · rw [if_neg hany]
    simp only []
    cases hfind : σ.courses.find? (fun c => c.id == lesson.courseId) with
    | none => exact ⟨rfl, rfl, rfl, rfl, rfl⟩
    | some course =>
        dsimp only
        by_cases hany2 : course.lessons.any (fun r => r.id == lesson.id) = true
        · rw [if_pos hany2]
          exact ⟨rfl, rfl, rfl, rfl, rfl⟩
        · rw [if_neg hany2]
          refine ⟨rfl, rfl, rfl, rfl, ?_⟩
          exact map_updateFirst (fun a ha hpa => rfl)

end ShadowFlow

namespace ShadowFlow

theorem deleteCourseCascade_clean (σ : AppState) (cid : String) (imported : List String)
    (hrv : ∀ rs ∈ σ.reviewStates, rs.sentenceId ∉ imported
        ∨ rs.sentenceId ∈ getSentenceIdsByFileId σ cid)
    (hma : ∀ m ∈ σ.masteryMap, m.sentenceId ∉ imported)
    (hws : ∀ w ∈ σ.wordStats, ∀ id ∈ w.sentenceIds, id ∉ imported
        ∨ id ∈ getSentenceIdsByFileId σ cid)
    (hcc : ((σ.courses.map (fun c => c.id)).count cid) ≤ 1) :
    (∀ c ∈ (deleteCourseCascade σ cid).courses, c.id ≠ cid)
    ∧ (∀ l ∈ (deleteCourseCascade σ cid).lessons, l.courseId ≠ cid)
    ∧ (∀ s ∈ (deleteCourseCascade σ cid).sentences, s.sourceFileId ≠ some cid)
    ∧ (∀ rs ∈ (deleteCourseCascade σ cid).reviewStates, rs.sentenceId ∉ imported)
    ∧ (∀ m ∈ (deleteCourseCascade σ cid).masteryMap, m.sentenceId ∉ imported)
    ∧ (∀ w ∈ (deleteCourseCascade σ cid).wordStats, ∀ id ∈ w.sentenceIds, id ∉ imported) := by
  have hrvE : (deleteCourseCascade σ cid).reviewStates
      = removeReviewStatesBySentenceIds
          (removeReviewStatesBySentenceIds σ.reviewStates (getSentenceIdsByFileId σ cid))
          (getSentenceIdsByFileId σ cid) := rfl
  have hmaE : (deleteCourseCascade σ cid).masteryMap
      = removeSentenceMasteryBySentenceIds
          (removeSentenceMasteryBySentenceIds σ.masteryMap (getSentenceIdsByFileId σ cid))
          (getSentenceIdsByFileId σ cid) := rfl
  have hwsE : (deleteCourseCascade σ cid).wordStats
      = pruneWordStatsBySentenceIds
          (pruneWordStatsBySentenceIds σ.wordStats (getSentenceIdsByFileId σ cid))
          (getSentenceIdsByFileId σ cid) := rfl
  have hseE : (deleteCourseCascade σ cid).sentences
      = σ.sentences.filter (fun s => !(getSentenceIdsByFileId σ cid).contains s.id) := rfl
  have hcoE : (deleteCourseCascade σ cid).courses
      = removeFirst (fun c => c.id == cid) σ.courses := rfl
  have hleE : (deleteCourseCascade σ cid).lessons
      = ((σ.sentences.filter (fun s => s.sourceFileId == some cid)).foldl
          (fun ls s =>
            updateFirst (fun l => l.id == s.lessonId)
              (fun l => { l with sentenceIds := l.sentenceIds.filter (fun id => id ≠ s.id) })
              ls)
          σ.lessons).filter (fun l => !(l.courseId == cid)) := rfl
  refine ⟨?_, ?_, ?_, ?_, ?_, ?_⟩
  · intro c hc
    rw [hcoE] at hc
    exact removeFirst_count_le_one hcc c hc
  · intro l hl
    rw [hleE] at hl
    have := (List.mem_filter.mp hl).2
    simpa using this
  · intro s hs
    rw [hseE] at hs
    have hid : s.id ∉ getSentenceIdsByFileId σ cid :=
      key_not_mem_of_mem_filter (fun x => x.id) (getSentenceIdsByFileId σ cid) _ s hs
    intro hsf
    apply hid
    have hmem : s ∈ σ.sentences := (List.mem_filter.mp hs).1
    exact List.mem_map.mpr ⟨s, List.mem_filter.mpr ⟨hmem, by simp [hsf]⟩, rfl⟩
  · intro rs hrs
    rw [hrvE] at hrs
    unfold removeReviewStatesBySentenceIds at hrs
    have hnotin : rs.sentenceId ∉ getSentenceIdsByFileId σ cid :=
      key_not_mem_of_mem_filter (fun x => x.sentenceId) (getSentenceIdsByFileId σ cid)
        _ rs hrs
    have hmem : rs ∈ σ.reviewStates :=
      List.mem_of_mem_filter (List.mem_of_mem_filter hrs)
    rcases hrv rs hmem with h1 | h1
    · exact h1
    · exact absurd h1 hnotin
  · intro m hm
    rw [hmaE] at hm
    unfold removeSentenceMasteryBySentenceIds at hm
    exact hma m (List.mem_of_mem_filter (List.mem_of_mem_filter hm))
  · intro w hw id hid
    rw [hwsE] at hw
    have hnotin : ∀ id2 ∈ w.sentenceIds, id2 ∉ getSentenceIdsByFileId σ cid :=
      (prune_no_orphans _ _ w hw).2
    obtain ⟨w1, hw1, hsub1⟩ := prune_subset hw
    obtain ⟨w0, hw0, hsub0⟩ := prune_subset hw1
    rcases hws w0 hw0 id (hsub0 id (hsub1 id hid)) with h1 | h1
    · exact h1
    · exact absurd h1 (hnotin id hid)

end ShadowFlow


namespace ShadowFlow

/-- Invariant before the sentence write: all tables except courses/lessons
still equal the initial state, and at most one course carries the import id. -/
def keepsBase (st σ : AppState) (cid : String) : Prop :=
  σ.sentences = st.sentences ∧ σ.reviewStates = st.reviewStates
  ∧ σ.wordStats = st.wordStats ∧ σ.masteryMap = st.masteryMap
  ∧ ((σ.courses.map (fun c => c.id)).count cid) ≤ 1

/-- Invariant after the sentence write: the imported sentences are present,
review states come from the initial state or the parsed import, word-stat
references come from the initial state or the imported ids, and at most one
course carries the import id. -/
def partialImport (r : ExcelImportResult) (st σ : AppState) : Prop :=
  (∀ s ∈ r.sentences, s ∈ σ.sentences)
  ∧ σ.masteryMap = st.masteryMap
  ∧ (∀ rs ∈ σ.reviewStates, rs ∈ st.reviewStates ∨ rs ∈ r.reviewStates)
  ∧ (∀ w ∈ σ.wordStats, ∀ id ∈ w.sentenceIds,
      (∃ w0 ∈ st.wordStats, id ∈ w0.sentenceIds) ∨ id ∈ importedIds r)
  ∧ ((σ.courses.map (fun c => c.id)).count r.course.id) ≤ 1

theorem keepsBase_course (st σ : AppState) (cid : String) (course : Course)
    (hc : course.id = cid) (k : Nat) (h : keepsBase st σ cid) :
    keepsBase st (applyWrites (([fun st => addCourse st course] :
      List (AppState → AppState)).take k) σ) cid := by
  refine applyWrites_inv (fun σ2 => keepsBase st σ2 cid) _ ?_ σ h
  intro f hf σ2 hσ2
  have hf2 := List.take_subset _ _ hf
  rw [List.mem_singleton] at hf2
  subst hf2
  obtain ⟨e1, e2, e3, e4, e5⟩ := hσ2
  obtain ⟨g1, g2, g3, g4⟩ := addCourse_fields σ2 course
  refine ⟨g1.trans e1, g2.trans e2, g3.trans e3, g4.trans e4, ?_⟩
  rw [← hc] at e5 ⊢
  exact addCourse_count σ2 course e5

theorem keepsBase_lessons (st σ : AppState) (cid : String) (lessons : List Lesson)
    (k : Nat) (h : keepsBase st σ cid) :
    keepsBase st (applyWrites ((lessons.map (fun l => fun st => addLesson st l)).take k) σ)
      cid := by
  refine applyWrites_inv (fun σ2 => keepsBase st σ2 cid) _ ?_ σ h
  intro f hf σ2 hσ2
  have hf2 := List.take_subset _ _ hf
  obtain ⟨l, hl, hfl⟩ := List.mem_map.mp hf2
  subst hfl
  obtain ⟨e1, e2, e3, e4, e5⟩ := hσ2
  obtain ⟨g1, g2, g3, g4, g5⟩ := addLesson_fields σ2 l
  exact ⟨g1.trans e1, g2.trans e2, g3.trans e3, g4.trans e4, by rw [g5]; exact e5⟩

theorem partialImport_chunks (r : ExcelImportResult) (st σ : AppState)
    (k : Nat) (h : partialImport r st σ) :
    partialImport r st
      (applyWrites (((chunksOf REVIEW_STATE_CHUNK_SIZE r.reviewStates).map
        (fun chunk => fun st =>
          { st with reviewStates := setReviewStatesBatch st.reviewStates chunk })).take k)
        σ) := by
  refine applyWrites_inv (fun σ2 => partialImport r st σ2) _ ?_ σ h
  intro f hf σ2 hσ2
  have hf2 := List.take_subset _ _ hf
  obtain ⟨chunk, hchunk, hfl⟩ := List.mem_map.mp hf2
  subst hfl
  obtain ⟨e1, e2, e3, e4, e5⟩ := hσ2
  refine ⟨e1, e2, ?_, e4, e5⟩
  intro rs hrs
  rcases mem_setReviewStatesBatch hrs with h1 | h1
  · exact e3 rs h1
  · exact Or.inr (chunksOf_subset _ _ chunk hchunk rs h1)

theorem partialImport_words (r : ExcelImportResult) (st σ : AppState)
    (entries : List WordIndexEntry) (skipWordIndex : Bool)
    (h3b : ∀ e ∈ entries, ∀ id ∈ e.sentenceIds, id ∈ importedIds r)
    (k : Nat) (h : partialImport r st σ) :
    partialImport r st
      (applyWrites ((if skipWordIndex then ([] : List (AppState → AppState))
        else [fun st =>
          { st with wordStats := applyWordIndexEntries st.wordStats entries }]).take k)
        σ) := by
  refine applyWrites_inv (fun σ2 => partialImport r st σ2) _ ?_ σ h
  intro f hf σ2 hσ2
  have hf2 := List.take_subset _ _ hf
  by_cases hskip : skipWordIndex = true
  · rw [if_pos hskip] at hf2
    simp at hf2
  · rw [if_neg hskip] at hf2
    rw [List.mem_singleton] at hf2
    subst hf2
    obtain ⟨e1, e2, e3, e4, e5⟩ := hσ2
    refine ⟨e1, e2, e3, ?_, e5⟩
    exact applyWordIndexEntries_inv _ entries
      (fun e he id hid => Or.inr (h3b e he id hid)) σ2.wordStats e4

end ShadowFlow

namespace ShadowFlow

theorem sentWrite_partialImport (r : ExcelImportResult) (st σ : AppState)
    (h : keepsBase st σ r.course.id)
    (h5 : ∀ s ∈ r.sentences, ∀ t ∈ st.sentences, t.id ≠ s.id)
    (h10 : (r.sentences.map (fun s => s.id)).Nodup) :
    partialImport r st { σ with sentences := addSentencesList σ.sentences r.sentences } := by
  obtain ⟨e1, e2, e3, e4, e5⟩ := h
  refine ⟨?_, e4, ?_, ?_, e5⟩
  · intro s hs
    show s ∈ addSentencesList σ.sentences r.sentences
    rw [e1]
    exact addSentencesList_adds st.sentences h5 h10 s hs
  · intro rs hrs
    left
    rw [← e2]
    exact hrs
  · intro w hw id hid
    left
    exact ⟨w, e3 ▸ hw, hid⟩

theorem tail_phase (r : ExcelImportResult) (entries : List WordIndexEntry)
    (skipWordIndex : Bool) (st σ : AppState)
    (h5 : ∀ s ∈ r.sentences, ∀ t ∈ st.sentences, t.id ≠ s.id)
    (h10 : (r.sentences.map (fun s => s.id)).Nodup)
    (h3b : ∀ e ∈ entries, ∀ id ∈ e.sentenceIds, id ∈ importedIds r)
    (hb : keepsBase st σ r.course.id)
    (n2 n3 n4 : Nat) (hchain : n2 = 0 → n3 = 0 ∧ n4 = 0) :
    keepsBase st
      (applyWrites ((if skipWordIndex then ([] : List (AppState → AppState))
          else [fun st =>
            { st with wordStats := applyWordIndexEntries st.wordStats entries }]).take n4)
        (applyWrites (((chunksOf REVIEW_STATE_CHUNK_SIZE r.reviewStates).map
            (fun chunk => fun st =>
              { st with reviewStates := setReviewStatesBatch st.reviewStates chunk })).take n3)
          (applyWrites (([fun st =>
              { st with sentences := addSentencesList st.sentences r.sentences }] :
              List (AppState → AppState)).take n2) σ))) r.course.id
    ∨ partialImport r st
      (applyWrites ((if skipWordIndex then ([] : List (AppState → AppState))
          else [fun st =>
            { st with wordStats := applyWordIndexEntries st.wordStats entries }]).take n4)
        (applyWrites (((chunksOf REVIEW_STATE_CHUNK_SIZE r.reviewStates).map
            (fun chunk => fun st =>
              { st with reviewStates := setReviewStatesBatch st.reviewStates chunk })).take n3)
          (applyWrites (([fun st =>
              { st with sentences := addSentencesList st.sentences r.sentences }] :
              List (AppState → AppState)).take n2) σ))) := by
  cases n2 with
  | zero =>
      obtain ⟨h3z, h4z⟩ := hchain rfl
      subst h3z
      subst h4z
      left
      exact hb
  | succ m =>
      right
      rw [List.take_succ_cons, List.take_nil]
      exact partialImport_words r st _ entries skipWordIndex h3b n4
        (partialImport_chunks r st _ n3 (sentWrite_partialImport r st σ hb h5 h10))

set_option maxHeartbeats 1000000 in
theorem fallback_take_phase (r : ExcelImportResult) (entries : List WordIndexEntry)
    (skipWordIndex : Bool) (st : AppState) (k : Nat)
    (h5 : ∀ s ∈ r.sentences, ∀ t ∈ st.sentences, t.id ≠ s.id)
    (h10 : (r.sentences.map (fun s => s.id)).Nodup)
    (h3b : ∀ e ∈ entries, ∀ id ∈ e.sentenceIds, id ∈ importedIds r)
    (hq : ((st.courses.map (fun c => c.id)).count r.course.id) ≤ 1) :
    keepsBase st (applyWrites ((fallbackWrites r entries skipWordIndex).take k) st)
      r.course.id
    ∨ partialImport r st
        (applyWrites ((fallbackWrites r entries skipWordIndex).take k) st) := by
  unfold fallbackWrites
  rw [applyWrites_take_append, applyWrites_take_append, applyWrites_take_append,
    applyWrites_take_append]
  refine tail_phase r entries skipWordIndex st _ h5 h10 h3b ?_ _ _ _ ?_
  · have hb1 : keepsBase st (applyWrites (List.take k
        ([fun st => addCourse st
          { r.course with name := stripCourseNameExtension r.course.name }] :
          List (AppState → AppState))) st) r.course.id :=
      keepsBase_course st st r.course.id
        { r.course with name := stripCourseNameExtension r.course.name } rfl k
        ⟨rfl, rfl, rfl, rfl, hq⟩
    exact keepsBase_lessons st _ r.course.id r.lessons _ hb1
  · intro h0
    simp only [List.length_append] at h0 ⊢
    omega

set_option maxHeartbeats 1000000 in
/-- C9: when the fallback (non-IndexedDB) backend is active and the write
sequence of `persistExcelImport` fails at any point `k`, the catch handler
deletes everything already written for the import's course id — the course
record, its lessons, its sentences, and every review state, mastery entry and
word-stat reference to an imported sentence id — and the surfaced error is the
distinct storage-quota error exactly when `isQuotaExceeded` holds of the raised
error, the generic failure otherwise.  The hypotheses say the import is well
formed and fresh: imported sentences carry the course id as `sourceFileId`,
parsed review states and word-index entries point at imported sentences, the
imported ids are new and pairwise distinct, and the initial state does not
reference them or reuse the course id. -/
theorem persistExcelImportFallback_rollback
    (r : ExcelImportResult) (entries : List WordIndexEntry) (skipWordIndex : Bool)
    (st : AppState) (k : Nat) (err : JsError)
    (h1 : ∀ s ∈ r.sentences, s.sourceFileId = some r.course.id)
    (h3 : ∀ rs ∈ r.reviewStates, rs.sentenceId ∈ importedIds r)
    (h3b : ∀ e ∈ entries, ∀ id ∈ e.sentenceIds, id ∈ importedIds r)
    (h5 : ∀ s ∈ r.sentences, ∀ t ∈ st.sentences, t.id ≠ s.id)
    (h6 : ∀ m ∈ st.masteryMap, m.sentenceId ∉ importedIds r)
    (h7 : ∀ rs ∈ st.reviewStates, rs.sentenceId ∉ importedIds r)
    (h8 : ∀ w ∈ st.wordStats, ∀ id ∈ w.sentenceIds, id ∉ importedIds r)
    (h9 : ∀ c ∈ st.courses, c.id ≠ r.course.id)
    (h10 : (r.sentences.map (fun s => s.id)).Nodup) :
    (persistExcelImportFallback r entries skipWordIndex st (some (k, err))).2
      = some (if isQuotaExceeded err then ImportError.storageQuota
          else ImportError.failure err)
    ∧ (∀ c ∈ (persistExcelImportFallback r entries skipWordIndex st (some (k, err))).1.courses,
        c.id ≠ r.course.id)
    ∧ (∀ l ∈ (persistExcelImportFallback r entries skipWordIndex st (some (k, err))).1.lessons,
        l.courseId ≠ r.course.id)
    ∧ (∀ s ∈ (persistExcelImportFallback r entries skipWordIndex st
        (some (k, err))).1.sentences, s.sourceFileId ≠ some r.course.id)
    ∧ (∀ rs ∈ (persistExcelImportFallback r entries skipWordIndex st
        (some (k, err))).1.reviewStates, rs.sentenceId ∉ importedIds r)
    ∧ (∀ m ∈ (persistExcelImportFallback r entries skipWordIndex st
        (some (k, err))).1.masteryMap, m.sentenceId ∉ importedIds r)
    ∧ (∀ w ∈ (persistExcelImportFallback r entries skipWordIndex st
        (some (k, err))).1.wordStats, ∀ id ∈ w.sentenceIds, id ∉ importedIds r) := by
  have hq : ((st.courses.map (fun c => c.id)).count r.course.id) ≤ 1 := by
    have hz : r.course.id ∉ st.courses.map (fun c => c.id) := by
      intro hmem
      obtain ⟨c, hc, hcid⟩ := List.mem_map.mp hmem
      exact h9 c hc hcid
    rw [List.count_eq_zero.mpr hz]
    omega
  set W := applyWrites ((fallbackWrites r entries skipWordIndex).take k) st with hW
  have hphase := fallback_take_phase r entries skipWordIndex st k h5 h10 h3b hq
  rw [← hW] at hphase
  have himp : ∀ id ∈ importedIds r,
      (∀ s2 ∈ r.sentences, s2 ∈ W.sentences) →
      id ∈ getSentenceIdsByFileId W r.course.id := by
    intro id hid hpres
    obtain ⟨s, hs, hsid⟩ := List.mem_map.mp hid
    refine List.mem_map.mpr ⟨s, List.mem_filter.mpr ⟨hpres s hs, ?_⟩, hsid⟩
    rw [h1 s hs]
    simp
  have hrv : ∀ rs ∈ W.reviewStates, rs.sentenceId ∉ importedIds r
      ∨ rs.sentenceId ∈ getSentenceIdsByFileId W r.course.id := by
    rcases hphase with hb | hp
    · intro rs hrs
      rw [hb.2.1] at hrs
      exact Or.inl (h7 rs hrs)
    · intro rs hrs
      rcases hp.2.2.1 rs hrs with hcase | hcase
      · exact Or.inl (h7 rs hcase)
      · exact Or.inr (himp _ (h3 rs hcase) hp.1)
  have hma : ∀ m ∈ W.masteryMap, m.sentenceId ∉ importedIds r := by
    rcases hphase with hb | hp
    · intro m hm
      rw [hb.2.2.2.1] at hm
      exact h6 m hm
    · intro m hm
      rw [hp.2.1] at hm
      exact h6 m hm
  have hwsb : ∀ w ∈ W.wordStats, ∀ id ∈ w.sentenceIds, id ∉ importedIds r
      ∨ id ∈ getSentenceIdsByFileId W r.course.id := by
    rcases hphase with hb | hp
    · intro w hw id hid
      rw [hb.2.2.1] at hw
      exact Or.inl (h8 w hw id hid)
    · intro w hw id hid
      rcases hp.2.2.2.1 w hw id hid with ⟨w0, hw0, hidw0⟩ | hcase
      · exact Or.inl (h8 w0 hw0 id hidw0)
      · exact Or.inr (himp id hcase hp.1)
  have hcc : ((W.courses.map (fun c => c.id)).count r.course.id) ≤ 1 := by
    rcases hphase with hb | hp
    · exact hb.2.2.2.2
    · exact hp.2.2.2.2
  obtain ⟨c1, c2, c3, c4, c5, c6⟩ :=
    deleteCourseCascade_clean W r.course.id (importedIds r) hrv hma hwsb hcc
  exact ⟨rfl, c1, c2, c3, c4, c5, c6⟩

def importResultW : ExcelImportResult :=
  { course := { id := "c1", name := "Course.xlsx", createdAt := 0, lessons := [] }
    lessons := []
    sentences :=
      [{ id := "s1", lessonId := "l1", index := 0, french := "Bonjour",
         english := "Hello", sourceFileId := some "c1", createdAt := 0 }]
    reviewStates := []
    errors := [] }

def emptyStateW : AppState :=
  { courses := []
    lessons := []
    sentences := []
    reviewStates := []
    masteryMap := []
    wordStats := []
    listenCompleted := [] }

theorem persistExcelImportFallback_rollback_witness :
    (persistExcelImportFallback importResultW [] false emptyStateW
        (some (1, ⟨"QuotaExceededError"⟩))).2 = some ImportError.storageQuota
    ∧ ∀ c ∈ (persistExcelImportFallback importResultW [] false emptyStateW
        (some (1, ⟨"QuotaExceededError"⟩))).1.courses, c.id ≠ importResultW.course.id := by
  have h := persistExcelImportFallback_rollback importResultW [] false emptyStateW 1
    ⟨"QuotaExceededError"⟩ (by decide) (by decide) (by decide) (by decide) (by decide)
    (by decide) (by decide) (by decide) (by decide)
  exact ⟨h.1.trans (by rfl), h.2.1⟩

end ShadowFlow
